import Mathlib

/-!
# flowdriver: protocol execution engine

A shallow embedding of the request/result contract, the credential injector
(`AuthManager`), and the HTTP, WebSocket, ZeroMQ and gRPC handlers of
`flowdriver`, followed by theorems about them.

Conventions of the embedding

* `std::string` is `String`; `find`/`substr` are `strFind`/`strSubstr` below.
  Positions count characters; the characters searched for are ASCII, so the
  pieces cut out are those the byte positions of the source cut out.
* A C++ function that can throw returns an `Outcome`; the exception classes the
  handlers distinguish in their `catch` clauses are the constructors of `Thrown`.
* Calls into the socket, stream and channel libraries are answered by an
  environment record (`ZmqEnv`, `RestEnv`, `WsEnv`, `ConnectEnv`, `GrpcEnv`); every call made
  is appended to the `log` of the handler state, so "no I/O was performed" is
  "the log did not grow".
-/

namespace flowdriver

/-! ## core/error.hpp, core/types.hpp -/

inductive ErrorCode
  | NONE | INVALID_ARGUMENT | INTERNAL_ERROR | INVALID_STATE | NETWORK_ERROR
  | SSL_ERROR | TIMEOUT | PARSE_ERROR | INVALID_CONFIG | UNKNOWN
  | PROTOCOL_ERROR | ZMQ_ERROR
  deriving DecidableEq, Repr

/-- What a C++ call can throw, by the classes the handlers catch separately:
`flowdriver::Error`, `zmq::error_t`, `boost::system::system_error`
(`beast::system_error` is the same class) and any other `std::exception`. -/
inductive Thrown
  | error (code : ErrorCode) (message : String)
  | zmq (what : String)
  | system (what : String)
  | other (what : String)
  deriving DecidableEq, Repr

/-- What the Boost libraries throw: `boost::system::system_error` or some other
`std::exception`. -/
inductive LibException
  | system (what : String)
  | other (what : String)
  deriving DecidableEq, Repr

/-- Result of running a C++ function: it returns, it throws, or it dereferences
a null `unique_ptr` (undefined behaviour, no exception is raised). -/
inductive Outcome (α : Type)
  | ok (a : α)
  | thrown (t : Thrown)
  | nullDeref
  deriving DecidableEq, Repr

/-- The call failed with a `flowdriver::Error` of kind `c`. -/
def Outcome.failsWith {α : Type} (o : Outcome α) (c : ErrorCode) : Prop :=
  ∃ msg, o = Outcome.thrown (Thrown.error c msg)

structure Header where
  name : String
  value : String
  deriving DecidableEq, Repr

inductive Protocol
  | REST | WEBSOCKET | GRPC | ZEROMQ
  deriving DecidableEq, Repr

inductive AuthType
  | NONE | BASIC | BEARER | API_KEY
  deriving DecidableEq, Repr

structure AuthConfig where
  type : AuthType := AuthType.NONE
  username : String := ""
  password : String := ""
  token : String := ""
  api_key : String := ""
  api_key_location : String := ""
  api_key_name : String := ""
  deriving DecidableEq, Repr

structure RequestConfig where
  protocol : Protocol := Protocol.REST
  method : String := ""
  url : String := ""
  headers : List Header := []
  body : String := ""
  auth : Option AuthConfig := none
  timeout : Nat := 5000
  deriving DecidableEq, Repr

structure RequestMetrics where
  total_time : Nat := 0
  dns_time : Nat := 0
  connect_time : Nat := 0
  tls_time : Nat := 0
  first_byte_time : Nat := 0
  bytes_sent : Nat := 0
  bytes_received : Nat := 0
  deriving DecidableEq, Repr

structure RequestResult where
  status_code : Int := 0
  headers : List Header := []
  body : String := ""
  metrics : RequestMetrics := {}
  error : String := ""
  deriving DecidableEq, Repr

/-! ## std::string helpers -/

/-- Index of the first element of `l` satisfying `p`, counted from `i`. -/
def findIdxFrom {α : Type} (p : α → Bool) : List α → Nat → Option Nat
  | [], _ => none
  | a :: l, i => if p a then some i else findIdxFrom p l (i + 1)

/-- The call `s.find(c, start)`: position of the first `c` at or after `start`
(`none` is `std::string::npos`). -/
def strFind (s : String) (c : Char) (start : Nat) : Option Nat :=
  findIdxFrom (fun x => x == c) (s.data.drop start) start

/-- The call `s.substr(pos)`. -/
def strSubstrFrom (s : String) (pos : Nat) : String :=
  String.mk (s.data.drop pos)

/-- The call `s.substr(pos, len)`. -/
def strSubstr (s : String) (pos len : Nat) : String :=
  String.mk ((s.data.drop pos).take len)

/-- The bytes held by a `std::string` whose text is `s` (UTF-8). -/
def strBytes (s : String) : List Nat :=
  (s.data.flatMap String.utf8EncodeChar).map UInt8.toNat

/-- The call `s.size()`, a number of bytes. -/
def strSize (s : String) : Nat :=
  (strBytes s).length

/-! ## core/auth_manager.cpp -/

def base64_alphabet : List Char :=
  "ABCDEFGHIJKLMNOPQRSTUVWXYZabcdefghijklmnopqrstuvwxyz0123456789+/".data

def base64_tab (i : Nat) : Char :=
  base64_alphabet.getD i '='

/-- Modelled from the spec: `boost::beast::detail::base64::encode`, which
`applyAuth` calls and which is library code outside the sources; the spec asks
for `base64(user:pass)`, the standard padded encoding: three bytes give four
alphabet characters, a tail of one or two bytes is padded with `=`. -/
def base64_encode : List Nat → List Char
  | a :: b :: c :: rest =>
      base64_tab (a / 4) :: base64_tab ((a % 4) * 16 + b / 16)
        :: base64_tab (c / 64 + (b % 16) * 4) :: base64_tab (c % 64)
        :: base64_encode rest
  | [a, b] =>
      [base64_tab (a / 4), base64_tab ((a % 4) * 16 + b / 16),
        base64_tab ((b % 16) * 4), '=']
  | [a] => [base64_tab (a / 4), base64_tab ((a % 4) * 16), '=', '=']
  | [] => []

/-- The base64 text of the bytes of a string. -/
def base64 (s : String) : String :=
  String.mk (base64_encode (strBytes s))

namespace AuthManager

/-- Fields of `AuthManager::Impl`. The refresh callback is a
`std::function<std::string()>` (`none` when empty); it is given the number of
earlier invocations, counted in `refresh_invocations`. -/
structure Impl where
  auth_type_ : AuthType
  credentials_ : String
  token_ : String
  refresh_callback_ : Option (Nat → String)
  api_key_name_ : String
  api_key_value_ : String
  api_key_in_header_ : Bool
  refresh_invocations : Nat

/-- A freshly constructed `Impl`; `api_key_in_header_` has no initialiser in the
source, so its initial value `b` is arbitrary. -/
def Impl.init (b : Bool) : Impl :=
  { auth_type_ := AuthType.NONE, credentials_ := "", token_ := "",
    refresh_callback_ := none, api_key_name_ := "", api_key_value_ := "",
    api_key_in_header_ := b, refresh_invocations := 0 }

def setBasicAuth (username password : String) (s : Impl) : Impl :=
  { s with auth_type_ := AuthType.BASIC, credentials_ := username ++ ":" ++ password }

def setBearerToken (token : String) (refresh_callback : Option (Nat → String))
    (s : Impl) : Impl :=
  { s with auth_type_ := AuthType.BEARER, token_ := token,
           refresh_callback_ := refresh_callback }

def setApiKey (name value : String) (in_header : Bool) (s : Impl) : Impl :=
  { s with auth_type_ := AuthType.API_KEY, api_key_name_ := name,
           api_key_value_ := value, api_key_in_header_ := in_header }

def shouldRefreshToken (_s : Impl) : Bool :=
  false

/-- The call `applyAuth(headers)`: the state after the call and the header list after it. -/
def applyAuth (s : Impl) (headers : List Header) : Impl × List Header :=
  match s.auth_type_ with
  | AuthType.BASIC =>
      (s, headers ++ [{ name := "Authorization", value := "Basic " ++ base64 s.credentials_ }])
  | AuthType.BEARER =>
      let s1 :=
        match s.refresh_callback_ with
        | some cb =>
            if shouldRefreshToken s then
              { s with token_ := cb s.refresh_invocations,
                       refresh_invocations := s.refresh_invocations + 1 }
            else s
        | none => s
      (s1, headers ++ [{ name := "Authorization", value := "Bearer " ++ s1.token_ }])
  | AuthType.API_KEY =>
      if s.api_key_in_header_ then
        (s, headers ++ [{ name := s.api_key_name_, value := s.api_key_value_ }])
      else (s, headers)
  | AuthType.NONE => (s, headers)

end AuthManager

/-! ## core/zeromq_handler.hpp, core/zeromq_handler.cpp -/

/-- Position of the first occurrence of `pat` in `l`, counted from `i`. -/
def findSubFrom (pat : List Char) : List Char → Nat → Option Nat
  | [], i => if pat.isEmpty then some i else none
  | c :: l, i => if pat.isPrefixOf (c :: l) then some i else findSubFrom pat l (i + 1)

/-- The call `s.find(pat, start)` for a string pattern. -/
def strFindStr (s pat : String) (start : Nat) : Option Nat :=
  if s.data.length < start then none else findSubFrom pat.data (s.data.drop start) start

namespace ZeroMQHandler

inductive Pattern
  | REQ_REP | PUB_SUB | PUSH_PULL | DEALER_ROUTER
  deriving DecidableEq, Repr

inductive Role
  | REQUESTER | REPLIER | PUBLISHER | SUBSCRIBER | PUSHER | PULLER | DEALER | ROUTER
  deriving DecidableEq, Repr

inductive ConnectionStatus
  | DISCONNECTED | CONNECTING | CONNECTED | ERROR
  deriving DecidableEq, Repr

def getAvailableRoles : Pattern → List Role
  | Pattern.REQ_REP => [Role.REQUESTER, Role.REPLIER]
  | Pattern.PUB_SUB => [Role.PUBLISHER, Role.SUBSCRIBER]
  | Pattern.PUSH_PULL => [Role.PUSHER, Role.PULLER]
  | Pattern.DEALER_ROUTER => [Role.DEALER, Role.ROUTER]

/-- The value of `zmq::socket_type` a socket is created with. -/
inductive SocketType
  | req | rep | pub | sub | push | pull | dealer | router
  deriving DecidableEq, Repr

/-- One `m_socket->set(zmq::sockopt::X, v)`. -/
inductive SockOpt
  | linger (v : Int)
  | rcvtimeo (v : Int)
  | sndtimeo (v : Int)
  | immediate (v : Int)
  | rcvhwm (v : Int)
  | sndhwm (v : Int)
  | reconnect_ivl (v : Int)
  | routing_id (v : String)
  | subscribe (v : String)
  deriving DecidableEq, Repr

/-- The `zmq::socket_t` behind `m_socket`: its type, its option values, and the
endpoint it is bound or connected to. -/
structure Socket where
  kind : SocketType
  linger : Int
  rcvtimeo : Int
  sndtimeo : Int
  immediate : Int
  rcvhwm : Int
  sndhwm : Int
  reconnect_ivl : Int
  routing_id : String
  subscriptions : List String
  bound : Option String
  connected : Option String
  deriving DecidableEq, Repr

/-- A socket as `zmq::socket_t(context, type)` leaves it (library defaults). -/
def Socket.fresh (kind : SocketType) : Socket :=
  { kind := kind, linger := -1, rcvtimeo := -1, sndtimeo := -1, immediate := 0,
    rcvhwm := 1000, sndhwm := 1000, reconnect_ivl := 100, routing_id := "",
    subscriptions := [], bound := none, connected := none }

def Socket.set (k : Socket) : SockOpt → Socket
  | SockOpt.linger v => { k with linger := v }
  | SockOpt.rcvtimeo v => { k with rcvtimeo := v }
  | SockOpt.sndtimeo v => { k with sndtimeo := v }
  | SockOpt.immediate v => { k with immediate := v }
  | SockOpt.rcvhwm v => { k with rcvhwm := v }
  | SockOpt.sndhwm v => { k with sndhwm := v }
  | SockOpt.reconnect_ivl v => { k with reconnect_ivl := v }
  | SockOpt.routing_id v => { k with routing_id := v }
  | SockOpt.subscribe v => { k with subscriptions := k.subscriptions ++ [v] }

/-- Result of `socket_t::send`: the optional holds a value, the optional is empty
(`EAGAIN`), or `zmq::error_t` is thrown. -/
inductive SendResult
  | sent | again | error (what : String)
  deriving DecidableEq, Repr

/-- Result of `socket_t::recv`: a message, an empty optional (`EAGAIN`, which is
what an elapsed receive timeout gives), or `zmq::error_t` thrown. -/
inductive RecvResult
  | msg (data : String) | again | error (what : String)
  deriving DecidableEq, Repr

/-- Everything the handler does to the outside: socket calls with their result,
thread start and join, sleeps, and emitted Qt signals. -/
inductive ZmqOp
  | create (kind : SocketType) (ok : Bool)
  | set (o : SockOpt) (ok : Bool)
  | bind (endpoint : String) (ok : Bool)
  | connect (endpoint : String) (ok : Bool)
  | unbind (endpoint : String) (ok : Bool)
  | disconnect (endpoint : String) (ok : Bool)
  | closeSocket
  | send (frame : String) (more : Bool) (r : SendResult)
  | recv (dontwait : Bool) (r : RecvResult)
  | threadStart
  | threadJoin
  | sleep (ms : Nat)
  | emitMessageReceived (message : String)
  | emitErrorOccurred (error : String)
  | emitConnectionStatusChanged
  deriving DecidableEq, Repr

/-- Operations on the socket itself. -/
def ZmqOp.isSocketOp : ZmqOp → Bool
  | ZmqOp.create _ _ => true
  | ZmqOp.set _ _ => true
  | ZmqOp.bind _ _ => true
  | ZmqOp.connect _ _ => true
  | ZmqOp.unbind _ _ => true
  | ZmqOp.disconnect _ _ => true
  | ZmqOp.closeSocket => true
  | ZmqOp.send _ _ _ => true
  | ZmqOp.recv _ _ => true
  | _ => false

/-- The answers of libzmq and of the operating system. Each is asked with the
number of operations logged so far, so that two calls with the same arguments
may be answered differently; `some what` is a thrown `zmq::error_t`. -/
structure ZmqEnv where
  create : Nat → SocketType → Option String
  setsockopt : Nat → SockOpt → Option String
  bind : Nat → String → Option String
  connect : Nat → String → Option String
  unbind : Nat → String → Option String
  disconnect : Nat → String → Option String
  send : Nat → String → Bool → SendResult
  recv : Nat → Bool → RecvResult
  rcvmore : Nat → Bool
  random : Nat → Nat

structure Metrics where
  messagesReceived : Nat := 0
  messagesSent : Nat := 0
  bytesReceived : Nat := 0
  bytesSent : Nat := 0
  deriving DecidableEq, Repr

/-- Members of `ZeroMQHandler`. `m_pollThread` tells whether the `unique_ptr`
holds a thread. -/
structure State where
  m_status : ConnectionStatus
  m_lastError : String
  m_socket : Option Socket
  m_pattern : Pattern
  m_role : Role
  m_endpoint : String
  m_timeout : Int
  m_running : Bool
  m_pollThread : Bool
  m_dealerId : String
  m_identity : String
  m_metrics : Metrics
  log : List ZmqOp
  deriving DecidableEq, Repr

/-- The handler as its constructor and member initialisers leave it. -/
def State.init : State :=
  { m_status := ConnectionStatus.DISCONNECTED, m_lastError := "", m_socket := none,
    m_pattern := Pattern.REQ_REP, m_role := Role.REQUESTER, m_endpoint := "",
    m_timeout := 500, m_running := false, m_pollThread := false, m_dealerId := "",
    m_identity := "", m_metrics := {}, log := [] }

def getConnectionStatus (s : State) : ConnectionStatus :=
  s.m_status

def getLastError (s : State) : String :=
  s.m_lastError

def record (op : ZmqOp) (s : State) : State :=
  { s with log := s.log ++ [op] }

def setConnectionStatus (status : ConnectionStatus) (s : State) : State :=
  if s.m_status ≠ status then
    record ZmqOp.emitConnectionStatusChanged { s with m_status := status }
  else s

/-- Sequencing of two calls: the second runs only when the first returned. -/
def andThen {α : Type} (r : Outcome Unit × State) (f : State → Outcome α × State) :
    Outcome α × State :=
  match r with
  | (Outcome.ok _, s) => f s
  | (Outcome.thrown t, s) => (Outcome.thrown t, s)
  | (Outcome.nullDeref, s) => (Outcome.nullDeref, s)

/-- The roles that bind (the others connect). -/
def isBindingRole (r : Role) : Bool :=
  r == Role.PUBLISHER || r == Role.PULLER || r == Role.REPLIER || r == Role.ROUTER

def stopPolling (s : State) : State :=
  let s1 := { s with m_running := false }
  let s2 := if s1.m_pollThread then record ZmqOp.threadJoin s1 else s1
  { s2 with m_pollThread := false }

/-- A call `m_socket->set(...)`. -/
def sockSet (env : ZmqEnv) (o : SockOpt) (s : State) : Outcome Unit × State :=
  match s.m_socket with
  | none => (Outcome.nullDeref, s)
  | some k =>
      match env.setsockopt s.log.length o with
      | none => (Outcome.ok (), record (ZmqOp.set o true) { s with m_socket := some (k.set o) })
      | some what => (Outcome.thrown (Thrown.zmq what), record (ZmqOp.set o false) s)

/-- Consecutive `m_socket->set(...)` calls. -/
def sockSetAll (env : ZmqEnv) : List SockOpt → State → Outcome Unit × State
  | [], s => (Outcome.ok (), s)
  | o :: os, s => andThen (sockSet env o s) (sockSetAll env os)

/-- The block `if (m_socket) { try { ... } catch (const std::exception&) { ... }
m_socket.reset(); }` of `close`. -/
def teardown (env : ZmqEnv) (s : State) : State :=
  match s.m_socket with
  | none => s
  | some _ =>
      let s3 :=
        match sockSet env (SockOpt.linger 0) s with
        | (Outcome.ok _, t) =>
            let t1 :=
              if isBindingRole t.m_role then
                record (ZmqOp.unbind t.m_endpoint
                  (env.unbind t.log.length t.m_endpoint).isNone) t
              else
                record (ZmqOp.disconnect t.m_endpoint
                  (env.disconnect t.log.length t.m_endpoint).isNone) t
            record ZmqOp.closeSocket t1
        | (_, t) => t
      { s3 with m_socket := none }

def close (env : ZmqEnv) (s : State) : State :=
  record (ZmqOp.sleep 500) (teardown env (stopPolling s))

/-- The call `std::make_unique<zmq::socket_t>(m_context, kind)` assigned to `m_socket`. -/
def createSocket (env : ZmqEnv) (kind : SocketType) (s : State) : Outcome Unit × State :=
  match env.create s.log.length kind with
  | none =>
      (Outcome.ok (), record (ZmqOp.create kind true) { s with m_socket := some (Socket.fresh kind) })
  | some what => (Outcome.thrown (Thrown.zmq what), record (ZmqOp.create kind false) s)

/-- The statement `if (m_pattern == Pattern::REQ_REP) { m_timeout = 30000; }`. -/
def widenTimeout (s : State) : State :=
  if s.m_pattern = Pattern.REQ_REP then { s with m_timeout := 30000 } else s

def setCommonSocketOptions (env : ZmqEnv) (s : State) : Outcome Unit × State :=
  match s.m_socket with
  | none => (Outcome.ok (), s)
  | some _ =>
      let s1 := widenTimeout s
      sockSetAll env
        [SockOpt.rcvtimeo s1.m_timeout, SockOpt.sndtimeo s1.m_timeout, SockOpt.immediate 1,
          SockOpt.rcvhwm 1000, SockOpt.sndhwm 1000, SockOpt.linger 0,
          SockOpt.reconnect_ivl 100] s1

/-- The endpoint with its host replaced by `*`, as computed in `configure` (and,
unused, in `setupDEALERROUTER`). -/
def bindEndpoint (endpoint : String) : String :=
  match strFindStr endpoint "//" 0 with
  | none => endpoint
  | some pos =>
      match strFind endpoint ':' (pos + 2) with
      | none => endpoint
      | some colonPos =>
          strSubstr endpoint 0 (pos + 2) ++ "*" ++ strSubstrFrom endpoint colonPos

def setupDEALERROUTER (env : ZmqEnv) (s : State) : Outcome Unit × State :=
  if s.m_role = Role.DEALER then
    andThen (createSocket env SocketType.dealer s) fun s1 =>
      let id := "DEALER-" ++ toString (env.random s1.log.length)
      let s2 := { s1 with m_dealerId := id, m_identity := id }
      sockSetAll env
        [SockOpt.routing_id id, SockOpt.linger 0, SockOpt.reconnect_ivl 1000,
          SockOpt.rcvtimeo s2.m_timeout, SockOpt.sndtimeo s2.m_timeout] s2
  else if s.m_role = Role.ROUTER then
    andThen (createSocket env SocketType.router s) fun s1 =>
      andThen (sockSetAll env
        [SockOpt.linger 0, SockOpt.rcvtimeo s1.m_timeout, SockOpt.sndtimeo s1.m_timeout] s1)
        fun s2 => (Outcome.ok (), { s2 with m_identity := "Client" })
  else (Outcome.ok (), s)

def setupREQREP (env : ZmqEnv) (s : State) : Outcome Unit × State :=
  if s.m_role = Role.REQUESTER then createSocket env SocketType.req s
  else if s.m_role = Role.REPLIER then createSocket env SocketType.rep s
  else (Outcome.ok (), s)

def setupPUBSUB (env : ZmqEnv) (s : State) : Outcome Unit × State :=
  if s.m_role = Role.PUBLISHER then
    andThen (createSocket env SocketType.pub s) fun s1 =>
      andThen (setCommonSocketOptions env s1) fun s2 =>
        sockSet env (SockOpt.linger 1000) s2
  else if s.m_role = Role.SUBSCRIBER then
    andThen (createSocket env SocketType.sub s) fun s1 =>
      andThen (setCommonSocketOptions env s1) fun s2 =>
        andThen (sockSet env (SockOpt.subscribe "") s2) fun s3 =>
          andThen (sockSet env (SockOpt.rcvtimeo 5000) s3) fun s4 =>
            (Outcome.ok (), record (ZmqOp.sleep 100) s4)
  else (Outcome.ok (), s)

def configureSocket (env : ZmqEnv) (pattern : Pattern) (role : Role) (s : State) :
    Outcome Unit × State :=
  match pattern with
  | Pattern.PUSH_PULL =>
      if role = Role.PUSHER then createSocket env SocketType.push s
      else if role = Role.PULLER then createSocket env SocketType.pull s
      else (Outcome.ok (), s)
  | Pattern.REQ_REP => setupREQREP env s
  | Pattern.PUB_SUB => setupPUBSUB env s
  | Pattern.DEALER_ROUTER => setupDEALERROUTER env s

def startPolling (s : State) : State :=
  let s1 := stopPolling s
  match s1.m_socket with
  | none => s1
  | some _ => record ZmqOp.threadStart { s1 with m_running := true, m_pollThread := true }

/-- The call `m_socket->bind(ep)` with its `catch` that rethrows as `Error`. -/
def bindSocket (env : ZmqEnv) (ep : String) (s : State) : Outcome Unit × State :=
  match s.m_socket with
  | none => (Outcome.nullDeref, s)
  | some k =>
      match env.bind s.log.length ep with
      | none =>
          (Outcome.ok (), record (ZmqOp.bind ep true) { s with m_socket := some { k with bound := some ep } })
      | some what =>
          (Outcome.thrown (Thrown.error ErrorCode.ZMQ_ERROR ("Failed to bind: " ++ what)),
            record (ZmqOp.bind ep false) s)

/-- The call `m_socket->connect(ep)` with its `catch` that rethrows as `Error`. -/
def connectSocket (env : ZmqEnv) (ep : String) (s : State) : Outcome Unit × State :=
  match s.m_socket with
  | none => (Outcome.nullDeref, s)
  | some k =>
      match env.connect s.log.length ep with
      | none =>
          (Outcome.ok (), record (ZmqOp.connect ep true) { s with m_socket := some { k with connected := some ep } })
      | some what =>
          (Outcome.thrown (Thrown.error ErrorCode.ZMQ_ERROR ("Failed to connect: " ++ what)),
            record (ZmqOp.connect ep false) s)

/-- The second half of the `try` block of `configure`: bind or connect, start
the poll thread, report `CONNECTED`. -/
def attach (env : ZmqEnv) (s : State) : Outcome Unit × State :=
  andThen
    (if isBindingRole s.m_role then bindSocket env (bindEndpoint s.m_endpoint) s
     else connectSocket env s.m_endpoint s)
    fun s3 => (Outcome.ok (), setConnectionStatus ConnectionStatus.CONNECTED (startPolling s3))

/-- The `try` block of `configure`. -/
def configureTry (env : ZmqEnv) (pattern : Pattern) (role : Role) (s : State) :
    Outcome Unit × State :=
  andThen (andThen (configureSocket env pattern role s) (setCommonSocketOptions env)) (attach env)

/-- The socket is bound (binding roles) or connected (the other roles) to the
endpoint `configure` was given. -/
def Socket.attachedFor (k : Socket) (role : Role) (endpoint : String) : Prop :=
  if isBindingRole role then k.bound = some (bindEndpoint endpoint)
  else k.connected = some endpoint

/-- The assignments `m_pattern = pattern; m_role = role; m_endpoint = endpoint;`. -/
def assignConfig (pattern : Pattern) (role : Role) (endpoint : String) (s : State) : State :=
  { s with m_pattern := pattern, m_role := role, m_endpoint := endpoint }

/-- The `catch (const zmq::error_t& e)` of `configure`: it takes `zmq::error_t`
only, so an `Error` thrown inside the `try` block passes through it. -/
def catchZmq (r : Outcome Unit × State) : Outcome Unit × State :=
  match r with
  | (Outcome.thrown (Thrown.zmq what), t) =>
      (Outcome.thrown (Thrown.error ErrorCode.ZMQ_ERROR what),
        setConnectionStatus ConnectionStatus.ERROR t)
  | r => r

/-- What `configure` does once `close()` has returned. -/
def configureAfterClose (env : ZmqEnv) (pattern : Pattern) (role : Role) (endpoint : String)
    (s : State) : Outcome Unit × State :=
  catchZmq (configureTry env pattern role
    (assignConfig pattern role endpoint (setConnectionStatus ConnectionStatus.DISCONNECTED s)))

def configure (env : ZmqEnv) (pattern : Pattern) (role : Role) (endpoint : String)
    (s : State) : Outcome Unit × State :=
  configureAfterClose env pattern role endpoint (close env s)

def setTimeout (env : ZmqEnv) (timeout : Int) (s : State) : Outcome Unit × State :=
  let s1 := { s with m_timeout := timeout }
  match s1.m_socket with
  | none => (Outcome.ok (), s1)
  | some _ => sockSetAll env [SockOpt.rcvtimeo timeout, SockOpt.sndtimeo timeout] s1

def subscribe (env : ZmqEnv) (topics : List String) (s : State) : Outcome Unit × State :=
  if s.m_socket.isNone || s.m_role ≠ Role.SUBSCRIBER then (Outcome.ok (), s)
  else if topics.isEmpty then sockSet env (SockOpt.subscribe "") s
  else sockSetAll env (topics.map SockOpt.subscribe) s

def createResult (body : String) (success : Bool) : RequestResult :=
  { status_code := if success then 200 else 500, body := body, headers := [],
    metrics := { bytes_received := strSize body } }

/-- A call `m_socket->send(frame, flags)` inside the `try` of `execute`: an empty
optional throws `Error(ZMQ_ERROR, onEmpty)`, a thrown `zmq::error_t` reaches the
`catch` of `execute` and leaves it as `Error(ZMQ_ERROR, what)`. -/
def sendFrame (env : ZmqEnv) (frame : String) (more : Bool) (onEmpty : String) (s : State) :
    Outcome Unit × State :=
  let r := env.send s.log.length frame more
  let s1 := record (ZmqOp.send frame more r) s
  match r with
  | SendResult.sent => (Outcome.ok (), s1)
  | SendResult.again => (Outcome.thrown (Thrown.error ErrorCode.ZMQ_ERROR onEmpty), s1)
  | SendResult.error what => (Outcome.thrown (Thrown.error ErrorCode.ZMQ_ERROR what), s1)

def execute (env : ZmqEnv) (config : RequestConfig) (s : State) :
    Outcome RequestResult × State :=
  match s.m_socket with
  | none => (Outcome.thrown (Thrown.error ErrorCode.ZMQ_ERROR "Socket not initialized"), s)
  | some _ =>
      if s.m_role = Role.SUBSCRIBER then
        (Outcome.thrown (Thrown.error ErrorCode.ZMQ_ERROR "Subscribers cannot send messages"), s)
      else if s.m_role = Role.PUBLISHER then
        andThen (sendFrame env config.body false "Failed to publish message" s) fun s1 =>
          (Outcome.ok (createResult config.body true),
            record (ZmqOp.emitMessageReceived config.body) s1)
      else if s.m_role = Role.DEALER then
        andThen (sendFrame env config.body false "Failed to send message" s) fun s1 =>
          let s2 := record (ZmqOp.emitMessageReceived config.body) s1
          let r := env.recv s2.log.length false
          let s3 := record (ZmqOp.recv false r) s2
          match r with
          | RecvResult.msg response_str => (Outcome.ok (createResult response_str true), s3)
          | RecvResult.again => (Outcome.ok (createResult config.body true), s3)
          | RecvResult.error what => (Outcome.thrown (Thrown.error ErrorCode.ZMQ_ERROR what), s3)
      else if s.m_role = Role.ROUTER then
        let s0 := if s.m_identity = "" then { s with m_identity := "Game" } else s
        andThen (sendFrame env s0.m_identity true "Failed to send identity frame" s0) fun s1 =>
          andThen (sendFrame env config.body false "Failed to send message" s1) fun s2 =>
            (Outcome.ok (createResult config.body true),
              record (ZmqOp.emitMessageReceived config.body) s2)
      else
        andThen (sendFrame env config.body false "Failed to send message" s) fun s1 =>
          let s2 := record (ZmqOp.emitMessageReceived config.body) s1
          if s2.m_pattern = Pattern.REQ_REP ∧ s2.m_role = Role.REQUESTER then
            let r := env.recv s2.log.length false
            let s3 := record (ZmqOp.recv false r) s2
            match r with
            | RecvResult.msg reply_str => (Outcome.ok (createResult reply_str true), s3)
            | RecvResult.again =>
                (Outcome.thrown (Thrown.error ErrorCode.TIMEOUT "No reply received"), s3)
            | RecvResult.error what =>
                (Outcome.thrown (Thrown.error ErrorCode.ZMQ_ERROR what), s3)
          else (Outcome.ok (createResult config.body true), s2)

/-- The asynchronous entry point runs `execute` on another thread; the eventual
result is the result of `execute`. -/
def executeAsync (env : ZmqEnv) (config : RequestConfig) (s : State) :
    Outcome RequestResult × State :=
  execute env config s

def cancel (env : ZmqEnv) (s : State) : State :=
  close env s

/-- The receive routine the poll thread runs for pattern `REQ_REP` once the
socket is readable. A thrown `zmq::error_t` leaves the routine and is caught by
the poll loop. -/
def handleREQREPMessage (env : ZmqEnv) (s : State) : Outcome Unit × State :=
  if s.m_role = Role.REPLIER then
    match s.m_socket with
    | none => (Outcome.nullDeref, s)
    | some _ =>
        let r := env.recv s.log.length false
        let s1 := record (ZmqOp.recv false r) s
        match r with
        | RecvResult.msg msg_str =>
            let s2 := record (ZmqOp.emitMessageReceived msg_str) s1
            let reply := "Reply to: " ++ msg_str
            let sr := env.send s2.log.length reply false
            let s3 := record (ZmqOp.send reply false sr) s2
            match sr with
            | SendResult.error what => (Outcome.thrown (Thrown.zmq what), s3)
            | _ => (Outcome.ok (), s3)
        | RecvResult.again => (Outcome.ok (), s1)
        | RecvResult.error what => (Outcome.thrown (Thrown.zmq what), s1)
  else (Outcome.ok (), s)

/-- The receive routine for pattern `PUB_SUB`. -/
def handlePUBSUBMessage (env : ZmqEnv) (s : State) : Outcome Unit × State :=
  if s.m_role = Role.SUBSCRIBER then
    match s.m_socket with
    | none => (Outcome.nullDeref, s)
    | some _ =>
        let r := env.recv s.log.length false
        let s1 := record (ZmqOp.recv false r) s
        match r with
        | RecvResult.msg msg_str => (Outcome.ok (), record (ZmqOp.emitMessageReceived msg_str) s1)
        | RecvResult.again => (Outcome.ok (), s1)
        | RecvResult.error what => (Outcome.thrown (Thrown.zmq what), s1)
  else (Outcome.ok (), s)

/-- A value of a `std::atomic<uint64_t>` counter after an addition. -/
def u64 (n : Nat) : Nat :=
  n % 2 ^ 64

/-- The member `processIncomingMessage(identity, message)`. The per-client queue
`m_routerQueues` it pushes to for a Router is read nowhere and is left out. -/
def processIncomingMessage (identity message : String) (s : State) : State :=
  let s1 := { s with m_metrics := { s.m_metrics with
    messagesReceived := u64 (s.m_metrics.messagesReceived + 1),
    bytesReceived := u64 (s.m_metrics.bytesReceived + strSize message) } }
  let s2 :=
    if s1.m_role = Role.ROUTER ∧ identity ≠ "" then { s1 with m_identity := identity } else s1
  if s2.m_pattern ≠ Pattern.REQ_REP then record (ZmqOp.emitMessageReceived message) s2 else s2

/-- The receive routine for pattern `PUSH_PULL`. -/
def handlePUSHPULLMessage (env : ZmqEnv) (s : State) : Outcome Unit × State :=
  if s.m_role = Role.PULLER then
    match s.m_socket with
    | none => (Outcome.nullDeref, s)
    | some _ =>
        let r := env.recv s.log.length false
        let s1 := record (ZmqOp.recv false r) s
        match r with
        | RecvResult.msg message => (Outcome.ok (), processIncomingMessage "" message s1)
        | RecvResult.again => (Outcome.ok (), s1)
        | RecvResult.error what => (Outcome.thrown (Thrown.zmq what), s1)
  else (Outcome.ok (), s)

/-- The loop `while (more)` of `handleDEALERROUTERMessage`, which receives the
frames of one message without waiting. `fuel` bounds the number of frames taken;
`none` is a loop cut off by it. The answer to `get(rcvmore)` is asked of the
environment after the receive is logged. -/
def drainFrames (env : ZmqEnv) : Nat → List String → State →
    Option (Outcome (List String) × State)
  | 0, _, _ => none
  | fuel + 1, messages, s =>
      let r := env.recv s.log.length true
      let s1 := record (ZmqOp.recv true r) s
      match r with
      | RecvResult.msg message =>
          if env.rcvmore s1.log.length then drainFrames env fuel (messages ++ [message]) s1
          else some (Outcome.ok (messages ++ [message]), s1)
      | RecvResult.again => some (Outcome.ok messages, s1)
      | RecvResult.error what => some (Outcome.thrown (Thrown.zmq what), s1)

/-- A call `m_socket->send(frame, flags)` whose result is not looked at; a thrown
`zmq::error_t` leaves the `try` block. -/
def sendUnchecked (env : ZmqEnv) (frame : String) (more : Bool) (s : State) :
    Outcome Unit × State :=
  let r := env.send s.log.length frame more
  let s1 := record (ZmqOp.send frame more r) s
  match r with
  | SendResult.error what => (Outcome.thrown (Thrown.zmq what), s1)
  | _ => (Outcome.ok (), s1)

/-- What `handleDEALERROUTERMessage` does with the frames its loop collected. -/
def handleFrames (env : ZmqEnv) (messages : List String) (s : State) : Outcome Unit × State :=
  if messages.isEmpty then (Outcome.ok (), s)
  else if s.m_role = Role.ROUTER then
    match messages with
    | identityStr :: messageStr :: _ =>
        let s1 := { s with m_identity := identityStr }
        let s2 := record (ZmqOp.emitMessageReceived messageStr) s1
        if s2.m_identity ≠ "" then
          andThen (sendUnchecked env s2.m_identity true s2) fun s3 =>
            sendUnchecked env ("Response to: " ++ messageStr) false s3
        else (Outcome.ok (), s2)
    | _ => (Outcome.ok (), s)
  else if s.m_role = Role.DEALER then
    match messages with
    | messageStr :: _ => (Outcome.ok (), record (ZmqOp.emitMessageReceived messageStr) s)
    | [] => (Outcome.ok (), s)
  else (Outcome.ok (), s)

/-- The `catch (const zmq::error_t& e)` of `handleDEALERROUTERMessage`. A send or
receive that would block returns an empty optional and does not throw, so what
is caught here is never `EAGAIN` and is always reported. -/
def catchReport (r : Outcome Unit × State) : Outcome Unit × State :=
  match r with
  | (Outcome.thrown (Thrown.zmq what), t) => (Outcome.ok (), record (ZmqOp.emitErrorOccurred what) t)
  | r => r

/-- The receive routine for pattern `DEALER_ROUTER`. -/
def handleDEALERROUTERMessage (env : ZmqEnv) (fuel : Nat) (s : State) :
    Option (Outcome Unit × State) :=
  match s.m_socket with
  | none => some (Outcome.nullDeref, s)
  | some _ =>
      match drainFrames env fuel [] s with
      | none => none
      | some (Outcome.ok messages, s1) => some (catchReport (handleFrames env messages s1))
      | some (Outcome.thrown t, s1) => some (catchReport (Outcome.thrown t, s1))
      | some (Outcome.nullDeref, s1) => some (Outcome.nullDeref, s1)

/-- The `switch (m_pattern)` of the poll loop. -/
def dispatchReadable (env : ZmqEnv) (fuel : Nat) (s : State) : Option (Outcome Unit × State) :=
  match s.m_pattern with
  | Pattern.REQ_REP => some (handleREQREPMessage env s)
  | Pattern.PUB_SUB => some (handlePUBSUBMessage env s)
  | Pattern.PUSH_PULL => some (handlePUSHPULLMessage env s)
  | Pattern.DEALER_ROUTER => handleDEALERROUTERMessage env fuel s

/-- One turn of the loop of the poll thread in which `zmq::poll` reports the
socket readable: the routine of the pattern runs, and a `zmq::error_t` it throws
is reported and followed by a pause. Without a running poll thread, and without
a socket, nothing happens. -/
def pollTurn (env : ZmqEnv) (fuel : Nat) (s : State) : Option State :=
  if s.m_pollThread = false ∨ s.m_running = false then some s
  else
    match s.m_socket with
    | none => some s
    | some _ =>
        match dispatchReadable env fuel s with
        | none => none
        | some (Outcome.thrown (Thrown.zmq what), t) =>
            some (record (ZmqOp.sleep 100) (record (ZmqOp.emitErrorOccurred what) t))
        | some (_, t) => some t

/-- A call of the public interface, or a turn of the poll thread. -/
inductive Action
  | configure (pattern : Pattern) (role : Role) (endpoint : String)
  | execute (config : RequestConfig)
  | cancel
  | setTimeout (timeout : Int)
  | subscribe (topics : List String)
  | pollTurn (fuel : Nat)
  deriving DecidableEq, Repr

/-- The state an action leaves, whether it returned or threw; `none` only for a
receive loop cut off by its fuel. -/
def perform (env : ZmqEnv) : Action → State → Option State
  | Action.configure pattern role endpoint, s => some (configure env pattern role endpoint s).2
  | Action.execute config, s => some (execute env config s).2
  | Action.cancel, s => some (cancel env s)
  | Action.setTimeout timeout, s => some (setTimeout env timeout s).2
  | Action.subscribe topics, s => some (subscribe env topics s).2
  | Action.pollTurn fuel, s => pollTurn env fuel s

/-- The state after a sequence of actions. -/
def runActions (env : ZmqEnv) : List Action → State → Option State
  | [], s => some s
  | a :: rest, s => (perform env a s).bind (runActions env rest)

end ZeroMQHandler

/-! ## core/rest_handler.cpp -/

def parseUrl (url : String) : String × String × String :=
  let sp : Nat × String :=
    if strSubstr url 0 7 = "http://" then (7, "80")
    else if strSubstr url 0 8 = "https://" then (8, "443")
    else (0, "80")
  let start := sp.1
  let pathStart := strFind url '/' start
  let hostPort :=
    match pathStart with
    | none => strSubstrFrom url start
    | some p => strSubstr url start (p - start)
  let hp : String × String :=
    match strFind hostPort ':' 0 with
    | some colonPos => (strSubstr hostPort 0 colonPos, strSubstrFrom hostPort (colonPos + 1))
    | none => (hostPort, sp.2)
  let target :=
    match pathStart with
    | some p => strSubstrFrom url p
    | none => "/"
  (hp.1, hp.2, target)

namespace RestHandler

/-- The `http::request<http::string_body>` handed to `http::write`. -/
structure HttpRequest where
  method : Option String
  target : String
  version : Nat
  fields : List Header
  body : String
  deriving DecidableEq, Repr

/-- The parsed `http::response<http::string_body>`. -/
structure HttpResponse where
  result_int : Int
  fields : List Header
  body : String
  deriving DecidableEq, Repr

/-- The call `req.set(name, value)`: any field of that name (compared without case) is
removed and the new one is added. -/
def setField (fields : List Header) (name value : String) : List Header :=
  fields.filter (fun f => f.name.toLower != name.toLower) ++ [{ name := name, value := value }]

inductive RestOp
  | resolve (host port : String)
  | setSNI (host : String)
  | connect
  | handshake
  | write (req : HttpRequest)
  | read
  | shutdown
  deriving DecidableEq, Repr

/-- The answers of Boost.Beast, OpenSSL and the network, asked with the number of
operations performed so far; `some e` is a thrown exception. `string_to_verb`
gives `none` for `verb::unknown`, and `requestCtor` tells what constructing the
request with that verb throws, if anything. -/
structure RestEnv where
  string_to_verb : String → Option String
  requestCtor : Option String → Option LibException
  resolve : Nat → String → String → Option LibException
  setSNI : Nat → String → Option String
  connect : Nat → Option LibException
  handshake : Nat → Option LibException
  write : Nat → HttpRequest → Option LibException
  read : Nat → LibException ⊕ HttpResponse

/-- The two `catch` clauses of `executeAsync`: `beast::system_error` becomes
`NETWORK_ERROR`, every other `std::exception` becomes `UNKNOWN`. -/
def catchAll : LibException → Thrown
  | LibException.system what => Thrown.error ErrorCode.NETWORK_ERROR what
  | LibException.other what => Thrown.error ErrorCode.UNKNOWN what

/-- One library call inside the `try`: log it, go on when it returns. -/
def step {α : Type} (r : Option LibException) (op : RestOp) (log : List RestOp)
    (k : List RestOp → Outcome α × List RestOp) : Outcome α × List RestOp :=
  match r with
  | none => k (log ++ [op])
  | some t => (Outcome.thrown (catchAll t), log ++ [op])

/-- The request built from the configuration. -/
def buildRequest (verb : Option String) (config : RequestConfig) (host target : String) :
    HttpRequest :=
  let f0 := setField (setField [] "Host" host) "User-Agent" "FlowDriver/1.0"
  let f1 := config.headers.foldl (fun fs h => setField fs h.name h.value) f0
  if config.body = "" then
    { method := verb, target := target, version := 11, fields := f1, body := "" }
  else
    { method := verb, target := target, version := 11,
      fields := setField f1 "Content-Length" (toString (strSize config.body)),
      body := config.body }

/-- The `RequestResult` made from a response. -/
def resultOf (res : HttpResponse) : RequestResult :=
  { status_code := res.result_int, body := res.body,
    headers := res.fields.map fun f => { name := f.name, value := f.value } }

/-- The task started by `executeAsync`: its eventual result and the operations
it performed, in order. -/
def executeAsync (env : RestEnv) (config : RequestConfig) : Outcome RequestResult × List RestOp :=
  let hpt := parseUrl config.url
  let host := hpt.1
  let port := hpt.2.1
  let target := hpt.2.2
  let use_ssl := strSubstr config.url 0 8 == "https://"
  let verb := env.string_to_verb config.method
  match env.requestCtor verb with
  | some e => (Outcome.thrown (catchAll e), [])
  | none =>
    let req := buildRequest verb config host target
    step (env.resolve 0 host port) (RestOp.resolve host port) [] fun l1 =>
      if use_ssl then
        match env.setSNI l1.length host with
        | some what =>
            (Outcome.thrown (catchAll (LibException.system what)), l1 ++ [RestOp.setSNI host])
        | none =>
            step (env.connect (l1.length + 1)) RestOp.connect (l1 ++ [RestOp.setSNI host]) fun l2 =>
              step (env.handshake l2.length) RestOp.handshake l2 fun l3 =>
                step (env.write l3.length req) (RestOp.write req) l3 fun l4 =>
                  match env.read l4.length with
                  | Sum.inl t => (Outcome.thrown (catchAll t), l4 ++ [RestOp.read])
                  | Sum.inr res =>
                      (Outcome.ok (resultOf res), l4 ++ [RestOp.read, RestOp.shutdown])
      else
        step (env.connect l1.length) RestOp.connect l1 fun l2 =>
          step (env.write l2.length req) (RestOp.write req) l2 fun l3 =>
            match env.read l3.length with
            | Sum.inl t => (Outcome.thrown (catchAll t), l3 ++ [RestOp.read])
            | Sum.inr res => (Outcome.ok (resultOf res), l3 ++ [RestOp.read])

def execute (env : RestEnv) (config : RequestConfig) : Outcome RequestResult × List RestOp :=
  executeAsync env config

end RestHandler

/-! ## core/websocket_handler.cpp -/

namespace WebSocketHandler

inductive WsOp
  | write (data : String)
  | read
  | close
  | resolve (host port : String)
  | setSNI (host : String)
  | connectStream
  | sslHandshake
  | handshake (host target : String) (headers : List Header)
  | asyncRead
  | connectedCallback
  | emitErrorOccurred (message : String)
  deriving DecidableEq, Repr

structure WsEnv where
  write : Nat → String → Option LibException
  read : Nat → LibException ⊕ String

/-- Members of `WebSocketHandler::Impl` that `execute` and `close` use: `ws_` is
`none` while the variant holds a null pointer, else whether the stream is the
encrypted one. -/
structure State where
  ws_ : Option Bool
  log : List WsOp
  deriving DecidableEq, Repr

def State.init : State :=
  { ws_ := none, log := [] }

/-- The `catch` of `execute` takes `boost::system::system_error` only. -/
def catchSystem : LibException → Thrown
  | LibException.system what => Thrown.error ErrorCode.NETWORK_ERROR what
  | LibException.other what => Thrown.other what

/-- The bytes written: the body, or the one-byte array of the literal `""`. -/
def payload (config : RequestConfig) : String :=
  if config.body = "" then String.mk [Char.ofNat 0] else config.body

def execute (env : WsEnv) (config : RequestConfig) (s : State) : Outcome RequestResult × State :=
  match s.ws_ with
  | none => (Outcome.thrown (Thrown.error ErrorCode.NETWORK_ERROR "WebSocket not connected"), s)
  | some _ =>
      let s1 := { s with log := s.log ++ [WsOp.write (payload config)] }
      match env.write s.log.length (payload config) with
      | some t => (Outcome.thrown (catchSystem t), s1)
      | none =>
          let s2 := { s1 with log := s1.log ++ [WsOp.read] }
          match env.read s1.log.length with
          | Sum.inl t => (Outcome.thrown (catchSystem t), s2)
          | Sum.inr data => (Outcome.ok { status_code := 200, body := data }, s2)

def executeAsync (env : WsEnv) (config : RequestConfig) (s : State) :
    Outcome RequestResult × State :=
  execute env config s

/-- What `connect` reads of the `boost::urls::url_view` that `parse_uri` returns:
`scheme()`, `host()`, `port()` (`none` when `has_port()` is false) and `path()`. -/
structure UrlView where
  scheme : String
  host : String
  port : Option String
  path : String
  deriving DecidableEq, Repr

/-- The answers of Boost.URL, of the resolver and of the stream to `connect`.
`parse_uri` gives `none` for a text that is no URI; `resolve` gives whether the
result list is non-empty; `handshake` gives the message of the error code the
WebSocket upgrade ended with. -/
structure ConnectEnv where
  parse_uri : String → Option UrlView
  resolve : Nat → String → String → LibException ⊕ Bool
  connectStream : Nat → Option LibException
  sslHandshake : Nat → Option LibException
  handshake : Nat → Option String

def logOp (op : WsOp) (s : State) : State :=
  { s with log := s.log ++ [op] }

/-- An exception of the Boost libraries as it travels through a `try` block. -/
def liftLib : LibException → Thrown
  | LibException.system what => Thrown.system what
  | LibException.other what => Thrown.other what

/-- The end of the `try` block of `Impl::connect`: the stream is stored in `ws_`,
`doRead()` arms the first read and the connected callback, which the
constructor of `WebSocketHandler` always installs, is called. -/
def Impl.connected (is_secure : Bool) (s : State) : Outcome Unit × State :=
  (Outcome.ok (),
    logOp WsOp.connectedCallback (logOp WsOp.asyncRead { s with ws_ := some is_secure }))

/-- The part of the `try` block of `Impl::connect` that follows the checks of
the url: resolve, open the plain or the encrypted stream, upgrade. -/
def Impl.openStream (env : ConnectEnv) (config : RequestConfig) (is_secure : Bool)
    (host port target : String) (s : State) : Outcome Unit × State :=
  let s1 := logOp (WsOp.resolve host port) s
  match env.resolve s.log.length host port with
  | Sum.inl e => (Outcome.thrown (liftLib e), s1)
  | Sum.inr false =>
      (Outcome.thrown (Thrown.error ErrorCode.NETWORK_ERROR "Failed to resolve host"), s1)
  | Sum.inr true =>
      if is_secure then
        let s2 := logOp (WsOp.setSNI host) s1
        let s3 := logOp WsOp.connectStream s2
        match env.connectStream s2.log.length with
        | some e => (Outcome.thrown (liftLib e), s3)
        | none =>
            let s4 := logOp WsOp.sslHandshake s3
            match env.sslHandshake s3.log.length with
            | some e => (Outcome.thrown (liftLib e), s4)
            | none =>
                let s5 := logOp (WsOp.handshake host target config.headers) s4
                match env.handshake s4.log.length with
                | some what => (Outcome.thrown (Thrown.system what), s5)
                | none => Impl.connected true s5
      else
        let s2 := logOp WsOp.connectStream s1
        match env.connectStream s1.log.length with
        | some e => (Outcome.thrown (liftLib e), s2)
        | none =>
            let s3 := logOp (WsOp.handshake host target config.headers) s2
            match env.handshake s2.log.length with
            | some message =>
                (Outcome.thrown (Thrown.error ErrorCode.NETWORK_ERROR
                  ("WebSocket handshake failed: " ++ message)), s3)
            | none => Impl.connected false s3

/-- The `try` block of `Impl::connect`. -/
def Impl.connectTry (env : ConnectEnv) (config : RequestConfig) (s : State) :
    Outcome Unit × State :=
  match env.parse_uri config.url with
  | none =>
      (Outcome.thrown (Thrown.error ErrorCode.INVALID_CONFIG "Invalid WebSocket URL format"), s)
  | some parsed_url =>
      if parsed_url.scheme ≠ "ws" ∧ parsed_url.scheme ≠ "wss" then
        (Outcome.thrown (Thrown.error ErrorCode.INVALID_CONFIG
          "URL must start with ws:// or wss://"), s)
      else
        let is_secure : Bool := parsed_url.scheme = "wss"
        let host := parsed_url.host
        if host = "" then
          (Outcome.thrown (Thrown.error ErrorCode.INVALID_CONFIG
            "Invalid host in WebSocket URL"), s)
        else
          let port :=
            match parsed_url.port with
            | some p => p
            | none => if is_secure then "443" else "80"
          let target := if parsed_url.path = "" then "/" else parsed_url.path
          Impl.openStream env config is_secure host port target s

/-- The `catch` clauses of `Impl::connect`: a `boost::system::system_error`
leaves as `Error(NETWORK_ERROR)`, an `Error` is rethrown as it is, any other
`std::exception` leaves as `Error(UNKNOWN)`. -/
def Impl.connectCatch : Thrown → Thrown
  | Thrown.system what => Thrown.error ErrorCode.NETWORK_ERROR ("Connection failed: " ++ what)
  | Thrown.error code message => Thrown.error code message
  | Thrown.zmq what => Thrown.error ErrorCode.UNKNOWN ("Unexpected error: " ++ what)
  | Thrown.other what => Thrown.error ErrorCode.UNKNOWN ("Unexpected error: " ++ what)

def Impl.connect (env : ConnectEnv) (config : RequestConfig) (s : State) :
    Outcome Unit × State :=
  match Impl.connectTry env config s with
  | (Outcome.thrown t, s1) => (Outcome.thrown (Impl.connectCatch t), s1)
  | r => r

/-- The member `WebSocketHandler::connect`: it calls `pimpl_->connect(config)`
and catches what that throws; an `Error` is reported through the signal
`errorOccurred` and not rethrown. -/
def connect (env : ConnectEnv) (config : RequestConfig) (s : State) : Outcome Unit × State :=
  match Impl.connect env config s with
  | (Outcome.thrown (Thrown.error _ message), s1) =>
      (Outcome.ok (), logOp (WsOp.emitErrorOccurred message) s1)
  | (Outcome.thrown (Thrown.zmq what), s1) =>
      (Outcome.ok (), logOp (WsOp.emitErrorOccurred ("Unexpected error: " ++ what)) s1)
  | (Outcome.thrown (Thrown.system what), s1) =>
      (Outcome.ok (), logOp (WsOp.emitErrorOccurred ("Unexpected error: " ++ what)) s1)
  | (Outcome.thrown (Thrown.other what), s1) =>
      (Outcome.ok (), logOp (WsOp.emitErrorOccurred ("Unexpected error: " ++ what)) s1)
  | r => r

end WebSocketHandler

/-! ## core/grpc_handler.cpp -/

namespace GrpcHandler

/-- What the handler reads of a `google::protobuf::MethodDescriptor`. -/
structure MethodDescriptor where
  name : String
  input_type : String
  output_type : String
  deriving DecidableEq, Repr

/-- What the handler reads of a `google::protobuf::ServiceDescriptor`. -/
structure ServiceDescriptor where
  name : String
  full_name : String
  methods : List MethodDescriptor
  deriving DecidableEq, Repr

/-- What the handler reads of a `google::protobuf::FileDescriptor`. -/
structure FileDescriptor where
  package : String
  services : List ServiceDescriptor
  deriving DecidableEq, Repr

/-- The full name protobuf gives a service `name` declared in `package`. -/
def qualify (package name : String) : String :=
  if package = "" then name else package ++ "." ++ name

/-- A file as the importer builds it: service names are identifiers (they hold
no `.`) and each full name is the package-qualified name. -/
def FileDescriptor.wellFormed (f : FileDescriptor) : Prop :=
  ∀ d ∈ f.services, '.' ∉ d.name.data ∧ d.full_name = qualify f.package d.name

/-- The library call `FileDescriptor::FindServiceByName`: the lookup is by the unqualified name of
a service declared in the file. -/
def FileDescriptor.FindServiceByName (f : FileDescriptor) (name : String) :
    Option ServiceDescriptor :=
  f.services.find? (fun d => d.name == name)

/-- The library call `ServiceDescriptor::FindMethodByName`. -/
def ServiceDescriptor.FindMethodByName (d : ServiceDescriptor) (name : String) :
    Option MethodDescriptor :=
  d.methods.find? (fun m => m.name == name)

/-- The enumeration `grpc::StatusCode` of the gRPC library. -/
inductive StatusCode
  | OK | CANCELLED | UNKNOWN | INVALID_ARGUMENT | DEADLINE_EXCEEDED | NOT_FOUND
  | ALREADY_EXISTS | PERMISSION_DENIED | RESOURCE_EXHAUSTED | FAILED_PRECONDITION
  | ABORTED | OUT_OF_RANGE | UNIMPLEMENTED | INTERNAL | UNAVAILABLE | DATA_LOSS
  | UNAUTHENTICATED | DO_NOT_USE
  deriving DecidableEq, Repr

/-- The value `static_cast<int>(code)`. -/
def StatusCode.toInt : StatusCode → Int
  | StatusCode.OK => 0
  | StatusCode.CANCELLED => 1
  | StatusCode.UNKNOWN => 2
  | StatusCode.INVALID_ARGUMENT => 3
  | StatusCode.DEADLINE_EXCEEDED => 4
  | StatusCode.NOT_FOUND => 5
  | StatusCode.ALREADY_EXISTS => 6
  | StatusCode.PERMISSION_DENIED => 7
  | StatusCode.RESOURCE_EXHAUSTED => 8
  | StatusCode.FAILED_PRECONDITION => 9
  | StatusCode.ABORTED => 10
  | StatusCode.OUT_OF_RANGE => 11
  | StatusCode.UNIMPLEMENTED => 12
  | StatusCode.INTERNAL => 13
  | StatusCode.UNAVAILABLE => 14
  | StatusCode.DATA_LOSS => 15
  | StatusCode.UNAUTHENTICATED => 16
  | StatusCode.DO_NOT_USE => -1

/-- A `grpc::Status`. -/
structure Status where
  error_code : StatusCode
  error_message : String
  deriving DecidableEq, Repr

def Status.ok (st : Status) : Bool :=
  st.error_code == StatusCode.OK

/-- The unary call handed to the generic stub. -/
structure Call where
  endpoint : String
  useSsl : Bool
  method_name : String
  metadata : List Header
  request : String
  deriving DecidableEq, Repr

inductive GrpcOp
  | importFile (path : String)
  | findService (name : String)
  | createChannel (endpoint : String) (useSsl : Bool)
  | call (c : Call)
  deriving DecidableEq, Repr

/-- The answers of protobuf, of the gRPC library and of the remote peer. A
message is held by its text. -/
structure GrpcEnv where
  importFile : String → Option FileDescriptor
  jsonStringToMessage : String → String → String ⊕ String
  serializeToString : String → Option String
  unaryCall : Nat → Call → Status × String
  parseFromString : String → String → Option String
  messageToJsonString : String → Option String

/-- Members of `GrpcHandler`; `m_channel` tells whether channel and stub exist. -/
structure State where
  m_current_file : Option FileDescriptor
  m_current_service : Option ServiceDescriptor
  m_current_method : Option MethodDescriptor
  m_endpoint : String
  m_useSsl : Bool
  m_channel : Bool
  m_auth_headers : List Header
  log : List GrpcOp
  deriving DecidableEq, Repr

def State.init : State :=
  { m_current_file := none, m_current_service := none, m_current_method := none,
    m_endpoint := "localhost:50051", m_useSsl := false, m_channel := false,
    m_auth_headers := [], log := [] }

def loadProtoFile (env : GrpcEnv) (path : String) (s : State) : Outcome Unit × State :=
  let s1 := { s with m_current_file := env.importFile path,
                     log := s.log ++ [GrpcOp.importFile path] }
  match s1.m_current_file with
  | none =>
      (Outcome.thrown (Thrown.error ErrorCode.INVALID_ARGUMENT
        ("Failed to load proto file: " ++ "Failed to import proto file")), s1)
  | some _ => (Outcome.ok (), s1)

/-- The statement `m_current_service = m_current_file->FindServiceByName(name)`. -/
def lookupService (file : FileDescriptor) (name : String) (s : State) : State :=
  { s with m_current_service := file.FindServiceByName name,
           log := s.log ++ [GrpcOp.findService name] }

def setService (service : String) (s : State) : Outcome Unit × State :=
  match s.m_current_file with
  | none => (Outcome.thrown (Thrown.error ErrorCode.INVALID_ARGUMENT "No proto file loaded"), s)
  | some file =>
      let s1 := lookupService file service s
      let s2 :=
        match s1.m_current_service with
        | some _ => s1
        | none =>
            match strFind service '.' 0 with
            | some dot_pos => lookupService file (strSubstrFrom service (dot_pos + 1)) s1
            | none =>
                if file.package ≠ "" then
                  lookupService file (file.package ++ "." ++ service) s1
                else s1
      match s2.m_current_service with
      | none =>
          (Outcome.thrown (Thrown.error ErrorCode.INVALID_ARGUMENT
            ("Service not found: " ++ service)), s2)
      | some _ => (Outcome.ok (), s2)

def setMethod (method : String) (s : State) : Outcome Unit × State :=
  match s.m_current_service with
  | none => (Outcome.thrown (Thrown.error ErrorCode.INVALID_STATE "No service selected"), s)
  | some d =>
      let s1 := { s with m_current_method := d.FindMethodByName method }
      match s1.m_current_method with
      | none =>
          (Outcome.thrown (Thrown.error ErrorCode.INVALID_CONFIG ("Method not found: " ++ method)),
            s1)
      | some _ => (Outcome.ok (), s1)

def createChannel (s : State) : State :=
  { s with m_channel := true, log := s.log ++ [GrpcOp.createChannel s.m_endpoint s.m_useSsl] }

def executeMethod (env : GrpcEnv) (config : RequestConfig) (result : RequestResult)
    (method : MethodDescriptor) (s : State) : Outcome RequestResult × State :=
  match s.m_current_service with
  | none => (Outcome.nullDeref, s)
  | some service =>
      let method_name := "/" ++ service.full_name ++ "/" ++ method.name
      let metadata := s.m_auth_headers ++ config.headers
      let json_request := if config.body = "" then "{}" else config.body
      match env.jsonStringToMessage method.input_type json_request with
      | Sum.inl status =>
          (Outcome.thrown (Thrown.error ErrorCode.INVALID_ARGUMENT
            ("Failed to parse request JSON: " ++ status)), s)
      | Sum.inr request =>
          match env.serializeToString request with
          | none =>
              (Outcome.thrown (Thrown.error ErrorCode.INVALID_ARGUMENT
                "Failed to serialize request"), s)
          | some binary_request =>
              let c : Call :=
                { endpoint := s.m_endpoint, useSsl := s.m_useSsl, method_name := method_name,
                  metadata := metadata, request := binary_request }
              let r := env.unaryCall s.log.length c
              let s1 := { s with log := s.log ++ [GrpcOp.call c] }
              if r.1.ok then
                match env.parseFromString method.output_type r.2 with
                | none =>
                    (Outcome.thrown (Thrown.error ErrorCode.INVALID_ARGUMENT
                      "Failed to parse response"), s1)
                | some response =>
                    match env.messageToJsonString response with
                    | none =>
                        (Outcome.thrown (Thrown.error ErrorCode.INVALID_ARGUMENT
                          "Failed to convert response to JSON"), s1)
                    | some response_json =>
                        (Outcome.ok { result with body := response_json, status_code := 200 }, s1)
              else
                (Outcome.ok { result with error := r.1.error_message,
                                          status_code := r.1.error_code.toInt }, s1)

def execute (env : GrpcEnv) (config : RequestConfig) (s : State) :
    Outcome RequestResult × State :=
  match s.m_current_method with
  | none => (Outcome.thrown (Thrown.error ErrorCode.INVALID_ARGUMENT "No method selected"), s)
  | some method =>
      let s1 := if !s.m_channel then createChannel s else s
      executeMethod env config {} method s1

def executeAsync (env : GrpcEnv) (config : RequestConfig) (s : State) :
    Outcome RequestResult × State :=
  execute env config s

end GrpcHandler

/-! ## core/protocol_handler.cpp -/

namespace ProtocolHandler

def validateConfig (config : RequestConfig) : Outcome Unit :=
  if config.url = "" then
    Outcome.thrown (Thrown.error ErrorCode.INVALID_CONFIG "URL cannot be empty")
  else if config.method = "" then
    Outcome.thrown (Thrown.error ErrorCode.INVALID_CONFIG "Method cannot be empty")
  else Outcome.ok ()

end ProtocolHandler

/-! ## Concrete environments and states used by the closed statements -/

namespace ZeroMQHandler

/-- Every library call succeeds; no message ever arrives. -/
def envAllOk : ZmqEnv :=
  { create := fun _ _ => none, setsockopt := fun _ _ => none, bind := fun _ _ => none,
    connect := fun _ _ => none, unbind := fun _ _ => none, disconnect := fun _ _ => none,
    send := fun _ _ _ => SendResult.sent, recv := fun _ _ => RecvResult.again,
    rcvmore := fun _ => false, random := fun _ => 7 }

/-- As `envAllOk`, but every bind fails (the address is taken). -/
def envBindFails : ZmqEnv :=
  { envAllOk with bind := fun _ _ => some "Address already in use" }

/-- A fresh handler configured in `envAllOk`. -/
def configured (pattern : Pattern) (role : Role) : State :=
  (configure envAllOk pattern role "tcp://127.0.0.1:5555" State.init).2

end ZeroMQHandler

namespace GrpcHandler

/-- A schema file with package `package` declaring one service `Greeter` with
one method `SayHello`. -/
def greeterFile (package : String) : FileDescriptor :=
  { package := package,
    services :=
      [{ name := "Greeter", full_name := qualify package "Greeter",
         methods := [{ name := "SayHello", input_type := qualify package "HelloRequest",
                       output_type := qualify package "HelloReply" }] }] }

/-- The importer finds `f`; JSON conversion and serialisation keep the text;
every call is answered with status `st` and response `resp`. -/
def envStub (f : FileDescriptor) (st : Status) (resp : String) : GrpcEnv :=
  { importFile := fun _ => some f,
    jsonStringToMessage := fun _ j => Sum.inr j,
    serializeToString := fun m => some m,
    unaryCall := fun _ _ => (st, resp),
    parseFromString := fun _ b => some b,
    messageToJsonString := fun m => some m }

/-- A fresh handler after `loadProtoFile` of `greeterFile package`. -/
def loaded (package : String) : State :=
  (loadProtoFile (envStub (greeterFile package) { error_code := StatusCode.OK, error_message := "" } "")
    "greeter.proto" State.init).2

/-- The handler `loaded package` after `setService("Greeter")` and
`setMethod("SayHello")`. -/
def ready (package : String) : State :=
  (setMethod "SayHello" (setService "Greeter" (loaded package)).2).2

end GrpcHandler

/-! ## Predicates used in the statements and proofs -/

namespace ZeroMQHandler

/-- The members that only `configure` and `setConnectionStatus` write. -/
structure SameConfig (s t : State) : Prop where
  status : t.m_status = s.m_status
  lastError : t.m_lastError = s.m_lastError
  pattern : t.m_pattern = s.m_pattern
  role : t.m_role = s.m_role
  endpoint : t.m_endpoint = s.m_endpoint

/-- The socket, if there is one, is neither bound nor connected. -/
def Unattached (s : State) : Prop :=
  ∀ k, s.m_socket = some k → k.bound = none ∧ k.connected = none

/-- What the socket-creating part of `configure` guarantees about its result
`r` when started in `s`: the configuration members are those of `s`, the socket
is not attached yet, and either the part returned with a socket in place or
`zmq::error_t` was thrown. -/
structure Setup (s : State) (r : Outcome Unit × State) : Prop where
  same : SameConfig s r.2
  unattached : Unattached r.2
  outcome : (r.1 = Outcome.ok () ∧ r.2.m_socket.isSome = true)
    ∨ ∃ w, r.1 = Outcome.thrown (Thrown.zmq w)

end ZeroMQHandler

/-- The task of `executeAsync` returns or throws what its `catch` clauses made. -/
def RestHandler.Caught (o : Outcome RequestResult) : Prop :=
  ∀ t, o = Outcome.thrown t → ∃ e, t = RestHandler.catchAll e

namespace GrpcHandler

/-- How `setService` ends once its lookups are done. -/
def finishSetService (service : String) (s : State) : Outcome Unit × State :=
  match s.m_current_service with
  | none =>
      (Outcome.thrown (Thrown.error ErrorCode.INVALID_ARGUMENT
        ("Service not found: " ++ service)), s)
  | some _ => (Outcome.ok (), s)

end GrpcHandler

namespace AuthManager

/-- The result of `n` successive calls of `applyAuth` on the same header list. -/
def applyAuthTimes : Nat → Impl → List Header → Impl × List Header
  | 0, s, headers => (s, headers)
  | n + 1, s, headers => applyAuthTimes n (applyAuth s headers).1 (applyAuth s headers).2

end AuthManager

namespace RestHandler

/-- Every library call succeeds and the server answers every request with `res`. -/
def envServing (res : HttpResponse) : RestEnv :=
  { string_to_verb := fun m => some m,
    requestCtor := fun _ => none,
    resolve := fun _ _ _ => none,
    setSNI := fun _ _ => none,
    connect := fun _ => none,
    handshake := fun _ => none,
    write := fun _ _ => none,
    read := fun _ => Sum.inr res }

/-- A result the task returns was made by `resultOf` from a response that
`http::read` delivered. -/
def FromRead (env : RestEnv) (o : Outcome RequestResult) : Prop :=
  ∀ r, o = Outcome.ok r → ∃ n res, env.read n = Sum.inr res ∧ r = resultOf res

end RestHandler

/-- What `parseUrl` does once the scheme has fixed where the host starts and
which port is the default. -/
def parseUrlFrom (url : String) (start : Nat) (dflt : String) : String × String × String :=
  let pathStart := strFind url '/' start
  let hostPort :=
    match pathStart with
    | none => strSubstrFrom url start
    | some p => strSubstr url start (p - start)
  let hp : String × String :=
    match strFind hostPort ':' 0 with
    | some colonPos => (strSubstr hostPort 0 colonPos, strSubstrFrom hostPort (colonPos + 1))
    | none => (hostPort, dflt)
  let target :=
    match pathStart with
    | some p => strSubstrFrom url p
    | none => "/"
  (hp.1, hp.2, target)

/-- The text `":" ++ p` of a port that is present, the empty text otherwise. -/
def portPart : Option String → String
  | none => ""
  | some p => ":" ++ p

namespace ZeroMQHandler

/-- The socket type the table of valid pairs gives a role. -/
def kindFor : Role → SocketType
  | Role.REQUESTER => SocketType.req
  | Role.REPLIER => SocketType.rep
  | Role.PUBLISHER => SocketType.pub
  | Role.SUBSCRIBER => SocketType.sub
  | Role.PUSHER => SocketType.push
  | Role.PULLER => SocketType.pull
  | Role.DEALER => SocketType.dealer
  | Role.ROUTER => SocketType.router

/-- Socket creations. -/
def ZmqOp.isCreate : ZmqOp → Bool
  | ZmqOp.create _ _ => true
  | _ => false

/-- Calls of `bind` and `connect`. -/
def ZmqOp.isAttach : ZmqOp → Bool
  | ZmqOp.bind _ _ => true
  | ZmqOp.connect _ _ => true
  | _ => false

/-- Receives. -/
def ZmqOp.isRecv : ZmqOp → Bool
  | ZmqOp.recv _ _ => true
  | _ => false

/-- A selection of operations that leaves out everything but socket creation,
bind, connect, send and receive. -/
structure Quiet (keep : ZmqOp → Bool) : Prop where
  set : ∀ o b, keep (ZmqOp.set o b) = false
  unbind : ∀ e b, keep (ZmqOp.unbind e b) = false
  disconnect : ∀ e b, keep (ZmqOp.disconnect e b) = false
  closeSocket : keep ZmqOp.closeSocket = false
  threadStart : keep ZmqOp.threadStart = false
  threadJoin : keep ZmqOp.threadJoin = false
  sleep : ∀ n, keep (ZmqOp.sleep n) = false
  emitMessageReceived : ∀ m, keep (ZmqOp.emitMessageReceived m) = false
  emitErrorOccurred : ∀ m, keep (ZmqOp.emitErrorOccurred m) = false
  emitConnectionStatusChanged : keep ZmqOp.emitConnectionStatusChanged = false

/-- Going from `s` to `t`, the selected operations logged are `xs`, in order. -/
def Adds (keep : ZmqOp → Bool) (s t : State) (xs : List ZmqOp) : Prop :=
  t.log.filter keep = s.log.filter keep ++ xs

/-- The call `configure` makes to attach the socket: `bind` to the rewritten
endpoint for a binding role, `connect` to the endpoint as given for the others;
`ok` tells whether the call returned. -/
def attachOp (role : Role) (endpoint : String) (ok : Bool) : ZmqOp :=
  if isBindingRole role then ZmqOp.bind (bindEndpoint endpoint) ok
  else ZmqOp.connect endpoint ok

/-- The conversation of a Requester with a Replier: every frame is sent, and a
receive delivers `incoming`. -/
def envDelivering (incoming : String) : ZmqEnv :=
  { envAllOk with recv := fun _ _ => RecvResult.msg incoming }

end ZeroMQHandler

namespace WebSocketHandler

/-- Every library call succeeds, and `parse_uri` gives `u` for every text. -/
def envConnecting (u : Option UrlView) : ConnectEnv :=
  { parse_uri := fun _ => u,
    resolve := fun _ _ _ => Sum.inr true,
    connectStream := fun _ => none,
    sslHandshake := fun _ => none,
    handshake := fun _ => none }

/-- The parse of `http://example.com/`. -/
def httpView : UrlView :=
  { scheme := "http", host := "example.com", port := none, path := "/" }

end WebSocketHandler

/-- The scheme text `parseUrl` recognises at the start of `url`: `http://`,
`https://`, or nothing. -/
def schemeText (url : String) : String :=
  if strSubstr url 0 7 = "http://" then "http://"
  else if strSubstr url 0 8 = "https://" then "https://"
  else ""

namespace ZeroMQHandler

/-- Going from `s` to `t` the poll thread, the running flag and the counters are
left as they are, and a socket that is there stays there. -/
structure Keeps (s t : State) : Prop where
  running : t.m_running = s.m_running
  pollThread : t.m_pollThread = s.m_pollThread
  metrics : t.m_metrics = s.m_metrics
  socket : s.m_socket.isSome = true → t.m_socket.isSome = true

/-- A poll thread exists only if a socket exists, and the running flag is set if
and only if a poll thread exists. -/
def ThreadSound (s : State) : Prop :=
  (s.m_pollThread = true → s.m_socket.isSome = true)
    ∧ (s.m_running = true ↔ s.m_pollThread = true)

/-- Nothing has been counted as sent. -/
def NothingSent (s : State) : Prop :=
  s.m_metrics.messagesSent = 0 ∧ s.m_metrics.bytesSent = 0

/-- The states a handler can be in: those a sequence of calls and poll-thread
turns leads to from the constructed handler, for some behaviour of the library. -/
def Reachable (s : State) : Prop :=
  ∃ env actions, runActions env actions State.init = some s

/-- Going from `s` to `t` the role and the recorded identity are left as they
are. -/
structure SameParty (s t : State) : Prop where
  identity : t.m_identity = s.m_identity
  role : t.m_role = s.m_role

/-- From a log of length `n` on, the socket hands over the frames of one
message: each receive gives the next frame, and `rcvmore` is set after every
frame but the last. -/
def Delivers (env : ZmqEnv) : Nat → List String → Prop
  | _, [] => False
  | n, [f] => env.recv n true = RecvResult.msg f ∧ env.rcvmore (n + 1) = false
  | n, f :: g :: rest =>
      env.recv n true = RecvResult.msg f ∧ env.rcvmore (n + 1) = true
        ∧ Delivers env (n + 1) (g :: rest)

/-- Every call succeeds; from a log of length `n` on, receives hand over
`frames` as one message. -/
def envFrames (n : Nat) (frames : List String) : ZmqEnv :=
  { envAllOk with
    recv := fun i _ =>
      match frames.get? (i - n) with
      | some f => RecvResult.msg f
      | none => RecvResult.again
    rcvmore := fun i => decide (i - n < frames.length) }

/-- The first half of the `try` block of `configure`, which ends where `bind` or
`connect` is called: `close()`, the assignments, `configureSocket`,
`setCommonSocketOptions`. -/
def configurePrepare (env : ZmqEnv) (pattern : Pattern) (role : Role) (endpoint : String)
    (s : State) : Outcome Unit × State :=
  andThen
    (configureSocket env pattern role
      (assignConfig pattern role endpoint
        (setConnectionStatus ConnectionStatus.DISCONNECTED (close env s))))
    (setCommonSocketOptions env)

end ZeroMQHandler

namespace GrpcHandler

/-- A schema file with package `pkg` declaring the services `Greeter`, with the
method `SayHello`, and `Clock`, with the method `Now`. -/
def twoServices : FileDescriptor :=
  { package := "pkg",
    services :=
      [{ name := "Greeter", full_name := "pkg.Greeter",
         methods := [{ name := "SayHello", input_type := "pkg.HelloRequest",
                       output_type := "pkg.HelloReply" }] },
       { name := "Clock", full_name := "pkg.Clock",
         methods := [{ name := "Now", input_type := "pkg.Empty",
                       output_type := "pkg.Time" }] }] }

/-- A fresh handler after `loadProtoFile` of `twoServices`, `setService("Greeter")`,
`setMethod("SayHello")` and then `setService("Clock")`. -/
def staleMethod : State :=
  (setService "Clock"
    (setMethod "SayHello"
      (setService "Greeter"
        (loadProtoFile (envStub twoServices { error_code := StatusCode.OK, error_message := "" } "")
          "two.proto" State.init).2).2).2).2

end GrpcHandler

namespace ZeroMQHandler

/-- The library answered a socket creation or a `set` with the error `w`. -/
def LibraryFailed (env : ZmqEnv) (w : String) : Prop :=
  (∃ n kind, env.create n kind = some w) ∨ (∃ n o, env.setsockopt n o = some w)

/-- Whatever the call threw is a `zmq::error_t` that the library gave to a
socket creation or a `set`. -/
def Blames (env : ZmqEnv) (r : Outcome Unit × State) : Prop :=
  ∀ t, r.1 = Outcome.thrown t → ∃ w, t = Thrown.zmq w ∧ LibraryFailed env w

/-- The bind or connect `configure` makes in state `s`, with the answer of the
library. -/
def attachCall (env : ZmqEnv) (s : State) : ZmqOp :=
  if isBindingRole s.m_role then
    ZmqOp.bind (bindEndpoint s.m_endpoint)
      (env.bind s.log.length (bindEndpoint s.m_endpoint)).isNone
  else ZmqOp.connect s.m_endpoint (env.connect s.log.length s.m_endpoint).isNone

end ZeroMQHandler

/-! ## Theorems: credential injector -/

/-- C6: after `setBasicAuth(u, p)`, `applyAuth(h)` leaves `h` followed by exactly
one header, `Authorization: Basic <base64 of u:p>`; for `u = "u"`, `p = "p"` the
value is `Basic dTpw`. The encoding is the standard padded one: it agrees with
the RFC 4648 test vectors for every tail length. -/
theorem AuthManager.basic_auth_appends_authorization_header
    (u p : String) (h : List Header) (s : AuthManager.Impl) :
    (AuthManager.applyAuth (AuthManager.setBasicAuth u p s) h).2
        = h ++ [{ name := "Authorization", value := "Basic " ++ base64 (u ++ ":" ++ p) }]
      ∧ (AuthManager.applyAuth (AuthManager.setBasicAuth "u" "p" s) h).2
        = h ++ [{ name := "Authorization", value := "Basic dTpw" }]
      ∧ base64 "" = "" ∧ base64 "f" = "Zg==" ∧ base64 "fo" = "Zm8="
      ∧ base64 "foo" = "Zm9v" ∧ base64 "foobar" = "Zm9vYmFy" := by
  refine ⟨rfl, ?_, by decide, by decide, by decide, by decide, by decide⟩
  have e : "Basic " ++ base64 ("u" ++ ":" ++ "p") = "Basic dTpw" := by decide
  simp only [AuthManager.applyAuth, AuthManager.setBasicAuth, e]

/-- C7: after `setApiKey(n, v, in_header)`, `applyAuth(h)` appends exactly the
header `(n, v)` when `in_header` is true and leaves `h` as it was otherwise; so
it changes `h` if and only if `in_header` is true. -/
theorem AuthManager.api_key_header_iff_in_header
    (n v : String) (in_header : Bool) (h : List Header) (s : AuthManager.Impl) :
    (AuthManager.applyAuth (AuthManager.setApiKey n v in_header s) h).2
        = (if in_header then h ++ [{ name := n, value := v }] else h)
      ∧ ((AuthManager.applyAuth (AuthManager.setApiKey n v in_header s) h).2 ≠ h
          ↔ in_header = true) := by
  cases in_header <;> simp [AuthManager.applyAuth, AuthManager.setApiKey]

/-! ## Theorems: ZeroMQ handler -/

namespace ZeroMQHandler

theorem SameConfig.refl (s : State) : SameConfig s s :=
  ⟨rfl, rfl, rfl, rfl, rfl⟩

theorem SameConfig.trans {s t u : State} (h1 : SameConfig s t) (h2 : SameConfig t u) :
    SameConfig s u :=
  ⟨h2.status.trans h1.status, h2.lastError.trans h1.lastError, h2.pattern.trans h1.pattern,
    h2.role.trans h1.role, h2.endpoint.trans h1.endpoint⟩

theorem record_sameConfig (op : ZmqOp) (s : State) : SameConfig s (record op s) :=
  ⟨rfl, rfl, rfl, rfl, rfl⟩

theorem record_m_socket (op : ZmqOp) (s : State) : (record op s).m_socket = s.m_socket :=
  rfl

theorem stopPolling_sameConfig (s : State) : SameConfig s (stopPolling s) := by
  unfold stopPolling
  by_cases h : s.m_pollThread = true <;> simp only [h, if_true, if_false] <;>
    exact ⟨rfl, rfl, rfl, rfl, rfl⟩

theorem stopPolling_m_socket (s : State) : (stopPolling s).m_socket = s.m_socket := by
  unfold stopPolling
  by_cases h : s.m_pollThread = true <;> simp only [h, if_true, if_false] <;> rfl

theorem sockSet_sameConfig (env : ZmqEnv) (o : SockOpt) (s : State) :
    SameConfig s (sockSet env o s).2 := by
  unfold sockSet
  cases s.m_socket with
  | none => exact SameConfig.refl s
  | some k =>
      cases env.setsockopt s.log.length o with
      | none => exact ⟨rfl, rfl, rfl, rfl, rfl⟩
      | some w => exact ⟨rfl, rfl, rfl, rfl, rfl⟩

theorem teardown_m_socket (env : ZmqEnv) (s : State) : (teardown env s).m_socket = none := by
  unfold teardown
  split
  · assumption
  · rfl

theorem teardown_sameConfig (env : ZmqEnv) (s : State) : SameConfig s (teardown env s) := by
  unfold teardown
  split
  · exact SameConfig.refl s
  · have h1 := sockSet_sameConfig env (SockOpt.linger 0) s
    generalize sockSet env (SockOpt.linger 0) s = r at h1
    obtain ⟨o, t⟩ := r
    refine h1.trans ?_
    cases o with
    | ok u =>
        by_cases hb : isBindingRole t.m_role = true <;>
          simp only [hb, if_true, if_false] <;> exact ⟨rfl, rfl, rfl, rfl, rfl⟩
    | thrown e => exact ⟨rfl, rfl, rfl, rfl, rfl⟩
    | nullDeref => exact ⟨rfl, rfl, rfl, rfl, rfl⟩

theorem close_m_socket (env : ZmqEnv) (s : State) : (close env s).m_socket = none :=
  teardown_m_socket env (stopPolling s)

theorem close_sameConfig (env : ZmqEnv) (s : State) : SameConfig s (close env s) :=
  (stopPolling_sameConfig s).trans ((teardown_sameConfig env _).trans (record_sameConfig _ _))

theorem setConnectionStatus_m_socket (c : ConnectionStatus) (s : State) :
    (setConnectionStatus c s).m_socket = s.m_socket := by
  unfold setConnectionStatus
  split <;> rfl

theorem setConnectionStatus_m_status (c : ConnectionStatus) (s : State) :
    (setConnectionStatus c s).m_status = c := by
  unfold setConnectionStatus
  split
  · rfl
  · rename_i h
    exact (not_not.mp h)

theorem setConnectionStatus_m_lastError (c : ConnectionStatus) (s : State) :
    (setConnectionStatus c s).m_lastError = s.m_lastError := by
  unfold setConnectionStatus
  split <;> rfl

theorem configureAfterClose_invalid (env : ZmqEnv) (p : Pattern) (r : Role) (ep : String)
    (s0 : State) (h0 : s0.m_socket = none) (hr : r ∉ getAvailableRoles p) :
    (configureAfterClose env p r ep s0).1 = Outcome.nullDeref
      ∧ (configureAfterClose env p r ep s0).2.m_socket = none
      ∧ (configureAfterClose env p r ep s0).2.m_status = ConnectionStatus.DISCONNECTED := by
  have hs := setConnectionStatus_m_socket ConnectionStatus.DISCONNECTED s0
  have hst := setConnectionStatus_m_status ConnectionStatus.DISCONNECTED s0
  rw [h0] at hs
  unfold configureAfterClose
  generalize setConnectionStatus ConnectionStatus.DISCONNECTED s0 = s1 at hs hst
  cases p <;> cases r <;> simp [getAvailableRoles] at hr <;>
    simp [configureTry, configureSocket, setupREQREP, setupPUBSUB, setupDEALERROUTER,
      setCommonSocketOptions, attach, bindSocket, connectSocket, andThen, isBindingRole,
      assignConfig, catchZmq, hs, hst]

theorem Socket.set_bound (k : Socket) (o : SockOpt) :
    (k.set o).bound = k.bound ∧ (k.set o).connected = k.connected := by
  cases o <;> exact ⟨rfl, rfl⟩

theorem sockSet_setup (env : ZmqEnv) (o : SockOpt) (s : State)
    (hu : Unattached s) (hs : s.m_socket.isSome = true) : Setup s (sockSet env o s) := by
  refine ⟨sockSet_sameConfig env o s, ?_, ?_⟩
  · unfold sockSet
    cases hk : s.m_socket with
    | none => rw [hk] at hs; cases hs
    | some k =>
        cases env.setsockopt s.log.length o with
        | none =>
            intro k1 h1
            have e : k.set o = k1 := Option.some.inj h1
            rw [← e, (Socket.set_bound k o).1, (Socket.set_bound k o).2]
            exact hu k hk
        | some w =>
            intro k1 h1
            exact hu k1 (hk ▸ h1)
  · unfold sockSet
    cases hk : s.m_socket with
    | none => rw [hk] at hs; cases hs
    | some k =>
        cases env.setsockopt s.log.length o with
        | none => exact Or.inl ⟨rfl, rfl⟩
        | some w => exact Or.inr ⟨w, rfl⟩

theorem andThen_setup {s : State} {r : Outcome Unit × State}
    {f : State → Outcome Unit × State} (hr : Setup s r)
    (hf : ∀ t, SameConfig s t → Unattached t → t.m_socket.isSome = true → Setup t (f t)) :
    Setup s (andThen r f) := by
  obtain ⟨o, t⟩ := r
  obtain ⟨h1, h2, h3⟩ := hr
  cases o with
  | ok u =>
      rcases h3 with ⟨_, h4⟩ | ⟨w, hw⟩
      · have := hf t h1 h2 h4
        exact ⟨h1.trans this.same, this.unattached, this.outcome⟩
      · cases hw
  | thrown e => exact ⟨h1, h2, h3⟩
  | nullDeref => exact ⟨h1, h2, h3⟩

theorem sockSetAll_setup (env : ZmqEnv) (os : List SockOpt) (s : State)
    (hu : Unattached s) (hs : s.m_socket.isSome = true) : Setup s (sockSetAll env os s) := by
  induction os generalizing s with
  | nil => exact ⟨SameConfig.refl s, hu, Or.inl ⟨rfl, hs⟩⟩
  | cons o os ih =>
      unfold sockSetAll
      exact andThen_setup (sockSet_setup env o s hu hs) (fun t _ h2 h3 => ih t h2 h3)

theorem createSocket_setup (env : ZmqEnv) (kind : SocketType) (s : State)
    (hs : s.m_socket = none) : Setup s (createSocket env kind s) := by
  unfold createSocket
  cases env.create s.log.length kind with
  | none =>
      refine ⟨⟨rfl, rfl, rfl, rfl, rfl⟩, ?_, Or.inl ⟨rfl, rfl⟩⟩
      intro k hk
      have e : Socket.fresh kind = k := Option.some.inj hk
      rw [← e]
      exact ⟨rfl, rfl⟩
  | some w =>
      refine ⟨⟨rfl, rfl, rfl, rfl, rfl⟩, ?_, Or.inr ⟨w, rfl⟩⟩
      intro k hk
      have : s.m_socket = some k := hk
      rw [hs] at this
      cases this

theorem widenTimeout_sameConfig (s : State) : SameConfig s (widenTimeout s) := by
  unfold widenTimeout
  split <;> exact ⟨rfl, rfl, rfl, rfl, rfl⟩

theorem widenTimeout_m_socket (s : State) : (widenTimeout s).m_socket = s.m_socket := by
  unfold widenTimeout
  split <;> rfl

theorem setCommonSocketOptions_setup (env : ZmqEnv) (s : State)
    (hu : Unattached s) (hs : s.m_socket.isSome = true) :
    Setup s (setCommonSocketOptions env s) := by
  have hu1 : Unattached (widenTimeout s) := by
    intro k hk
    exact hu k ((widenTimeout_m_socket s) ▸ hk)
  have hs1 : (widenTimeout s).m_socket.isSome = true := by
    rw [widenTimeout_m_socket]; exact hs
  have h := sockSetAll_setup env
    [SockOpt.rcvtimeo (widenTimeout s).m_timeout, SockOpt.sndtimeo (widenTimeout s).m_timeout,
      SockOpt.immediate 1, SockOpt.rcvhwm 1000, SockOpt.sndhwm 1000, SockOpt.linger 0,
      SockOpt.reconnect_ivl 100] (widenTimeout s) hu1 hs1
  unfold setCommonSocketOptions
  split
  · rename_i hk
    rw [hk] at hs
    cases hs
  · exact ⟨(widenTimeout_sameConfig s).trans h.same, h.unattached, h.outcome⟩

theorem configureSocket_setup (env : ZmqEnv) (p : Pattern) (r : Role) (s : State)
    (hr : r ∈ getAvailableRoles p) (hrole : s.m_role = r) (hs : s.m_socket = none) :
    Setup s (configureSocket env p r s) := by
  cases p <;> cases r <;> simp [getAvailableRoles] at hr <;>
    simp only [configureSocket, setupREQREP, setupPUBSUB, setupDEALERROUTER, hrole, if_true,
      if_false, reduceCtorEq]
  · exact createSocket_setup env _ s hs
  · exact createSocket_setup env _ s hs
  · refine andThen_setup (createSocket_setup env _ s hs) (fun t _ h2 h3 => ?_)
    exact andThen_setup (setCommonSocketOptions_setup env t h2 h3)
      (fun u _ h5 h6 => sockSet_setup env _ u h5 h6)
  · refine andThen_setup (createSocket_setup env _ s hs) (fun t _ h2 h3 => ?_)
    refine andThen_setup (setCommonSocketOptions_setup env t h2 h3) (fun u _ h5 h6 => ?_)
    refine andThen_setup (sockSet_setup env _ u h5 h6) (fun v _ h8 h9 => ?_)
    refine andThen_setup (sockSet_setup env _ v h8 h9) (fun w _ h11 h12 => ?_)
    exact ⟨record_sameConfig _ _, h11, Or.inl ⟨rfl, h12⟩⟩
  · exact createSocket_setup env _ s hs
  · exact createSocket_setup env _ s hs
  · refine andThen_setup (createSocket_setup env _ s hs) (fun t _ h2 h3 => ?_)
    have h := sockSetAll_setup env
      [SockOpt.routing_id ("DEALER-" ++ toString (env.random t.log.length)), SockOpt.linger 0,
        SockOpt.reconnect_ivl 1000, SockOpt.rcvtimeo t.m_timeout, SockOpt.sndtimeo t.m_timeout]
      { t with m_dealerId := "DEALER-" ++ toString (env.random t.log.length),
               m_identity := "DEALER-" ++ toString (env.random t.log.length) } h2 h3
    exact ⟨(show SameConfig t { t with
        m_dealerId := "DEALER-" ++ toString (env.random t.log.length),
        m_identity := "DEALER-" ++ toString (env.random t.log.length) } from
      ⟨rfl, rfl, rfl, rfl, rfl⟩).trans h.same, h.unattached, h.outcome⟩
  · refine andThen_setup (createSocket_setup env _ s hs) (fun t _ h2 h3 => ?_)
    refine andThen_setup (sockSetAll_setup env _ t h2 h3) (fun u _ h5 h6 => ?_)
    exact ⟨⟨rfl, rfl, rfl, rfl, rfl⟩, h5, Or.inl ⟨rfl, h6⟩⟩

theorem startPolling_sameConfig (s : State) : SameConfig s (startPolling s) := by
  unfold startPolling
  have h := stopPolling_sameConfig s
  generalize stopPolling s = t at h
  dsimp only
  split
  · exact h
  · exact h.trans ⟨rfl, rfl, rfl, rfl, rfl⟩

theorem startPolling_m_socket (s : State) : (startPolling s).m_socket = s.m_socket := by
  unfold startPolling
  have h := stopPolling_m_socket s
  generalize stopPolling s = t at h
  dsimp only
  split
  · exact h
  · exact h

/-- Result of the second half of `configure` on a state whose socket `k` exists
and is not attached: it never leaves with `zmq::error_t`; either it returns,
with status `CONNECTED` and the socket attached, or it throws with the status
and the socket as they were. -/
theorem attach_spec (env : ZmqEnv) (s : State) (k : Socket) (hk : s.m_socket = some k) :
    (attach env s).2.m_lastError = s.m_lastError
      ∧ (((attach env s).1 = Outcome.ok ()
            ∧ (attach env s).2.m_status = ConnectionStatus.CONNECTED
            ∧ ∃ k1, (attach env s).2.m_socket = some k1 ∧ k1.attachedFor s.m_role s.m_endpoint)
          ∨ ((∃ c m, (attach env s).1 = Outcome.thrown (Thrown.error c m))
            ∧ (attach env s).2.m_status = s.m_status
            ∧ (attach env s).2.m_socket = some k)) := by
  unfold attach
  cases hrole : isBindingRole s.m_role
  · simp only [Bool.false_eq_true, if_false, connectSocket, hk]
    cases env.connect s.log.length s.m_endpoint with
    | none =>
        refine ⟨?_, Or.inl ⟨rfl, setConnectionStatus_m_status _ _, ?_⟩⟩
        · show (setConnectionStatus _ (startPolling _)).m_lastError = _
          rw [setConnectionStatus_m_lastError, (startPolling_sameConfig _).lastError]
          rfl
        · refine ⟨{ k with connected := some s.m_endpoint }, ?_, ?_⟩
          · show (setConnectionStatus _ (startPolling _)).m_socket = _
            rw [setConnectionStatus_m_socket, startPolling_m_socket]
            rfl
          · simp only [Socket.attachedFor, hrole, Bool.false_eq_true, if_false]
    | some w => exact ⟨rfl, Or.inr ⟨⟨_, _, rfl⟩, rfl, hk⟩⟩
  · simp only [if_true, bindSocket, hk]
    cases env.bind s.log.length (bindEndpoint s.m_endpoint) with
    | none =>
        refine ⟨?_, Or.inl ⟨rfl, setConnectionStatus_m_status _ _, ?_⟩⟩
        · show (setConnectionStatus _ (startPolling _)).m_lastError = _
          rw [setConnectionStatus_m_lastError, (startPolling_sameConfig _).lastError]
          rfl
        · refine ⟨{ k with bound := some (bindEndpoint s.m_endpoint) }, ?_, ?_⟩
          · show (setConnectionStatus _ (startPolling _)).m_socket = _
            rw [setConnectionStatus_m_socket, startPolling_m_socket]
            rfl
          · simp only [Socket.attachedFor, hrole, if_true]
    | some w => exact ⟨rfl, Or.inr ⟨⟨_, _, rfl⟩, rfl, hk⟩⟩

theorem configureAfterClose_status (env : ZmqEnv) (p : Pattern) (r : Role) (ep : String)
    (s0 : State) (h0 : s0.m_socket = none) (hr : r ∈ getAvailableRoles p) :
    ((configureAfterClose env p r ep s0).2.m_status = ConnectionStatus.CONNECTED
        ↔ ∃ k, (configureAfterClose env p r ep s0).2.m_socket = some k ∧ k.attachedFor r ep)
      ∧ (configureAfterClose env p r ep s0).2.m_lastError = s0.m_lastError := by
  unfold configureAfterClose configureTry
  have f_socket : (assignConfig p r ep
      (setConnectionStatus ConnectionStatus.DISCONNECTED s0)).m_socket = none :=
    (setConnectionStatus_m_socket _ _).trans h0
  have f_status : (assignConfig p r ep
      (setConnectionStatus ConnectionStatus.DISCONNECTED s0)).m_status
        = ConnectionStatus.DISCONNECTED := setConnectionStatus_m_status _ _
  have f_err : (assignConfig p r ep
      (setConnectionStatus ConnectionStatus.DISCONNECTED s0)).m_lastError = s0.m_lastError :=
    setConnectionStatus_m_lastError _ _
  have f_role : (assignConfig p r ep
      (setConnectionStatus ConnectionStatus.DISCONNECTED s0)).m_role = r := rfl
  have f_ep : (assignConfig p r ep
      (setConnectionStatus ConnectionStatus.DISCONNECTED s0)).m_endpoint = ep := rfl
  generalize assignConfig p r ep (setConnectionStatus ConnectionStatus.DISCONNECTED s0) = s2
    at f_socket f_status f_err f_role f_ep
  have hphase : Setup s2 (andThen (configureSocket env p r s2) (setCommonSocketOptions env)) :=
    andThen_setup (configureSocket_setup env p r s2 hr f_role f_socket)
      (fun t _ hu hs => setCommonSocketOptions_setup env t hu hs)
  generalize andThen (configureSocket env p r s2) (setCommonSocketOptions env) = ph at hphase
  obtain ⟨o, t⟩ := ph
  obtain ⟨hsame, hun, hout⟩ := hphase
  rcases hout with ⟨ho, hsome⟩ | ⟨w, hw⟩
  · simp only at ho hsome
    subst ho
    obtain ⟨k, hk⟩ := Option.isSome_iff_exists.mp hsome
    have ha := attach_spec env t k hk
    have hat : andThen (Outcome.ok (), t) (attach env) = attach env t := rfl
    rw [hat]
    rw [hsame.role, hsame.endpoint, hsame.status, hsame.lastError, f_role, f_ep, f_status,
      f_err] at ha
    generalize attach env t = a at ha
    obtain ⟨ao, au⟩ := a
    obtain ⟨he, hcase⟩ := ha
    rcases hcase with ⟨h1, h2, k1, h3, h4⟩ | ⟨⟨c, m, h1⟩, h2, h3⟩
    · simp only at h1 h2 h3 he
      subst h1
      exact ⟨⟨fun _ => ⟨k1, h3, h4⟩, fun _ => h2⟩, he⟩
    · simp only at h1 h2 h3 he
      subst h1
      refine ⟨⟨fun hcon => ?_, fun hex => ?_⟩, he⟩
      · have : (catchZmq (Outcome.thrown (Thrown.error c m), au)).2.m_status = au.m_status := rfl
        rw [this, h2] at hcon
        cases hcon
      · obtain ⟨k1, hk1, hatt⟩ := hex
        have e : au.m_socket = some k1 := hk1
        rw [h3] at e
        have e2 : k = k1 := Option.some.inj e
        subst e2
        have hu := hun k hk
        unfold Socket.attachedFor at hatt
        split at hatt
        · rw [hu.1] at hatt; cases hatt
        · rw [hu.2] at hatt; cases hatt
  · simp only at hw
    subst hw
    have e1 : catchZmq (andThen (Outcome.thrown (Thrown.zmq w), t) (attach env))
        = (Outcome.thrown (Thrown.error ErrorCode.ZMQ_ERROR w),
            setConnectionStatus ConnectionStatus.ERROR t) := rfl
    rw [e1]
    refine ⟨⟨fun hcon => ?_, fun hex => ?_⟩, ?_⟩
    · have := setConnectionStatus_m_status ConnectionStatus.ERROR t
      simp only at hcon
      rw [this] at hcon
      cases hcon
    · obtain ⟨k1, hk1, hatt⟩ := hex
      simp only at hk1
      rw [setConnectionStatus_m_socket] at hk1
      have hu := hun k1 hk1
      unfold Socket.attachedFor at hatt
      split at hatt
      · rw [hu.1] at hatt; cases hatt
      · rw [hu.2] at hatt; cases hatt
    · simp only
      rw [setConnectionStatus_m_lastError, hsame.lastError, f_err]

theorem sendFrame_outcome (env : ZmqEnv) (frame : String) (more : Bool) (onEmpty : String)
    (s : State) :
    (sendFrame env frame more onEmpty s).1 = Outcome.ok ()
      ∨ ∃ m, (sendFrame env frame more onEmpty s).1
          = Outcome.thrown (Thrown.error ErrorCode.ZMQ_ERROR m) := by
  unfold sendFrame
  cases env.send s.log.length frame more with
  | sent => exact Or.inl rfl
  | again => exact Or.inr ⟨_, rfl⟩
  | error w => exact Or.inr ⟨_, rfl⟩

theorem sendFrame_kind {env : ZmqEnv} {frame : String} {more : Bool} {onEmpty : String}
    {s : State} {code : ErrorCode} {msg : String}
    (h : (sendFrame env frame more onEmpty s).1 = Outcome.thrown (Thrown.error code msg)) :
    code = ErrorCode.ZMQ_ERROR := by
  rcases sendFrame_outcome env frame more onEmpty s with h1 | ⟨m, h1⟩
  · rw [h1] at h; cases h
  · rw [h1] at h; cases h; rfl

theorem andThen_thrown {α : Type} {r : Outcome Unit × State} {f : State → Outcome α × State}
    {t : Thrown} (h : (andThen r f).1 = Outcome.thrown t) :
    r.1 = Outcome.thrown t ∨ (f r.2).1 = Outcome.thrown t := by
  obtain ⟨o, s⟩ := r
  cases o with
  | ok u => exact Or.inr h
  | thrown e =>
      have h2 : (Outcome.thrown e : Outcome α) = Outcome.thrown t := h
      cases h2
      exact Or.inl rfl
  | nullDeref => cases h

/-- The kinds of `Error` that `execute` raises. -/
theorem zmq_execute_error_kinds (env : ZmqEnv) (c : RequestConfig) (s : State)
    (code : ErrorCode) (msg : String)
    (h : (execute env c s).1 = Outcome.thrown (Thrown.error code msg)) :
    code = ErrorCode.ZMQ_ERROR ∨ code = ErrorCode.TIMEOUT := by
  unfold execute at h
  split at h
  · cases h; exact Or.inl rfl
  · split at h
    · cases h; exact Or.inl rfl
    · split at h
      · rcases andThen_thrown h with h1 | h1
        · exact Or.inl (sendFrame_kind h1)
        · cases h1
      · split at h
        · rcases andThen_thrown h with h1 | h1
          · exact Or.inl (sendFrame_kind h1)
          · dsimp only at h1
            split at h1
            · cases h1
            · cases h1
            · cases h1; exact Or.inl rfl
        · split at h
          · rcases andThen_thrown h with h1 | h1
            · exact Or.inl (sendFrame_kind h1)
            · rcases andThen_thrown h1 with h2 | h2
              · exact Or.inl (sendFrame_kind h2)
              · cases h2
          · rcases andThen_thrown h with h1 | h1
            · exact Or.inl (sendFrame_kind h1)
            · dsimp only at h1
              split at h1
              · split at h1
                · cases h1
                · cases h1; exact Or.inr rfl
                · cases h1; exact Or.inl rfl
              · cases h1

/-- C2: for a (pattern, role) pair outside the eight valid ones, `configure`
creates no socket and then calls `bind` or `connect` through the null
`m_socket`: it does not fail with `INVALID_CONFIG` (or with any `Error`); the
status is left `DISCONNECTED`. -/
theorem configure_invalid_pair_dereferences_null (env : ZmqEnv) (s : State) (p : Pattern)
    (r : Role) (ep : String) (hr : r ∉ getAvailableRoles p) :
    (configure env p r ep s).1 = Outcome.nullDeref
      ∧ ¬ (configure env p r ep s).1.failsWith ErrorCode.INVALID_CONFIG
      ∧ (configure env p r ep s).2.m_socket = none
      ∧ getConnectionStatus (configure env p r ep s).2 = ConnectionStatus.DISCONNECTED := by
  have h := configureAfterClose_invalid env p r ep (close env s) (close_m_socket env s) hr
  refine ⟨h.1, ?_, h.2.1, h.2.2⟩
  rintro ⟨msg, hm⟩
  have h1 : (configure env p r ep s).1 = Outcome.nullDeref := h.1
  rw [h1] at hm
  cases hm

/-- C2 (witness): the pair (PUSH_PULL, Requester) on a fresh handler. -/
theorem configure_invalid_pair_dereferences_null_witness :
    Role.REQUESTER ∉ getAvailableRoles Pattern.PUSH_PULL
      ∧ (configure envAllOk Pattern.PUSH_PULL Role.REQUESTER "tcp://127.0.0.1:5555"
          State.init).1 = Outcome.nullDeref :=
  ⟨by decide,
    (configure_invalid_pair_dereferences_null envAllOk State.init Pattern.PUSH_PULL
      Role.REQUESTER "tcp://127.0.0.1:5555" (by decide)).1⟩

/-- C3 (counterexample): a Replier whose bind fails is left `DISCONNECTED`, not
`ERROR`, and `getLastError()` is the empty string. -/
theorem configure_bind_failure_not_reported :
    Role.REPLIER ∈ getAvailableRoles Pattern.REQ_REP
      ∧ (configure envBindFails Pattern.REQ_REP Role.REPLIER "tcp://127.0.0.1:5555"
          State.init).1
        = Outcome.thrown
            (Thrown.error ErrorCode.ZMQ_ERROR "Failed to bind: Address already in use")
      ∧ getConnectionStatus (configure envBindFails Pattern.REQ_REP Role.REPLIER
          "tcp://127.0.0.1:5555" State.init).2 = ConnectionStatus.DISCONNECTED
      ∧ getLastError (configure envBindFails Pattern.REQ_REP Role.REPLIER
          "tcp://127.0.0.1:5555" State.init).2 = ""
      ∧ ¬ (getConnectionStatus (configure envBindFails Pattern.REQ_REP Role.REPLIER
            "tcp://127.0.0.1:5555" State.init).2 = ConnectionStatus.ERROR
          ∧ getLastError (configure envBindFails Pattern.REQ_REP Role.REPLIER
            "tcp://127.0.0.1:5555" State.init).2 ≠ "") := by
  decide

/-- C3 (amended): for each of the eight valid (pattern, role) pairs and every
endpoint, after `configure` the status is `CONNECTED` if and only if the socket
exists and is bound (binding roles) or connected (the other roles) to the
endpoint, that is, if and only if the bind or connect succeeded; and
`getLastError()` is what it was before the call, the empty string on a handler
that starts fresh, since nothing assigns it. -/
theorem configure_connected_iff_attached (env : ZmqEnv) (s : State) (p : Pattern) (r : Role)
    (ep : String) (hr : r ∈ getAvailableRoles p) :
    (getConnectionStatus (configure env p r ep s).2 = ConnectionStatus.CONNECTED
        ↔ ∃ k, (configure env p r ep s).2.m_socket = some k ∧ k.attachedFor r ep)
      ∧ getLastError (configure env p r ep s).2 = getLastError s
      ∧ getLastError State.init = "" := by
  have h := configureAfterClose_status env p r ep (close env s) (close_m_socket env s) hr
  refine ⟨h.1, ?_, rfl⟩
  exact h.2.trans (close_sameConfig env s).lastError

/-- C3 (witness): a Replier on a fresh handler, every library call succeeding. -/
theorem configure_connected_iff_attached_witness :
    Role.REPLIER ∈ getAvailableRoles Pattern.REQ_REP
      ∧ (getConnectionStatus (configure envAllOk Pattern.REQ_REP Role.REPLIER
            "tcp://127.0.0.1:5555" State.init).2 = ConnectionStatus.CONNECTED
          ↔ ∃ k, (configure envAllOk Pattern.REQ_REP Role.REPLIER "tcp://127.0.0.1:5555"
              State.init).2.m_socket = some k
            ∧ k.attachedFor Role.REPLIER "tcp://127.0.0.1:5555") :=
  ⟨by decide,
    (configure_connected_iff_attached envAllOk State.init Pattern.REQ_REP Role.REPLIER
      "tcp://127.0.0.1:5555" (by decide)).1⟩

/-- C4: `close()` (and so `cancel()`) never writes the status: it is after the
call what it was before, while the socket is gone. A handler that is `CONNECTED`
after a successful `configure` still reports `CONNECTED` after `cancel()`. -/
theorem cancel_leaves_status_unchanged :
    (∀ (env : ZmqEnv) (s : State),
        getConnectionStatus (cancel env s) = getConnectionStatus s
          ∧ (cancel env s).m_socket = none)
      ∧ getConnectionStatus (configured Pattern.REQ_REP Role.REQUESTER)
          = ConnectionStatus.CONNECTED
      ∧ getConnectionStatus (cancel envAllOk (configured Pattern.REQ_REP Role.REQUESTER))
          = ConnectionStatus.CONNECTED
      ∧ (cancel envAllOk (configured Pattern.REQ_REP Role.REQUESTER)).m_socket = none := by
  refine ⟨fun env s => ⟨(close_sameConfig env s).status, close_m_socket env s⟩, ?_, ?_, ?_⟩ <;>
    decide

/-- C5 (counterexample): the failure a Subscriber's `execute` raises has kind
`ZMQ_ERROR`, not `PROTOCOL_ERROR`. -/
theorem subscriber_execute_kind_is_zmq_error :
    (configured Pattern.PUB_SUB Role.SUBSCRIBER).m_role = Role.SUBSCRIBER
      ∧ (execute envAllOk { body := "x" } (configured Pattern.PUB_SUB Role.SUBSCRIBER)).1
        = Outcome.thrown (Thrown.error ErrorCode.ZMQ_ERROR "Subscribers cannot send messages")
      ∧ ¬ (execute envAllOk { body := "x" }
            (configured Pattern.PUB_SUB Role.SUBSCRIBER)).1.failsWith
          ErrorCode.PROTOCOL_ERROR := by
  have h : (execute envAllOk { body := "x" } (configured Pattern.PUB_SUB Role.SUBSCRIBER)).1
      = Outcome.thrown (Thrown.error ErrorCode.ZMQ_ERROR "Subscribers cannot send messages") := by
    decide
  refine ⟨by decide, h, ?_⟩
  rintro ⟨msg, hm⟩
  rw [h] at hm
  cases hm

/-- C5 (amended): for every handler whose role is Subscriber and every request
(any body), `execute` fails with a failure of kind `ZMQ_ERROR` and leaves the
handler as it was: nothing is sent on the socket, nothing is logged. -/
theorem subscriber_execute_fails_without_sending (env : ZmqEnv) (c : RequestConfig) (s : State)
    (hrole : s.m_role = Role.SUBSCRIBER) :
    (execute env c s).1.failsWith ErrorCode.ZMQ_ERROR ∧ (execute env c s).2 = s := by
  unfold execute
  cases s.m_socket with
  | none => exact ⟨⟨_, rfl⟩, rfl⟩
  | some k =>
      exact ⟨⟨"Subscribers cannot send messages", by simp only [hrole, if_true]⟩,
        by simp only [hrole, if_true]⟩

/-- C5 (witness): a configured Subscriber asked to send `ping`. -/
theorem subscriber_execute_fails_without_sending_witness :
    (configured Pattern.PUB_SUB Role.SUBSCRIBER).m_role = Role.SUBSCRIBER
      ∧ (execute envAllOk { body := "ping" }
          (configured Pattern.PUB_SUB Role.SUBSCRIBER)).1.failsWith ErrorCode.ZMQ_ERROR
      ∧ (execute envAllOk { body := "ping" } (configured Pattern.PUB_SUB Role.SUBSCRIBER)).2
          = configured Pattern.PUB_SUB Role.SUBSCRIBER :=
  ⟨by decide,
    subscriber_execute_fails_without_sending envAllOk { body := "ping" }
      (configured Pattern.PUB_SUB Role.SUBSCRIBER) (by decide)⟩

end ZeroMQHandler

/-! ## Theorems: gRPC handler -/

theorem findIdxFrom_none {α : Type} (p : α → Bool) (l : List α) (i : Nat)
    (h : findIdxFrom p l i = none) : ∀ x ∈ l, p x = false := by
  induction l generalizing i with
  | nil => intro x hx; cases hx
  | cons a l ih =>
      unfold findIdxFrom at h
      cases hp : p a with
      | true => rw [hp] at h; simp at h
      | false =>
          rw [hp] at h
          simp only [Bool.false_eq_true, if_false] at h
          intro x hx
          rcases List.mem_cons.mp hx with rfl | hx
          · exact hp
          · exact ih (i + 1) h x hx

theorem findIdxFrom_some {α : Type} (p : α → Bool) (l : List α) (i j : Nat)
    (h : findIdxFrom p l i = some j) :
    ∃ n a, j = i + n ∧ l = l.take n ++ a :: l.drop (n + 1) ∧ p a = true
      ∧ ∀ x ∈ l.take n, p x = false := by
  induction l generalizing i with
  | nil => unfold findIdxFrom at h; cases h
  | cons b l ih =>
      unfold findIdxFrom at h
      cases hp : p b with
      | true =>
          rw [hp] at h
          simp only [if_true] at h
          cases h
          exact ⟨0, b, rfl, by simp, hp, by simp⟩
      | false =>
          rw [hp] at h
          simp only [Bool.false_eq_true, if_false] at h
          obtain ⟨n, a, hj, hl, ha, hall⟩ := ih (i + 1) h
          refine ⟨n + 1, a, by omega, ?_, ha, ?_⟩
          · simp only [List.take_succ_cons, List.drop_succ_cons, List.cons_append]
            rw [← hl]
          · intro x hx
            simp only [List.take_succ_cons] at hx
            rcases List.mem_cons.mp hx with rfl | hx
            · exact hp
            · exact hall x hx

/-- A found `.` splits the name: what follows it is a proper suffix of the name. -/
theorem strFind_dot_split (name : String) (i : Nat) (h : strFind name '.' 0 = some i) :
    name = String.mk (name.data.take i) ++ "." ++ strSubstrFrom name (i + 1)
      ∧ '.' ∉ name.data.take i := by
  unfold strFind at h
  rw [List.drop_zero] at h
  obtain ⟨n, a, hj, hl, ha, hall⟩ := findIdxFrom_some _ _ _ _ h
  have hn : i = n := by omega
  subst hn
  have ha2 : a = '.' := by simpa using ha
  subst ha2
  constructor
  · apply String.ext
    simp only [String.data_append, strSubstrFrom]
    rw [List.append_assoc]
    exact hl
  · intro hmem
    have := hall _ hmem
    simp at this

theorem strFind_none_iff (name : String) : strFind name '.' 0 = none ↔ '.' ∉ name.data := by
  unfold strFind
  rw [List.drop_zero]
  constructor
  · intro h hmem
    have := findIdxFrom_none _ _ _ h _ hmem
    simp at this
  · intro h
    cases hf : findIdxFrom (fun x => x == '.') name.data 0 with
    | none => rfl
    | some j =>
        obtain ⟨n, a, _, hl, ha, _⟩ := findIdxFrom_some _ _ _ _ hf
        have ha2 : a = '.' := by simpa using ha
        subst ha2
        exfalso
        apply h
        rw [hl]
        simp

namespace GrpcHandler

theorem setService_found (s : State) (file : FileDescriptor) (name : String)
    (hf : s.m_current_file = some file) (d : ServiceDescriptor)
    (h : file.FindServiceByName name = some d) :
    setService name s = (Outcome.ok (), lookupService file name s) := by
  unfold setService
  simp only [hf, lookupService, h]

theorem setService_dot (s : State) (file : FileDescriptor) (name : String)
    (hf : s.m_current_file = some file) (h : file.FindServiceByName name = none) (i : Nat)
    (hi : strFind name '.' 0 = some i) :
    setService name s
      = finishSetService name
          (lookupService file (strSubstrFrom name (i + 1)) (lookupService file name s)) := by
  unfold setService finishSetService
  simp only [hf, lookupService, h, hi]

theorem setService_nodot (s : State) (file : FileDescriptor) (name : String)
    (hf : s.m_current_file = some file) (h : file.FindServiceByName name = none)
    (hi : strFind name '.' 0 = none) (hp : file.package ≠ "") :
    setService name s
      = finishSetService name
          (lookupService file (file.package ++ "." ++ name) (lookupService file name s)) := by
  unfold setService finishSetService
  simp only [hf, lookupService, h, hi, hp, ne_eq, not_false_eq_true, if_true]

theorem setService_nodot_nopackage (s : State) (file : FileDescriptor) (name : String)
    (hf : s.m_current_file = some file) (h : file.FindServiceByName name = none)
    (hi : strFind name '.' 0 = none) (hp : file.package = "") :
    setService name s
      = (Outcome.thrown (Thrown.error ErrorCode.INVALID_ARGUMENT
          ("Service not found: " ++ name)), lookupService file name s) := by
  unfold setService
  simp only [hf, lookupService, h, hi, hp, ne_eq, not_true_eq_false, if_false]

theorem FindServiceByName_dotted (file : FileDescriptor) (hwf : file.wellFormed) (n : String)
    (hn : '.' ∈ n.data) : file.FindServiceByName n = none := by
  unfold FileDescriptor.FindServiceByName
  rw [List.find?_eq_none]
  intro d hd hcontra
  have e : d.name = n := by simpa using hcontra
  exact (hwf d hd).1 (e ▸ hn)

/-- In a package-qualified name whose package has several components, the first
`.` lies inside the package, so what follows it still holds a `.`. -/
theorem nested_package_rest_dotted (P S : String) (hP : '.' ∈ P.data) (i : Nat)
    (hi : strFind (P ++ "." ++ S) '.' 0 = some i) :
    '.' ∈ (strSubstrFrom (P ++ "." ++ S) (i + 1)).data := by
  have hsplit := (strFind_dot_split _ i hi).2
  have hdata : (P ++ "." ++ S).data = P.data ++ ('.' :: S.data) := by
    simp [String.data_append]
  rw [hdata] at hsplit
  have hlt : i < P.data.length := by
    by_contra hge
    have hle : P.data.length ≤ i := Nat.le_of_not_lt hge
    apply hsplit
    rw [List.take_append_eq_append_take, List.take_of_length_le hle]
    exact List.mem_append_left _ hP
  unfold strSubstrFrom
  simp only [hdata]
  rw [List.drop_append_of_le_length (by omega)]
  simp

/-- C8: in a file whose package has several dot-separated components, the short
name of a service resolves, but its package-qualified name does not:
`setService(P ++ "." ++ S)` looks up the whole name, then the name after its
first `.` (which still carries the rest of the package), and fails with
`Service not found`, leaving no service selected. -/
theorem setService_qualified_name_fails_for_nested_package (s : State)
    (file : FileDescriptor) (P S : String) (d : ServiceDescriptor)
    (hf : s.m_current_file = some file) (hwf : file.wellFormed) (hP : '.' ∈ P.data)
    (hd : file.FindServiceByName S = some d) :
    (setService S s).1 = Outcome.ok ()
      ∧ (setService S s).2.m_current_service = some d
      ∧ (setService (P ++ "." ++ S) s).1
          = Outcome.thrown (Thrown.error ErrorCode.INVALID_ARGUMENT
              ("Service not found: " ++ (P ++ "." ++ S)))
      ∧ (setService (P ++ "." ++ S) s).2.m_current_service = none := by
  have hname : '.' ∈ (P ++ "." ++ S).data := by simp [String.data_append]
  have h1 := FindServiceByName_dotted file hwf _ hname
  cases hi : strFind (P ++ "." ++ S) '.' 0 with
  | none => exact absurd hname ((strFind_none_iff _).mp hi)
  | some i =>
      have h2 := FindServiceByName_dotted file hwf _ (nested_package_rest_dotted P S hP i hi)
      rw [setService_found s file S hf d hd, setService_dot s file _ hf h1 i hi]
      unfold finishSetService lookupService
      simp only [h2, hd]
      exact ⟨trivial, trivial, trivial, trivial⟩

/-- C8 (witness): package `a.b`, service `Greeter`. -/
theorem setService_qualified_name_fails_for_nested_package_witness :
    (loaded "a.b").m_current_file = some (greeterFile "a.b")
      ∧ (greeterFile "a.b").wellFormed
      ∧ '.' ∈ "a.b".data
      ∧ (setService "Greeter" (loaded "a.b")).1 = Outcome.ok ()
      ∧ (setService ("a.b" ++ "." ++ "Greeter") (loaded "a.b")).1
          = Outcome.thrown (Thrown.error ErrorCode.INVALID_ARGUMENT
              ("Service not found: " ++ ("a.b" ++ "." ++ "Greeter"))) :=
  have hwf : (greeterFile "a.b").wellFormed := by
    unfold FileDescriptor.wellFormed
    decide
  have h := setService_qualified_name_fails_for_nested_package (loaded "a.b")
    (greeterFile "a.b") "a.b" "Greeter"
    { name := "Greeter", full_name := "a.b.Greeter",
      methods := [{ name := "SayHello", input_type := "a.b.HelloRequest",
                    output_type := "a.b.HelloReply" }] }
    (by decide) hwf (by decide) (by decide)
  ⟨by decide, hwf, by decide, h.1, h.2.2.1⟩

/-- C9 (counterexample): with package `pkg` active, `setService("x.Other")` fails
after two lookups, of `x.Other` and of `Other`; the third candidate, the package
followed by `.` and the name, is never looked up. And with package `a.b` active,
`setService("a.b.Greeter")` fails although the name with its package prefix
stripped, `Greeter`, is found by the file lookup. -/
theorem setService_tries_two_candidates :
    (setService "x.Other" (loaded "pkg")).1
        = Outcome.thrown (Thrown.error ErrorCode.INVALID_ARGUMENT "Service not found: x.Other")
      ∧ (setService "x.Other" (loaded "pkg")).2.log
        = (loaded "pkg").log ++ [GrpcOp.findService "x.Other", GrpcOp.findService "Other"]
      ∧ GrpcOp.findService ("pkg" ++ "." ++ "x.Other")
          ∉ (setService "x.Other" (loaded "pkg")).2.log
      ∧ ((greeterFile "a.b").FindServiceByName "Greeter").isSome = true
      ∧ (setService "a.b.Greeter" (loaded "a.b")).1
        = Outcome.thrown
            (Thrown.error ErrorCode.INVALID_ARGUMENT "Service not found: a.b.Greeter") := by
  decide

/-- C9 (amended): with a schema loaded, `setService(name)` looks up `name` itself
first and selects it when found. Otherwise it makes at most one more lookup,
chosen by whether `name` holds a `.`: a name with a `.` is looked up again with
a leading part up to a `.` removed, and the package-qualified name is not tried;
a name without `.` is looked up as the active package followed by `.` and
`name` when the package is not empty, and not at all otherwise. The service
selected is what the last lookup found, and the call fails, with
`Service not found`, exactly when that is nothing. -/
theorem setService_lookup_order (s : State) (file : FileDescriptor) (name : String)
    (hf : s.m_current_file = some file) :
    (∀ d, file.FindServiceByName name = some d →
        (setService name s).1 = Outcome.ok ()
          ∧ (setService name s).2.m_current_service = some d
          ∧ (setService name s).2.log = s.log ++ [GrpcOp.findService name])
      ∧ (file.FindServiceByName name = none → '.' ∈ name.data →
          ∃ pre c, name = pre ++ "." ++ c
            ∧ (setService name s).2.log
                = s.log ++ [GrpcOp.findService name, GrpcOp.findService c]
            ∧ (setService name s).2.m_current_service = file.FindServiceByName c)
      ∧ (file.FindServiceByName name = none → '.' ∉ name.data → file.package ≠ "" →
          (setService name s).2.log
              = s.log ++ [GrpcOp.findService name,
                  GrpcOp.findService (file.package ++ "." ++ name)]
            ∧ (setService name s).2.m_current_service
                = file.FindServiceByName (file.package ++ "." ++ name))
      ∧ (file.FindServiceByName name = none → '.' ∉ name.data → file.package = "" →
          (setService name s).2.log = s.log ++ [GrpcOp.findService name]
            ∧ (setService name s).2.m_current_service = none)
      ∧ ((setService name s).1 = Outcome.ok ()
          ↔ (setService name s).2.m_current_service.isSome = true)
      ∧ ((setService name s).1 = Outcome.ok ()
          ∨ (setService name s).1
              = Outcome.thrown (Thrown.error ErrorCode.INVALID_ARGUMENT
                  ("Service not found: " ++ name))) := by
  have hfin : ∀ t : State,
      ((finishSetService name t).1 = Outcome.ok ()
          ↔ (finishSetService name t).2.m_current_service.isSome = true)
        ∧ ((finishSetService name t).1 = Outcome.ok ()
          ∨ (finishSetService name t).1
              = Outcome.thrown (Thrown.error ErrorCode.INVALID_ARGUMENT
                  ("Service not found: " ++ name)))
        ∧ (finishSetService name t).2 = t := by
    intro t
    unfold finishSetService
    cases h : t.m_current_service <;> simp [h]
  cases hd : file.FindServiceByName name with
  | some d =>
      have e := setService_found s file name hf d hd
      rw [e]
      refine ⟨?_, ?_, ?_, ?_, ?_, Or.inl rfl⟩
      · intro d1 h1
        cases h1
        exact ⟨rfl, hd, by simp [lookupService, List.append_assoc]⟩
      · intro h; cases h
      · intro h; cases h
      · intro h; cases h
      · simp [lookupService, hd]
  | none =>
      cases hi : strFind name '.' 0 with
      | some i =>
          have e := setService_dot s file name hf hd i hi
          have hdot : '.' ∈ name.data := by
            by_contra hno
            rw [(strFind_none_iff name).mpr hno] at hi
            cases hi
          rw [e]
          obtain ⟨h1, h2, h3⟩ := hfin
            (lookupService file (strSubstrFrom name (i + 1)) (lookupService file name s))
          refine ⟨?_, ?_, ?_, ?_, h1, h2⟩
          · intro d1 h; cases h
          · intro _ _
            refine ⟨String.mk (name.data.take i), strSubstrFrom name (i + 1),
              (strFind_dot_split name i hi).1, ?_, ?_⟩
            · rw [h3]
              simp [lookupService, List.append_assoc]
            · rw [h3]
              rfl
          · intro _ hno; exact absurd hdot hno
          · intro _ hno; exact absurd hdot hno
      | none =>
          have hno : '.' ∉ name.data := (strFind_none_iff name).mp hi
          by_cases hp : file.package = ""
          · have e := setService_nodot_nopackage s file name hf hd hi hp
            rw [e]
            refine ⟨?_, ?_, ?_, ?_, ?_, Or.inr rfl⟩
            · intro d1 h; cases h
            · intro _ hdot; exact absurd hdot hno
            · intro _ _ hp2; exact absurd hp hp2
            · intro _ _ _; exact ⟨rfl, hd⟩
            · simp [lookupService, hd]
          · have e := setService_nodot s file name hf hd hi hp
            rw [e]
            obtain ⟨h1, h2, h3⟩ := hfin
              (lookupService file (file.package ++ "." ++ name) (lookupService file name s))
            refine ⟨?_, ?_, ?_, ?_, h1, h2⟩
            · intro d1 h; cases h
            · intro _ hdot; exact absurd hdot hno
            · intro _ _ _
              rw [h3]
              exact ⟨by simp [lookupService, List.append_assoc], rfl⟩
            · intro _ _ hp2; exact absurd hp2 hp

/-- C9 (witness): package `pkg`, name `Other`. -/
theorem setService_lookup_order_witness :
    (loaded "pkg").m_current_file = some (greeterFile "pkg")
      ∧ ((setService "Other" (loaded "pkg")).1 = Outcome.ok ()
          ↔ (setService "Other" (loaded "pkg")).2.m_current_service.isSome = true) :=
  ⟨by decide,
    (setService_lookup_order (loaded "pkg") (greeterFile "pkg") "Other" (by decide)).2.2.2.2.1⟩

theorem StatusCode.toInt_ne_200 (code : StatusCode) : code.toInt ≠ 200 := by
  cases code <;> decide

/-- C10: when the remote call is made (a method and its service are selected,
the request body converts and serialises) and it returns a non-OK status,
`execute` returns normally a result whose status code is the numeric gRPC code,
which is never 200, whose error string is the status message and whose body is
empty; when it returns OK and the response decodes and prints, the result has
status code 200, the JSON text as body and an empty error string. -/
theorem execute_folds_remote_status (env : GrpcEnv) (c : RequestConfig) (s : State)
    (service : ServiceDescriptor) (method : MethodDescriptor) (request binary resp : String)
    (st : Status)
    (hm : s.m_current_method = some method) (hs : s.m_current_service = some service)
    (hj : env.jsonStringToMessage method.input_type (if c.body = "" then "{}" else c.body)
        = Sum.inr request)
    (hb : env.serializeToString request = some binary)
    (hcall : ∀ n k, env.unaryCall n k = (st, resp)) :
    (st.error_code ≠ StatusCode.OK →
        (execute env c s).1
            = Outcome.ok { status_code := st.error_code.toInt, headers := [], body := "",
                           metrics := {}, error := st.error_message }
          ∧ st.error_code.toInt ≠ 200)
      ∧ (st.error_code = StatusCode.OK → ∀ response json,
          env.parseFromString method.output_type resp = some response →
          env.messageToJsonString response = some json →
          (execute env c s).1
            = Outcome.ok { status_code := 200, headers := [], body := json, metrics := {},
                           error := "" }) := by
  have hs1 : (if (!s.m_channel) = true then createChannel s else s).m_current_service
      = some service := by
    cases s.m_channel <;> simpa [createChannel] using hs
  constructor
  · intro hne
    refine ⟨?_, StatusCode.toInt_ne_200 _⟩
    unfold execute
    simp only [hm]
    unfold executeMethod
    simp only [hs1, hj, hb, hcall, Status.ok, beq_iff_eq, hne, if_false]
  · intro hok response json hp hjs
    unfold execute
    simp only [hm]
    unfold executeMethod
    simp only [hs1, hj, hb, hcall, Status.ok, beq_iff_eq, hok, if_true, hp, hjs]

/-- C10 (witness): the call is answered with `NOT_FOUND`, code 5. -/
theorem execute_folds_remote_status_witness :
    (ready "a").m_current_method
        = some { name := "SayHello", input_type := "a.HelloRequest",
                 output_type := "a.HelloReply" }
      ∧ (execute
          (envStub (greeterFile "a")
            { error_code := StatusCode.NOT_FOUND, error_message := "no such user" } "")
          { body := "" } (ready "a")).1
        = Outcome.ok { status_code := 5, headers := [], body := "", metrics := {},
                       error := "no such user" } :=
  ⟨by decide,
    ((execute_folds_remote_status
      (envStub (greeterFile "a")
        { error_code := StatusCode.NOT_FOUND, error_message := "no such user" } "")
      { body := "" } (ready "a")
      { name := "Greeter", full_name := "a.Greeter",
        methods := [{ name := "SayHello", input_type := "a.HelloRequest",
                      output_type := "a.HelloReply" }] }
      { name := "SayHello", input_type := "a.HelloRequest", output_type := "a.HelloReply" }
      "{}" "{}" ""
      { error_code := StatusCode.NOT_FOUND, error_message := "no such user" }
      (by decide) (by decide) (by decide) (by decide) (fun _ _ => rfl)).1 (by decide)).1⟩

end GrpcHandler

/-! ## Theorems: what `execute` checks before any I/O -/

theorem RestHandler.catchAll_kind (e : LibException) (code : ErrorCode) (msg : String)
    (h : RestHandler.catchAll e = Thrown.error code msg) :
    code = ErrorCode.NETWORK_ERROR ∨ code = ErrorCode.UNKNOWN := by
  cases e with
  | system w => cases h; exact Or.inl rfl
  | other w => cases h; exact Or.inr rfl

theorem RestHandler.step_caught (r : Option LibException) (op : RestHandler.RestOp)
    (log : List RestHandler.RestOp)
    (k : List RestHandler.RestOp → Outcome RequestResult × List RestHandler.RestOp)
    (hk : ∀ l, RestHandler.Caught (k l).1) : RestHandler.Caught (RestHandler.step r op log k).1 := by
  unfold RestHandler.step
  cases r with
  | none => exact hk _
  | some e =>
      intro t ht
      cases ht
      exact ⟨e, rfl⟩

theorem RestHandler.read_caught (r : LibException ⊕ RestHandler.HttpResponse)
    (l1 l2 : List RestHandler.RestOp) :
    RestHandler.Caught
      (match r with
        | Sum.inl t => (Outcome.thrown (RestHandler.catchAll t), l1)
        | Sum.inr res => (Outcome.ok (RestHandler.resultOf res), l2)).1 := by
  cases r with
  | inl e =>
      intro t ht
      cases ht
      exact ⟨e, rfl⟩
  | inr res =>
      intro t ht
      cases ht

theorem RestHandler.executeAsync_caught (env : RestHandler.RestEnv) (c : RequestConfig) :
    RestHandler.Caught (RestHandler.executeAsync env c).1 := by
  unfold RestHandler.executeAsync
  dsimp only
  split
  · intro t ht
    cases ht
    exact ⟨_, rfl⟩
  · apply RestHandler.step_caught
    intro l1
    split
    · split
      · intro t ht
        cases ht
        exact ⟨_, rfl⟩
      · apply RestHandler.step_caught
        intro l2
        apply RestHandler.step_caught
        intro l3
        apply RestHandler.step_caught
        intro l4
        exact RestHandler.read_caught _ _ _
    · apply RestHandler.step_caught
      intro l2
      apply RestHandler.step_caught
      intro l3
      exact RestHandler.read_caught _ _ _

theorem RestHandler.executeAsync_error_kinds (env : RestHandler.RestEnv) (c : RequestConfig)
    (code : ErrorCode) (msg : String)
    (h : (RestHandler.executeAsync env c).1 = Outcome.thrown (Thrown.error code msg)) :
    code = ErrorCode.NETWORK_ERROR ∨ code = ErrorCode.UNKNOWN := by
  obtain ⟨e, he⟩ := RestHandler.executeAsync_caught env c _ h
  exact RestHandler.catchAll_kind e code msg he.symm

theorem WebSocketHandler.ws_execute_error_kinds (env : WebSocketHandler.WsEnv) (c : RequestConfig)
    (s : WebSocketHandler.State) (code : ErrorCode) (msg : String)
    (h : (WebSocketHandler.execute env c s).1 = Outcome.thrown (Thrown.error code msg)) :
    code = ErrorCode.NETWORK_ERROR := by
  unfold WebSocketHandler.execute at h
  split at h
  · cases h; rfl
  · dsimp only at h
    split at h
    · rename_i e _
      cases e <;> cases h
      rfl
    · split at h
      · rename_i e _
        cases e <;> cases h
        rfl
      · cases h

theorem GrpcHandler.grpc_execute_error_kinds (env : GrpcHandler.GrpcEnv) (c : RequestConfig)
    (s : GrpcHandler.State) (code : ErrorCode) (msg : String)
    (h : (GrpcHandler.execute env c s).1 = Outcome.thrown (Thrown.error code msg)) :
    code = ErrorCode.INVALID_ARGUMENT := by
  unfold GrpcHandler.execute at h
  split at h
  · cases h; rfl
  · unfold GrpcHandler.executeMethod at h
    dsimp only at h
    repeat' split at h
    all_goals first | (cases h; rfl) | cases h

/-- C1 (counterexample): a ZeroMQ Pusher given a request whose url and method
are both empty does not fail: it sends the body as one frame and returns a
result with status 200. -/
theorem execute_accepts_empty_url_and_method :
    (ZeroMQHandler.execute ZeroMQHandler.envAllOk { url := "", method := "", body := "x" }
        (ZeroMQHandler.configured ZeroMQHandler.Pattern.PUSH_PULL
          ZeroMQHandler.Role.PUSHER)).1
      = Outcome.ok (ZeroMQHandler.createResult "x" true)
    ∧ (ZeroMQHandler.execute ZeroMQHandler.envAllOk { url := "", method := "", body := "x" }
        (ZeroMQHandler.configured ZeroMQHandler.Pattern.PUSH_PULL
          ZeroMQHandler.Role.PUSHER)).2.log
      = (ZeroMQHandler.configured ZeroMQHandler.Pattern.PUSH_PULL
          ZeroMQHandler.Role.PUSHER).log
        ++ [ZeroMQHandler.ZmqOp.send "x" false ZeroMQHandler.SendResult.sent,
            ZeroMQHandler.ZmqOp.emitMessageReceived "x"]
    ∧ ¬ (ZeroMQHandler.execute ZeroMQHandler.envAllOk { url := "", method := "", body := "x" }
        (ZeroMQHandler.configured ZeroMQHandler.Pattern.PUSH_PULL
          ZeroMQHandler.Role.PUSHER)).1.failsWith ErrorCode.INVALID_CONFIG := by
  have h : (ZeroMQHandler.execute ZeroMQHandler.envAllOk
        { url := "", method := "", body := "x" }
        (ZeroMQHandler.configured ZeroMQHandler.Pattern.PUSH_PULL
          ZeroMQHandler.Role.PUSHER)).1
      = Outcome.ok (ZeroMQHandler.createResult "x" true) := by decide
  refine ⟨h, by decide, ?_⟩
  rintro ⟨msg, hm⟩
  rw [h] at hm
  cases hm

/-- C1 (amended): no handler's `execute`/`executeAsync` checks the url or the
method for emptiness, and none fails with kind `INVALID_CONFIG`. The ZeroMQ,
WebSocket and gRPC handlers do not read `config.url` or `config.method` at all;
the failure each raises before any socket, stream or channel operation is that
of its own guard: `ZMQ_ERROR` when no socket is configured (ZeroMQ),
`NETWORK_ERROR` when not connected (WebSocket), `INVALID_ARGUMENT` when no method
is selected (gRPC). The HTTP handler raises only `NETWORK_ERROR` or `UNKNOWN`. -/
theorem execute_does_not_check_url_or_method :
    (∀ (env : ZeroMQHandler.ZmqEnv) (c : RequestConfig) (u m : String)
        (s : ZeroMQHandler.State),
        ZeroMQHandler.executeAsync env { c with url := u, method := m } s
            = ZeroMQHandler.executeAsync env c s
          ∧ ¬ (ZeroMQHandler.executeAsync env c s).1.failsWith ErrorCode.INVALID_CONFIG
          ∧ (s.m_socket = none → ZeroMQHandler.executeAsync env c s
              = (Outcome.thrown (Thrown.error ErrorCode.ZMQ_ERROR "Socket not initialized"), s)))
    ∧ (∀ (env : WebSocketHandler.WsEnv) (c : RequestConfig) (u m : String)
        (s : WebSocketHandler.State),
        WebSocketHandler.executeAsync env { c with url := u, method := m } s
            = WebSocketHandler.executeAsync env c s
          ∧ ¬ (WebSocketHandler.executeAsync env c s).1.failsWith ErrorCode.INVALID_CONFIG
          ∧ (s.ws_ = none → WebSocketHandler.executeAsync env c s
              = (Outcome.thrown
                  (Thrown.error ErrorCode.NETWORK_ERROR "WebSocket not connected"), s)))
    ∧ (∀ (env : GrpcHandler.GrpcEnv) (c : RequestConfig) (u m : String)
        (s : GrpcHandler.State),
        GrpcHandler.executeAsync env { c with url := u, method := m } s
            = GrpcHandler.executeAsync env c s
          ∧ ¬ (GrpcHandler.executeAsync env c s).1.failsWith ErrorCode.INVALID_CONFIG
          ∧ (s.m_current_method = none → GrpcHandler.executeAsync env c s
              = (Outcome.thrown
                  (Thrown.error ErrorCode.INVALID_ARGUMENT "No method selected"), s)))
    ∧ (∀ (env : RestHandler.RestEnv) (c : RequestConfig),
        ¬ (RestHandler.executeAsync env c).1.failsWith ErrorCode.INVALID_CONFIG
          ∧ ∀ code msg, (RestHandler.executeAsync env c).1
              = Outcome.thrown (Thrown.error code msg) →
            code = ErrorCode.NETWORK_ERROR ∨ code = ErrorCode.UNKNOWN) := by
  refine ⟨fun env c u m s => ⟨rfl, ?_, ?_⟩, fun env c u m s => ⟨rfl, ?_, ?_⟩,
    fun env c u m s => ⟨rfl, ?_, ?_⟩, fun env c => ⟨?_, ?_⟩⟩
  · rintro ⟨msg, hm⟩
    rcases ZeroMQHandler.zmq_execute_error_kinds env c s _ msg hm with h | h <;> cases h
  · intro h
    unfold ZeroMQHandler.executeAsync ZeroMQHandler.execute
    rw [h]
  · rintro ⟨msg, hm⟩
    cases WebSocketHandler.ws_execute_error_kinds env c s _ msg hm
  · intro h
    unfold WebSocketHandler.executeAsync WebSocketHandler.execute
    rw [h]
  · rintro ⟨msg, hm⟩
    cases GrpcHandler.grpc_execute_error_kinds env c s _ msg hm
  · intro h
    unfold GrpcHandler.executeAsync GrpcHandler.execute
    rw [h]
  · rintro ⟨msg, hm⟩
    rcases RestHandler.executeAsync_error_kinds env c _ msg hm with h | h <;> cases h
  · exact fun code msg h => RestHandler.executeAsync_error_kinds env c code msg h

/-! ## Theorems: credential injector, bearer token and frame -/

namespace AuthManager

theorem applyAuth_bearer (t : String) (cb : Option (Nat → String)) (h : List Header)
    (s : Impl) :
    applyAuth (setBearerToken t cb s) h
      = (setBearerToken t cb s, h ++ [{ name := "Authorization", value := "Bearer " ++ t }]) := by
  cases cb <;> simp [applyAuth, setBearerToken, shouldRefreshToken]

theorem applyAuthTimes_bearer (t : String) (cb : Option (Nat → String)) (s : Impl) (n : Nat)
    (h : List Header) :
    applyAuthTimes n (setBearerToken t cb s) h
      = (setBearerToken t cb s,
          h ++ List.replicate n { name := "Authorization", value := "Bearer " ++ t }) := by
  induction n generalizing h with
  | zero => simp [applyAuthTimes]
  | succ n ih =>
      unfold applyAuthTimes
      rw [applyAuth_bearer, ih]
      simp [List.replicate_succ, List.append_assoc]

/-- C19: after `setBearerToken(t, cb)`, whether a refresh callback is given or
not, `applyAuth(h)` appends exactly the header `Authorization: Bearer t` and
leaves the injector as it was: the callback is not invoked (its invocation
count does not move) because `shouldRefreshToken` answers false, and the token
stays the configured one, so `n` calls append `n` copies of that same header. -/
theorem bearer_appends_configured_token
    (t : String) (cb : Option (Nat → String)) (h : List Header) (s : Impl) :
    (applyAuth (setBearerToken t cb s) h).2
        = h ++ [{ name := "Authorization", value := "Bearer " ++ t }]
      ∧ (applyAuth (setBearerToken t cb s) h).1.refresh_invocations = s.refresh_invocations
      ∧ (applyAuth (setBearerToken t cb s) h).1.token_ = t
      ∧ shouldRefreshToken (setBearerToken t cb s) = false
      ∧ ∀ n, (applyAuthTimes n (setBearerToken t cb s) h).2
            = h ++ List.replicate n { name := "Authorization", value := "Bearer " ++ t }
          ∧ (applyAuthTimes n (setBearerToken t cb s) h).1.refresh_invocations
            = s.refresh_invocations
          ∧ (applyAuthTimes n (setBearerToken t cb s) h).1.token_ = t := by
  refine ⟨?_, ?_, ?_, rfl, fun n => ?_⟩
  · rw [applyAuth_bearer]
  · rw [applyAuth_bearer]; rfl
  · rw [applyAuth_bearer]; rfl
  · rw [applyAuthTimes_bearer]
    exact ⟨rfl, rfl, rfl⟩

/-- C20: in every state of the injector, `applyAuth(h)` leaves `h ++ e`: the
headers already there are kept as they are, in order and with duplicates, an
`Authorization` header among them included; `e` holds at most one header, and
`e` is empty when no auth is configured, as in a freshly constructed injector. -/
theorem applyAuth_appends_at_most_one (s : Impl) (h : List Header) :
    (∃ e, (applyAuth s h).2 = h ++ e ∧ e.length ≤ 1 ∧ (s.auth_type_ = AuthType.NONE → e = []))
      ∧ (∀ b, (applyAuth (Impl.init b) h).2 = h)
      ∧ (applyAuth s ({ name := "Authorization", value := "old" } :: h)).2.head?
          = some { name := "Authorization", value := "old" } := by
  refine ⟨?_, fun b => rfl, ?_⟩
  · unfold applyAuth
    cases hty : s.auth_type_ with
    | NONE => exact ⟨[], by simp, by simp, fun _ => rfl⟩
    | BASIC => exact ⟨[_], rfl, by simp, fun hn => by cases hn⟩
    | BEARER => exact ⟨[_], rfl, by simp, fun hn => by cases hn⟩
    | API_KEY =>
        by_cases hk : s.api_key_in_header_ = true
        · simp only [hk, if_true]
          exact ⟨[_], rfl, by simp, fun hn => by cases hn⟩
        · simp only [hk, if_false]
          exact ⟨[], by simp, by simp, fun _ => rfl⟩
  · unfold applyAuth
    cases s.auth_type_ with
    | NONE => rfl
    | BASIC => rfl
    | BEARER => rfl
    | API_KEY =>
        by_cases hk : s.api_key_in_header_ = true
        · simp only [hk, if_true]; rfl
        · simp only [hk, if_false]; rfl

end AuthManager

/-! ## Theorems: HTTP handler, the result of a response -/

namespace RestHandler

theorem step_fromRead (env : RestEnv) (r : Option LibException) (op : RestOp)
    (log : List RestOp) (k : List RestOp → Outcome RequestResult × List RestOp)
    (hk : ∀ l, FromRead env (k l).1) : FromRead env (step r op log k).1 := by
  unfold step
  cases r with
  | none => exact hk _
  | some e =>
      intro x hx
      cases hx

theorem read_fromRead (env : RestEnv) (n : Nat) (l1 l2 : List RestOp) :
    FromRead env
      (match env.read n with
        | Sum.inl t => (Outcome.thrown (catchAll t), l1)
        | Sum.inr res => (Outcome.ok (resultOf res), l2)).1 := by
  cases h : env.read n with
  | inl e =>
      intro x hx
      cases hx
  | inr res =>
      intro x hx
      cases hx
      exact ⟨n, res, h, rfl⟩

theorem executeAsync_fromRead (env : RestEnv) (c : RequestConfig) :
    FromRead env (executeAsync env c).1 := by
  unfold executeAsync
  dsimp only
  split
  · intro x hx
    cases hx
  · apply step_fromRead
    intro l1
    split
    · split
      · intro x hx
        cases hx
      · apply step_fromRead
        intro l2
        apply step_fromRead
        intro l3
        apply step_fromRead
        intro l4
        exact read_fromRead env _ _ _
    · apply step_fromRead
      intro l2
      apply step_fromRead
      intro l3
      exact read_fromRead env _ _ _

theorem executeAsync_envServing (res : HttpResponse) (c : RequestConfig) :
    (executeAsync (envServing res) c).1 = Outcome.ok (resultOf res) := by
  unfold executeAsync
  by_cases h : (strSubstr c.url 0 8 == "https://") = true <;>
    simp [h, envServing, step]

/-- C11: the result built from a parsed response with status `s`, header fields
`f1..fn` and body `b` has status code `s`, the fields as headers in the same
order, body `b` and an empty error string. Every result the handler returns is
built this way from a response that was read, and when every step up to the
read succeeds the response is returned as a result whatever its status: a 404
with header `X-Test: 1` gives status code 404 and that header. -/
theorem result_mirrors_response :
    (∀ res : HttpResponse,
        resultOf res
          = { status_code := res.result_int, headers := res.fields, body := res.body,
              metrics := {}, error := "" })
      ∧ (∀ (env : RestEnv) (c : RequestConfig) (r : RequestResult),
          (executeAsync env c).1 = Outcome.ok r →
            ∃ n res, env.read n = Sum.inr res ∧ r = resultOf res)
      ∧ (∀ (res : HttpResponse) (c : RequestConfig),
          (executeAsync (envServing res) c).1 = Outcome.ok (resultOf res))
      ∧ (executeAsync
            (envServing { result_int := 404, fields := [{ name := "X-Test", value := "1" }],
                          body := "missing" })
            { method := "GET", url := "http://example.com/a" }).1
          = Outcome.ok { status_code := 404, headers := [{ name := "X-Test", value := "1" }],
                         body := "missing", metrics := {}, error := "" } := by
  refine ⟨fun res => ?_, fun env c r h => executeAsync_fromRead env c r h,
    executeAsync_envServing, ?_⟩
  · simp [resultOf]
  · rw [executeAsync_envServing]
    rfl

end RestHandler

/-! ## Theorems: `parseUrl` -/

theorem findIdxFrom_all_false {α : Type} (p : α → Bool) (l : List α) (i : Nat)
    (h : ∀ x ∈ l, p x = false) : findIdxFrom p l i = none := by
  induction l generalizing i with
  | nil => rfl
  | cons a l ih =>
      unfold findIdxFrom
      rw [h a (List.mem_cons_self a l)]
      simp only [Bool.false_eq_true, if_false]
      exact ih (i + 1) (fun x hx => h x (List.mem_cons_of_mem a hx))

theorem findIdxFrom_append {α : Type} (p : α → Bool) (l1 l2 : List α) (i : Nat)
    (h : ∀ x ∈ l1, p x = false) :
    findIdxFrom p (l1 ++ l2) i = findIdxFrom p l2 (i + l1.length) := by
  induction l1 generalizing i with
  | nil => rfl
  | cons a l ih =>
      simp only [List.cons_append, findIdxFrom, h a (List.mem_cons_self a l),
        Bool.false_eq_true, if_false]
      have e : i + 1 + l.length = i + (l.length + 1) := by omega
      have h2 := ih (i + 1) (fun x hx => h x (List.mem_cons_of_mem a hx))
      rw [e] at h2
      exact h2

theorem no_char_all_false (c : Char) (l : List Char) (h : c ∉ l) :
    ∀ x ∈ l, (fun y => y == c) x = false := by
  intro x hx
  simp only [beq_eq_false_iff_ne, ne_eq]
  intro e
  exact h (e ▸ hx)

theorem parseUrl_http (x : String) : parseUrl ("http://" ++ x) = parseUrlFrom ("http://" ++ x) 7 "80" := by
  have h : strSubstr ("http://" ++ x) 0 7 = "http://" := by
    apply String.ext
    simp [strSubstr, String.data_append]
  unfold parseUrl parseUrlFrom
  simp only [h, if_true]

theorem parseUrl_https (x : String) :
    parseUrl ("https://" ++ x) = parseUrlFrom ("https://" ++ x) 8 "443" := by
  have h7 : strSubstr ("https://" ++ x) 0 7 ≠ "http://" := by
    intro e
    have e2 := congrArg String.data e
    simp [strSubstr, String.data_append] at e2
  have h8 : strSubstr ("https://" ++ x) 0 8 = "https://" := by
    apply String.ext
    simp [strSubstr, String.data_append]
  unfold parseUrl parseUrlFrom
  simp only [h7, h8, if_true, if_false]

theorem splitHostPort (host dflt : String) (port : Option String) (hh : ':' ∉ host.data) :
    (match strFind (host ++ portPart port) ':' 0 with
      | some colonPos =>
          (strSubstr (host ++ portPart port) 0 colonPos,
            strSubstrFrom (host ++ portPart port) (colonPos + 1))
      | none => (host ++ portPart port, dflt))
      = (host, port.getD dflt) := by
  cases port with
  | none =>
      have h : strFind (host ++ portPart none) ':' 0 = none := by
        unfold strFind
        apply findIdxFrom_all_false
        simp only [portPart, String.data_append, List.drop_zero]
        intro x hx
        have hx2 : x ∈ host.data := by simpa using hx
        exact no_char_all_false ':' host.data hh x hx2
      rw [h]
      simp [portPart]
  | some p =>
      have h : strFind (host ++ portPart (some p)) ':' 0 = some host.data.length := by
        unfold strFind
        simp only [portPart, String.data_append, List.drop_zero]
        rw [findIdxFrom_append _ _ _ _ (no_char_all_false ':' host.data hh)]
        simp [findIdxFrom]
      rw [h]
      simp only [strSubstr, strSubstrFrom, portPart, String.data_append, List.drop_zero,
        Option.getD_some]
      refine Prod.ext ?_ ?_
      · apply String.ext
        simp
      · apply String.ext
        show List.drop (host.data.length + 1) (host.data ++ (":" ++ p).data) = p.data
        rw [List.drop_append]
        simp [String.data_append]

theorem parseUrlFrom_parts (S dflt host rest : String) (port : Option String)
    (hh1 : '/' ∉ host.data) (hh2 : ':' ∉ host.data)
    (hp : ∀ p, port = some p → '/' ∉ p.data)
    (hr : rest = "" ∨ ∃ r, rest = "/" ++ r) :
    parseUrlFrom (S ++ host ++ portPart port ++ rest) S.data.length dflt
      = (host, port.getD dflt, if rest = "" then "/" else rest) := by
  have hnoslash : ∀ x ∈ (host ++ portPart port).data, (fun y => y == '/') x = false := by
    apply no_char_all_false
    cases port with
    | none => simpa [portPart, String.data_append] using hh1
    | some p =>
        have := hp p rfl
        simp [portPart, String.data_append, hh1, this]
  have hdrop : (S ++ host ++ portPart port ++ rest).data.drop S.data.length
      = (host ++ portPart port).data ++ rest.data := by
    simp [String.data_append, List.append_assoc]
  have hsplit := splitHostPort host dflt port hh2
  rcases hr with hr | ⟨r, hr⟩
  · subst hr
    have hfind : strFind (S ++ host ++ portPart port ++ "") '/' S.data.length = none := by
      unfold strFind
      rw [hdrop]
      apply findIdxFrom_all_false
      simpa using hnoslash
    have hhp : strSubstrFrom (S ++ host ++ portPart port ++ "") S.data.length
        = host ++ portPart port := by
      apply String.ext
      simp only [strSubstrFrom, hdrop]
      simp
    unfold parseUrlFrom
    simp only [hfind, hhp]
    rw [hsplit]
    simp
  · subst hr
    have hfind : strFind (S ++ host ++ portPart port ++ ("/" ++ r)) '/' S.data.length
        = some (S.data.length + (host ++ portPart port).data.length) := by
      unfold strFind
      rw [hdrop, findIdxFrom_append _ _ _ _ hnoslash]
      simp [findIdxFrom, String.data_append]
    have hhp : strSubstr (S ++ host ++ portPart port ++ ("/" ++ r)) S.data.length
        (S.data.length + (host ++ portPart port).data.length - S.data.length)
        = host ++ portPart port := by
      apply String.ext
      simp only [strSubstr, hdrop, Nat.add_sub_cancel_left]
      exact List.take_left' rfl
    have htarget : strSubstrFrom (S ++ host ++ portPart port ++ ("/" ++ r))
        (S.data.length + (host ++ portPart port).data.length) = "/" ++ r := by
      apply String.ext
      simp only [strSubstrFrom]
      rw [← List.drop_drop, hdrop]
      exact List.drop_left' rfl
    have hne : ("/" ++ r) ≠ "" := by
      intro e
      have e2 := congrArg String.data e
      simp [String.data_append] at e2
    unfold parseUrlFrom
    simp only [hfind, hhp, htarget]
    rw [hsplit]
    simp [hne]

theorem parseUrl_parts (host rest : String) (port : Option String)
    (hh1 : '/' ∉ host.data) (hh2 : ':' ∉ host.data)
    (hp : ∀ p, port = some p → '/' ∉ p.data)
    (hr : rest = "" ∨ ∃ r, rest = "/" ++ r) :
    parseUrl ("http://" ++ host ++ portPart port ++ rest)
        = (host, port.getD "80", if rest = "" then "/" else rest)
      ∧ parseUrl ("https://" ++ host ++ portPart port ++ rest)
        = (host, port.getD "443", if rest = "" then "/" else rest) := by
  constructor
  · have e : "http://" ++ host ++ portPart port ++ rest
        = "http://" ++ (host ++ portPart port ++ rest) := by
      simp only [String.append_assoc]
    have h := parseUrlFrom_parts "http://" "80" host rest port hh1 hh2 hp hr
    rw [e, parseUrl_http, ← e]
    exact h
  · have e : "https://" ++ host ++ portPart port ++ rest
        = "https://" ++ (host ++ portPart port ++ rest) := by
      simp only [String.append_assoc]
    have h := parseUrlFrom_parts "https://" "443" host rest port hh1 hh2 hp hr
    rw [e, parseUrl_https, ← e]
    exact h

/-- C12: for a url made of the scheme `http://` or `https://`, a host free of
`/` and `:`, an optional `:` followed by a port free of `/`, and a rest that is
empty or starts with `/`, `parseUrl` returns the host, the port when one is
given and otherwise `80` for http and `443` for https, and the rest as target,
`/` when the rest is empty. (That the host is not empty and holds no `?`, and
that the port holds no `:`, is not needed.) -/
theorem parseUrl_host_port_target (host rest : String) (port : Option String)
    (hh1 : '/' ∉ host.data) (hh2 : ':' ∉ host.data)
    (hp : ∀ p, port = some p → '/' ∉ p.data)
    (hr : rest = "" ∨ ∃ r, rest = "/" ++ r) :
    parseUrl ("http://" ++ host ++ portPart port ++ rest)
        = (host, port.getD "80", if rest = "" then "/" else rest)
      ∧ parseUrl ("https://" ++ host ++ portPart port ++ rest)
        = (host, port.getD "443", if rest = "" then "/" else rest) :=
  parseUrl_parts host rest port hh1 hh2 hp hr

/-- C12 (witness): host `example.com`, port `8080`, rest `/a/b?x=1`. -/
theorem parseUrl_host_port_target_witness :
    '/' ∉ "example.com".data ∧ ':' ∉ "example.com".data ∧ '/' ∉ "8080".data
      ∧ parseUrl ("http://" ++ "example.com" ++ portPart (some "8080") ++ "/a/b?x=1")
        = ("example.com", "8080", "/a/b?x=1")
      ∧ parseUrl ("https://" ++ "example.com" ++ portPart none ++ "")
        = ("example.com", "443", "/") :=
  ⟨by decide, by decide, by decide,
    (parseUrl_host_port_target "example.com" "/a/b?x=1" (some "8080") (by decide) (by decide)
      (fun p hp => by cases hp; decide) (Or.inr ⟨"a/b?x=1", by decide⟩)).1,
    (parseUrl_host_port_target "example.com" "" none (by decide) (by decide)
      (fun p hp => by cases hp) (Or.inl rfl)).2⟩

/-- C13: for a url with a query and no path, `http://` or `https://` followed by
`h`, `?` and `q`, `parseUrl` finds no `/` after the scheme, so it returns the
whole of `h?q` as the host and the bare `/` as target: the query string is part
of the host that is resolved and does not reach the request line. -/
theorem parseUrl_query_without_path_joins_host (h q : String)
    (h1 : '/' ∉ h.data) (h2 : ':' ∉ h.data) (q1 : '/' ∉ q.data) (q2 : ':' ∉ q.data) :
    parseUrl ("http://" ++ h ++ "?" ++ q) = (h ++ "?" ++ q, "80", "/")
      ∧ parseUrl ("https://" ++ h ++ "?" ++ q) = (h ++ "?" ++ q, "443", "/")
      ∧ (parseUrl ("http://" ++ h ++ "?" ++ q)).1 ≠ h
      ∧ (parseUrl ("http://" ++ h ++ "?" ++ q)).2.2 ≠ "/?" ++ q := by
  have hs : '/' ∉ (h ++ "?" ++ q).data := by
    simp [String.data_append, h1, q1]
  have hc : ':' ∉ (h ++ "?" ++ q).data := by
    simp [String.data_append, h2, q2]
  have hp := parseUrl_parts (h ++ "?" ++ q) "" none hs hc (fun p hp => by cases hp) (Or.inl rfl)
  have e1 : "http://" ++ (h ++ "?" ++ q) ++ portPart none ++ "" = "http://" ++ h ++ "?" ++ q := by
    apply String.ext
    simp [portPart, String.data_append]
  have e2 : "https://" ++ (h ++ "?" ++ q) ++ portPart none ++ ""
      = "https://" ++ h ++ "?" ++ q := by
    apply String.ext
    simp [portPart, String.data_append]
  rw [e1, e2] at hp
  simp only [if_true, Option.getD_none] at hp
  refine ⟨hp.1, hp.2, ?_, ?_⟩
  · rw [hp.1]
    intro e
    have e3 := congrArg (fun s => s.data.length) e
    simp [String.data_append] at e3
  · rw [hp.1]
    intro e
    have e3 := congrArg (fun s => s.data.length) e
    simp [String.data_append] at e3

/-- C13 (witness): the url `http://example.com?x=1`. -/
theorem parseUrl_query_without_path_joins_host_witness :
    '/' ∉ "example.com".data ∧ ':' ∉ "example.com".data
      ∧ '/' ∉ "x=1".data ∧ ':' ∉ "x=1".data
      ∧ parseUrl ("http://" ++ "example.com" ++ "?" ++ "x=1") = ("example.com?x=1", "80", "/") :=
  ⟨by decide, by decide, by decide, by decide,
    (parseUrl_query_without_path_joins_host "example.com" "x=1" (by decide) (by decide)
      (by decide) (by decide)).1⟩

/-! ## Theorems: ZeroMQ handler, the operations `configure` logs -/

namespace ZeroMQHandler

theorem quiet_isCreate : Quiet ZmqOp.isCreate :=
  ⟨fun _ _ => rfl, fun _ _ => rfl, fun _ _ => rfl, rfl, rfl, rfl, fun _ => rfl, fun _ => rfl,
    fun _ => rfl, rfl⟩

theorem quiet_isAttach : Quiet ZmqOp.isAttach :=
  ⟨fun _ _ => rfl, fun _ _ => rfl, fun _ _ => rfl, rfl, rfl, rfl, fun _ => rfl, fun _ => rfl,
    fun _ => rfl, rfl⟩

theorem Adds.unchanged (keep : ZmqOp → Bool) (s : State) : Adds keep s s [] := by
  simp [Adds]

theorem Adds.chain {keep : ZmqOp → Bool} {s t u : State} {xs ys : List ZmqOp}
    (h1 : Adds keep s t xs) (h2 : Adds keep t u ys) : Adds keep s u (xs ++ ys) := by
  unfold Adds at *
  rw [h2, h1, List.append_assoc]

theorem Adds.of_log_eq {keep : ZmqOp → Bool} {s t : State} (h : t.log = s.log) :
    Adds keep s t [] := by
  simp [Adds, h]

theorem record_adds_quiet (keep : ZmqOp → Bool) (op : ZmqOp) (s : State)
    (h : keep op = false) : Adds keep s (record op s) [] := by
  simp [Adds, record, List.filter_append, h]

theorem record_adds (keep : ZmqOp → Bool) (op : ZmqOp) (s : State) :
    Adds keep s (record op s) ([op].filter keep) := by
  simp [Adds, record, List.filter_append]

theorem stopPolling_adds {keep : ZmqOp → Bool} (q : Quiet keep) (s : State) :
    Adds keep s (stopPolling s) [] := by
  unfold stopPolling
  by_cases h : s.m_pollThread = true
  · simp only [h, if_true]
    exact record_adds_quiet keep ZmqOp.threadJoin { s with m_running := false } q.threadJoin
  · simp only [h, if_false]
    exact Adds.of_log_eq rfl

theorem sockSet_adds {keep : ZmqOp → Bool} (q : Quiet keep) (env : ZmqEnv) (o : SockOpt)
    (s : State) : Adds keep s (sockSet env o s).2 [] := by
  unfold sockSet
  cases s.m_socket with
  | none => exact Adds.unchanged keep s
  | some k =>
      cases env.setsockopt s.log.length o with
      | none => simp [Adds, record, List.filter_append, q.set]
      | some w => simp [Adds, record, List.filter_append, q.set]

theorem andThen_adds_nil {keep : ZmqOp → Bool} {s : State} {r : Outcome Unit × State}
    {f : State → Outcome Unit × State} {xs : List ZmqOp} (hr : Adds keep s r.2 xs)
    (hf : ∀ t, Adds keep t (f t).2 []) : Adds keep s (andThen r f).2 xs := by
  obtain ⟨o, t⟩ := r
  cases o with
  | ok u =>
      have := hr.chain (hf t)
      simpa using this
  | thrown e => exact hr
  | nullDeref => exact hr

theorem sockSetAll_adds {keep : ZmqOp → Bool} (q : Quiet keep) (env : ZmqEnv)
    (os : List SockOpt) (s : State) : Adds keep s (sockSetAll env os s).2 [] := by
  induction os generalizing s with
  | nil => exact Adds.unchanged keep s
  | cons o os ih =>
      unfold sockSetAll
      exact andThen_adds_nil (sockSet_adds q env o s) ih

theorem teardown_adds {keep : ZmqOp → Bool} (q : Quiet keep) (env : ZmqEnv) (s : State) :
    Adds keep s (teardown env s) [] := by
  unfold teardown
  split
  · exact Adds.unchanged keep s
  · have h1 := sockSet_adds q env (SockOpt.linger 0) s
    generalize sockSet env (SockOpt.linger 0) s = r at h1
    obtain ⟨o, t⟩ := r
    cases o with
    | ok u =>
        by_cases hb : isBindingRole t.m_role = true
        · simp only [hb, if_true]
          have h2 : Adds keep t (record ZmqOp.closeSocket (record (ZmqOp.unbind t.m_endpoint
              (env.unbind t.log.length t.m_endpoint).isNone) t)) [] := by
            simp [Adds, record, List.filter_append, q.unbind, q.closeSocket]
          have := h1.chain h2
          simpa [Adds] using this
        · simp only [hb, if_false]
          have h2 : Adds keep t (record ZmqOp.closeSocket (record (ZmqOp.disconnect t.m_endpoint
              (env.disconnect t.log.length t.m_endpoint).isNone) t)) [] := by
            simp [Adds, record, List.filter_append, q.disconnect, q.closeSocket]
          have := h1.chain h2
          simpa [Adds] using this
    | thrown e => simpa [Adds] using h1
    | nullDeref => simpa [Adds] using h1

theorem close_adds {keep : ZmqOp → Bool} (q : Quiet keep) (env : ZmqEnv) (s : State) :
    Adds keep s (close env s) [] := by
  have h := ((stopPolling_adds q s).chain (teardown_adds q env (stopPolling s))).chain
    (record_adds_quiet keep (ZmqOp.sleep 500) (teardown env (stopPolling s)) (q.sleep 500))
  simpa using h

theorem setConnectionStatus_adds {keep : ZmqOp → Bool} (q : Quiet keep)
    (c : ConnectionStatus) (s : State) : Adds keep s (setConnectionStatus c s) [] := by
  unfold setConnectionStatus
  split
  · simp [Adds, record, List.filter_append, q.emitConnectionStatusChanged]
  · exact Adds.unchanged keep s

theorem startPolling_adds {keep : ZmqOp → Bool} (q : Quiet keep) (s : State) :
    Adds keep s (startPolling s) [] := by
  unfold startPolling
  have h := stopPolling_adds q s
  generalize stopPolling s = t at h
  dsimp only
  split
  · exact h
  · have h2 : Adds keep t (record ZmqOp.threadStart
        { t with m_running := true, m_pollThread := true }) [] := by
      simp [Adds, record, List.filter_append, q.threadStart]
    simpa using h.chain h2

theorem widenTimeout_log (s : State) : (widenTimeout s).log = s.log := by
  unfold widenTimeout
  split <;> rfl

theorem setCommonSocketOptions_adds {keep : ZmqOp → Bool} (q : Quiet keep) (env : ZmqEnv)
    (s : State) : Adds keep s (setCommonSocketOptions env s).2 [] := by
  unfold setCommonSocketOptions
  split
  · exact Adds.unchanged keep s
  · have h1 : Adds keep s (widenTimeout s) [] := Adds.of_log_eq (widenTimeout_log s)
    simpa using h1.chain (sockSetAll_adds q env _ (widenTimeout s))

theorem createSocket_adds (keep : ZmqOp → Bool) (env : ZmqEnv) (kind : SocketType)
    (s : State) :
    Adds keep s (createSocket env kind s).2
      ([ZmqOp.create kind (env.create s.log.length kind).isNone].filter keep) := by
  unfold createSocket
  cases env.create s.log.length kind with
  | none => simp [Adds, record, List.filter_append]
  | some w => simp [Adds, record, List.filter_append]

theorem configureSocket_adds {keep : ZmqOp → Bool} (q : Quiet keep) (env : ZmqEnv)
    (p : Pattern) (r : Role) (s : State) (hr : r ∈ getAvailableRoles p)
    (hrole : s.m_role = r) :
    Adds keep s (configureSocket env p r s).2
      ([ZmqOp.create (kindFor r) (env.create s.log.length (kindFor r)).isNone].filter keep) := by
  cases p <;> cases r <;> simp [getAvailableRoles] at hr <;>
    simp only [configureSocket, setupREQREP, setupPUBSUB, setupDEALERROUTER, hrole, if_true,
      if_false, reduceCtorEq, kindFor]
  · exact createSocket_adds keep env _ s
  · exact createSocket_adds keep env _ s
  · exact andThen_adds_nil (createSocket_adds keep env _ s) (fun t =>
      andThen_adds_nil (setCommonSocketOptions_adds q env t) (fun u => sockSet_adds q env _ u))
  · refine andThen_adds_nil (createSocket_adds keep env _ s) (fun t => ?_)
    refine andThen_adds_nil (setCommonSocketOptions_adds q env t) (fun u => ?_)
    refine andThen_adds_nil (sockSet_adds q env _ u) (fun v => ?_)
    refine andThen_adds_nil (sockSet_adds q env _ v) (fun w => ?_)
    exact record_adds_quiet keep _ w (q.sleep 100)
  · exact createSocket_adds keep env _ s
  · exact createSocket_adds keep env _ s
  · refine andThen_adds_nil (createSocket_adds keep env _ s) (fun t => ?_)
    have h1 : Adds keep t { t with
        m_dealerId := "DEALER-" ++ toString (env.random t.log.length),
        m_identity := "DEALER-" ++ toString (env.random t.log.length) } [] :=
      Adds.of_log_eq rfl
    simpa using h1.chain (sockSetAll_adds q env _ _)
  · refine andThen_adds_nil (createSocket_adds keep env _ s) (fun t => ?_)
    refine andThen_adds_nil (sockSetAll_adds q env _ t) (fun u => ?_)
    exact Adds.of_log_eq rfl

theorem attach_adds {keep : ZmqOp → Bool} (q : Quiet keep) (env : ZmqEnv) (s : State)
    (k : Socket) (hk : s.m_socket = some k) :
    ∃ ok, Adds keep s (attach env s).2 ([attachOp s.m_role s.m_endpoint ok].filter keep) := by
  have hfin : ∀ t : State,
      Adds keep t (setConnectionStatus ConnectionStatus.CONNECTED (startPolling t)) [] := by
    intro t
    simpa using (startPolling_adds q t).chain (setConnectionStatus_adds q _ _)
  unfold attach attachOp
  cases hrole : isBindingRole s.m_role
  · simp only [Bool.false_eq_true, if_false, connectSocket, hk]
    cases env.connect s.log.length s.m_endpoint with
    | none =>
        refine ⟨true, ?_⟩
        have h1 := record_adds keep (ZmqOp.connect s.m_endpoint true)
          { s with m_socket := some { k with connected := some s.m_endpoint } }
        have h2 := h1.chain (hfin _)
        simpa [Adds, andThen] using h2
    | some w =>
        refine ⟨false, ?_⟩
        have h1 := record_adds keep (ZmqOp.connect s.m_endpoint false) s
        simpa [Adds, andThen] using h1
  · simp only [if_true, bindSocket, hk]
    cases env.bind s.log.length (bindEndpoint s.m_endpoint) with
    | none =>
        refine ⟨true, ?_⟩
        have h1 := record_adds keep (ZmqOp.bind (bindEndpoint s.m_endpoint) true)
          { s with m_socket := some { k with bound := some (bindEndpoint s.m_endpoint) } }
        have h2 := h1.chain (hfin _)
        simpa [Adds, andThen] using h2
    | some w =>
        refine ⟨false, ?_⟩
        have h1 := record_adds keep (ZmqOp.bind (bindEndpoint s.m_endpoint) false) s
        simpa [Adds, andThen] using h1

theorem catchZmq_adds {keep : ZmqOp → Bool} (q : Quiet keep) (r : Outcome Unit × State) :
    Adds keep r.2 (catchZmq r).2 [] := by
  obtain ⟨o, t⟩ := r
  cases o with
  | ok u => exact Adds.unchanged keep t
  | nullDeref => exact Adds.unchanged keep t
  | thrown e =>
      cases e with
      | zmq w => exact setConnectionStatus_adds q _ t
      | error c m => exact Adds.unchanged keep t
      | system w => exact Adds.unchanged keep t
      | other w => exact Adds.unchanged keep t

/-- The selected operations `configure` logs for a valid pair: the creation of
the socket of the role's type and, unless the set-up threw, one bind or connect. -/
theorem configure_adds {keep : ZmqOp → Bool} (q : Quiet keep) (env : ZmqEnv) (s : State)
    (p : Pattern) (r : Role) (ep : String) (hr : r ∈ getAvailableRoles p) :
    ∃ ok1, ((∃ w, (configure env p r ep s).1
            = Outcome.thrown (Thrown.error ErrorCode.ZMQ_ERROR w))
          ∧ Adds keep s (configure env p r ep s).2
            ([ZmqOp.create (kindFor r) ok1].filter keep))
      ∨ ∃ ok2, Adds keep s (configure env p r ep s).2
        ([ZmqOp.create (kindFor r) ok1].filter keep ++ [attachOp r ep ok2].filter keep) := by
  unfold configure configureAfterClose configureTry
  have h0 : Adds keep s (assignConfig p r ep
      (setConnectionStatus ConnectionStatus.DISCONNECTED (close env s))) [] := by
    have h1 := (close_adds q env s).chain (setConnectionStatus_adds q
      ConnectionStatus.DISCONNECTED (close env s))
    have h2 : Adds keep (setConnectionStatus ConnectionStatus.DISCONNECTED (close env s))
        (assignConfig p r ep (setConnectionStatus ConnectionStatus.DISCONNECTED (close env s)))
        [] := Adds.of_log_eq rfl
    simpa using h1.chain h2
  have f_socket : (assignConfig p r ep
      (setConnectionStatus ConnectionStatus.DISCONNECTED (close env s))).m_socket = none :=
    (setConnectionStatus_m_socket _ _).trans (close_m_socket env s)
  have f_role : (assignConfig p r ep
      (setConnectionStatus ConnectionStatus.DISCONNECTED (close env s))).m_role = r := rfl
  have f_ep : (assignConfig p r ep
      (setConnectionStatus ConnectionStatus.DISCONNECTED (close env s))).m_endpoint = ep := rfl
  generalize assignConfig p r ep
    (setConnectionStatus ConnectionStatus.DISCONNECTED (close env s)) = s2
    at h0 f_socket f_role f_ep
  refine ⟨(env.create s2.log.length (kindFor r)).isNone, ?_⟩
  have hphase : Setup s2 (andThen (configureSocket env p r s2) (setCommonSocketOptions env)) :=
    andThen_setup (configureSocket_setup env p r s2 hr f_role f_socket)
      (fun t _ hu hs => setCommonSocketOptions_setup env t hu hs)
  have haddsph : Adds keep s2
      (andThen (configureSocket env p r s2) (setCommonSocketOptions env)).2
      ([ZmqOp.create (kindFor r) (env.create s2.log.length (kindFor r)).isNone].filter keep) :=
    andThen_adds_nil (configureSocket_adds q env p r s2 hr f_role)
      (fun t => setCommonSocketOptions_adds q env t)
  generalize andThen (configureSocket env p r s2) (setCommonSocketOptions env) = ph
    at hphase haddsph
  obtain ⟨o, t⟩ := ph
  obtain ⟨hsame, _, hout⟩ := hphase
  rcases hout with ⟨ho, hsome⟩ | ⟨w, hw⟩
  · simp only at ho hsome
    subst ho
    obtain ⟨k, hk⟩ := Option.isSome_iff_exists.mp hsome
    obtain ⟨ok2, ha⟩ := attach_adds q env t k hk
    rw [hsame.role, hsame.endpoint, f_role, f_ep] at ha
    refine Or.inr ⟨ok2, ?_⟩
    have hat : andThen (Outcome.ok (), t) (attach env) = attach env t := rfl
    rw [hat]
    have h3 := ((h0.chain haddsph).chain ha).chain (catchZmq_adds q (attach env t))
    simpa using h3
  · simp only at hw
    subst hw
    have e1 : catchZmq (andThen (Outcome.thrown (Thrown.zmq w), t) (attach env))
        = (Outcome.thrown (Thrown.error ErrorCode.ZMQ_ERROR w),
            setConnectionStatus ConnectionStatus.ERROR t) := rfl
    rw [e1]
    refine Or.inl ⟨⟨w, rfl⟩, ?_⟩
    have h3 := (h0.chain haddsph).chain (setConnectionStatus_adds q ConnectionStatus.ERROR t)
    simpa using h3

/-- For an invalid pair `configure` logs no socket creation, bind or connect. -/
theorem configure_adds_invalid {keep : ZmqOp → Bool} (q : Quiet keep) (env : ZmqEnv)
    (s : State) (p : Pattern) (r : Role) (ep : String) (hr : r ∉ getAvailableRoles p) :
    Adds keep s (configure env p r ep s).2 [] := by
  unfold configure configureAfterClose
  have h0 : Adds keep s (assignConfig p r ep
      (setConnectionStatus ConnectionStatus.DISCONNECTED (close env s))) [] := by
    have h1 := (close_adds q env s).chain (setConnectionStatus_adds q
      ConnectionStatus.DISCONNECTED (close env s))
    have h2 : Adds keep (setConnectionStatus ConnectionStatus.DISCONNECTED (close env s))
        (assignConfig p r ep (setConnectionStatus ConnectionStatus.DISCONNECTED (close env s)))
        [] := Adds.of_log_eq rfl
    simpa using h1.chain h2
  have f_socket : (assignConfig p r ep
      (setConnectionStatus ConnectionStatus.DISCONNECTED (close env s))).m_socket = none :=
    (setConnectionStatus_m_socket _ _).trans (close_m_socket env s)
  have f_role : (assignConfig p r ep
      (setConnectionStatus ConnectionStatus.DISCONNECTED (close env s))).m_role = r := rfl
  generalize assignConfig p r ep
    (setConnectionStatus ConnectionStatus.DISCONNECTED (close env s)) = s2
    at h0 f_socket f_role
  have e : catchZmq (configureTry env p r s2) = (Outcome.nullDeref, s2) := by
    cases p <;> cases r <;> simp [getAvailableRoles] at hr <;>
      simp [configureTry, configureSocket, setupREQREP, setupPUBSUB, setupDEALERROUTER,
        setCommonSocketOptions, attach, bindSocket, connectSocket, andThen, isBindingRole,
        catchZmq, f_socket, f_role]
  rw [e]
  exact h0

theorem findSubFrom_slashes (l1 l2 : List Char) (i : Nat) (h : '/' ∉ l1) :
    findSubFrom ['/', '/'] (l1 ++ '/' :: '/' :: l2) i = some (i + l1.length) := by
  induction l1 generalizing i with
  | nil => simp [findSubFrom, List.isPrefixOf]
  | cons c l ih =>
      have hc : c ≠ '/' := fun e => h (e ▸ List.mem_cons_self c l)
      have hl : '/' ∉ l := fun hm => h (List.mem_cons_of_mem c hm)
      have hne : ('/' == c) = false := by
        simp only [beq_eq_false_iff_ne, ne_eq]
        exact fun e => hc e.symm
      simp only [List.cons_append, findSubFrom, List.isPrefixOf, hne, Bool.false_and,
        Bool.false_eq_true, if_false]
      have h2 := ih (i + 1) hl
      have e : i + 1 + l.length = i + (c :: l).length := by
        simp only [List.length_cons]
        omega
      rw [e] at h2
      exact h2

theorem findSubFrom_some_occurs (pat l : List Char) (i j : Nat)
    (h : findSubFrom pat l i = some j) : ∃ a b, l = a ++ pat ++ b := by
  induction l generalizing i with
  | nil =>
      unfold findSubFrom at h
      by_cases hp : pat.isEmpty = true
      · have : pat = [] := List.isEmpty_iff.mp hp
        exact ⟨[], [], by simp [this]⟩
      · simp [hp] at h
  | cons c l ih =>
      unfold findSubFrom at h
      by_cases hp : pat.isPrefixOf (c :: l) = true
      · obtain ⟨t, ht⟩ := List.isPrefixOf_iff_prefix.mp hp
        exact ⟨[], t, by simp [ht]⟩
      · simp only [hp, if_false] at h
        obtain ⟨a, b, hab⟩ := ih (i + 1) h
        exact ⟨c :: a, b, by simp [hab]⟩

theorem strFindStr_slashes (a b : String) (h : '/' ∉ a.data) :
    strFindStr (a ++ "//" ++ b) "//" 0 = some a.data.length := by
  unfold strFindStr
  have hd : (a ++ "//" ++ b).data = a.data ++ '/' :: '/' :: b.data := by
    simp [String.data_append]
  have hp : ("//" : String).data = ['/', '/'] := rfl
  simp only [Nat.not_lt_zero, if_false, List.drop_zero, hd, hp]
  rw [findSubFrom_slashes _ _ _ h]
  simp

/-- Rewriting of an endpoint `a//host:rest` whose part `a` before the slashes
holds no `/` and whose host holds no `:`. -/
theorem bindEndpoint_wildcard (a host rest : String) (ha : '/' ∉ a.data)
    (hh : ':' ∉ host.data) :
    bindEndpoint (a ++ "//" ++ (host ++ ":" ++ rest)) = a ++ "//" ++ "*" ++ ":" ++ rest := by
  unfold bindEndpoint
  rw [strFindStr_slashes a _ ha]
  have hd : (a ++ "//" ++ (host ++ ":" ++ rest)).data
      = (a.data ++ ['/', '/']) ++ (host.data ++ ':' :: rest.data) := by
    simp [String.data_append]
  have hlen : a.data.length + 2 = (a.data ++ ['/', '/']).length := by simp
  have hfind : strFind (a ++ "//" ++ (host ++ ":" ++ rest)) ':' (a.data.length + 2)
      = some (a.data.length + 2 + host.data.length) := by
    unfold strFind
    rw [hd, hlen, List.drop_left, findIdxFrom_append _ _ _ _ (no_char_all_false ':' _ hh)]
    simp [findIdxFrom]
  simp only [hfind]
  apply String.ext
  simp only [strSubstr, strSubstrFrom, String.data_append, List.drop_zero, hd]
  have e1 : List.take (a.data.length + 2)
      ((a.data ++ ['/', '/']) ++ (host.data ++ ':' :: rest.data)) = a.data ++ ['/', '/'] :=
    List.take_left' (by simp)
  have e2 : List.drop (a.data.length + 2 + host.data.length)
      ((a.data ++ ['/', '/']) ++ (host.data ++ ':' :: rest.data)) = ':' :: rest.data := by
    rw [← List.drop_drop, hlen, List.drop_left]
    exact List.drop_left' rfl
  rw [e1, e2]
  simp

/-- An endpoint with no `:` after its slashes is left as it is. -/
theorem bindEndpoint_no_colon (a b : String) (ha : '/' ∉ a.data) (hb : ':' ∉ b.data) :
    bindEndpoint (a ++ "//" ++ b) = a ++ "//" ++ b := by
  unfold bindEndpoint
  rw [strFindStr_slashes a _ ha]
  have hd : (a ++ "//" ++ b).data = (a.data ++ ['/', '/']) ++ b.data := by
    simp [String.data_append]
  have hlen : a.data.length + 2 = (a.data ++ ['/', '/']).length := by simp
  have hfind : strFind (a ++ "//" ++ b) ':' (a.data.length + 2) = none := by
    unfold strFind
    rw [hd, hlen, List.drop_left]
    exact findIdxFrom_all_false _ _ _ (no_char_all_false ':' _ hb)
  simp only [hfind]

/-- An endpoint in which `//` does not occur is left as it is. -/
theorem bindEndpoint_no_slashes (ep : String) (h : ∀ a b : String, ep ≠ a ++ "//" ++ b) :
    bindEndpoint ep = ep := by
  unfold bindEndpoint
  cases hf : strFindStr ep "//" 0 with
  | none => rfl
  | some pos =>
      exfalso
      unfold strFindStr at hf
      simp only [Nat.not_lt_zero, if_false, List.drop_zero] at hf
      obtain ⟨a, b, hab⟩ := findSubFrom_some_occurs _ _ _ _ hf
      apply h (String.mk a) (String.mk b)
      apply String.ext
      simp only [String.data_append]
      exact hab

theorem attachOp_not_create (r : Role) (ep : String) (ok : Bool) :
    [attachOp r ep ok].filter ZmqOp.isCreate = [] := by
  unfold attachOp
  split <;> rfl

theorem attachOp_is_attach (r : Role) (ep : String) (ok : Bool) :
    [attachOp r ep ok].filter ZmqOp.isAttach = [attachOp r ep ok] := by
  unfold attachOp
  split <;> rfl

/-- C14: the pairs (pattern, role) with the role among `getAvailableRoles` of
the pattern are exactly the eight of the table, two roles for every pattern and
one pattern for every role; `configure` creates one socket for such a pair, of
the type the table gives the role (REQ, REP, PUB, SUB, PUSH, PULL, DEALER,
ROUTER), and creates none for any other pair. -/
theorem configure_creates_socket_of_role_kind :
    (∀ (p : Pattern) (r : Role),
        r ∈ getAvailableRoles p ↔
          (p, r) ∈ [(Pattern.REQ_REP, Role.REQUESTER), (Pattern.REQ_REP, Role.REPLIER),
            (Pattern.PUB_SUB, Role.PUBLISHER), (Pattern.PUB_SUB, Role.SUBSCRIBER),
            (Pattern.PUSH_PULL, Role.PUSHER), (Pattern.PUSH_PULL, Role.PULLER),
            (Pattern.DEALER_ROUTER, Role.DEALER), (Pattern.DEALER_ROUTER, Role.ROUTER)])
      ∧ (∀ p : Pattern, (getAvailableRoles p).length = 2 ∧ (getAvailableRoles p).Nodup)
      ∧ (∀ r : Role, ∃ p, r ∈ getAvailableRoles p ∧ ∀ p2, r ∈ getAvailableRoles p2 → p2 = p)
      ∧ (kindFor Role.REQUESTER = SocketType.req ∧ kindFor Role.REPLIER = SocketType.rep
          ∧ kindFor Role.PUBLISHER = SocketType.pub ∧ kindFor Role.SUBSCRIBER = SocketType.sub
          ∧ kindFor Role.PUSHER = SocketType.push ∧ kindFor Role.PULLER = SocketType.pull
          ∧ kindFor Role.DEALER = SocketType.dealer ∧ kindFor Role.ROUTER = SocketType.router)
      ∧ (∀ (env : ZmqEnv) (s : State) (p : Pattern) (r : Role) (ep : String),
          r ∈ getAvailableRoles p →
            ∃ ok, (configure env p r ep s).2.log.filter ZmqOp.isCreate
              = s.log.filter ZmqOp.isCreate ++ [ZmqOp.create (kindFor r) ok])
      ∧ (∀ (env : ZmqEnv) (s : State) (p : Pattern) (r : Role) (ep : String),
          r ∉ getAvailableRoles p →
            (configure env p r ep s).2.log.filter ZmqOp.isCreate = s.log.filter ZmqOp.isCreate
              ∧ (configure env p r ep s).2.m_socket = none)
      ∧ (∀ (p : Pattern) (r : Role), r ∈ getAvailableRoles p →
            (configured p r).m_socket.map Socket.kind = some (kindFor r)) := by
  refine ⟨?_, ?_, ?_, ⟨rfl, rfl, rfl, rfl, rfl, rfl, rfl, rfl⟩, ?_, ?_, ?_⟩
  · intro p r
    cases p <;> cases r <;> simp [getAvailableRoles]
  · intro p
    cases p <;> simp [getAvailableRoles]
  · intro r
    cases r
    · exact ⟨Pattern.REQ_REP, by simp [getAvailableRoles],
        fun p2 h => by cases p2 <;> simp [getAvailableRoles] at h ⊢⟩
    · exact ⟨Pattern.REQ_REP, by simp [getAvailableRoles],
        fun p2 h => by cases p2 <;> simp [getAvailableRoles] at h ⊢⟩
    · exact ⟨Pattern.PUB_SUB, by simp [getAvailableRoles],
        fun p2 h => by cases p2 <;> simp [getAvailableRoles] at h ⊢⟩
    · exact ⟨Pattern.PUB_SUB, by simp [getAvailableRoles],
        fun p2 h => by cases p2 <;> simp [getAvailableRoles] at h ⊢⟩
    · exact ⟨Pattern.PUSH_PULL, by simp [getAvailableRoles],
        fun p2 h => by cases p2 <;> simp [getAvailableRoles] at h ⊢⟩
    · exact ⟨Pattern.PUSH_PULL, by simp [getAvailableRoles],
        fun p2 h => by cases p2 <;> simp [getAvailableRoles] at h ⊢⟩
    · exact ⟨Pattern.DEALER_ROUTER, by simp [getAvailableRoles],
        fun p2 h => by cases p2 <;> simp [getAvailableRoles] at h ⊢⟩
    · exact ⟨Pattern.DEALER_ROUTER, by simp [getAvailableRoles],
        fun p2 h => by cases p2 <;> simp [getAvailableRoles] at h ⊢⟩
  · intro env s p r ep hr
    obtain ⟨ok1, h | ⟨ok2, h⟩⟩ := configure_adds quiet_isCreate env s p r ep hr
    · exact ⟨ok1, h.2⟩
    · refine ⟨ok1, ?_⟩
      rw [attachOp_not_create] at h
      exact h
  · intro env s p r ep hr
    have h := configure_adds_invalid quiet_isCreate env s p r ep hr
    exact ⟨by simpa [Adds] using h,
      (configureAfterClose_invalid env p r ep (close env s) (close_m_socket env s) hr).2.1⟩
  · intro p r hr
    cases p <;> cases r <;> simp [getAvailableRoles] at hr <;> decide

/-! ### What makes `configure` bind or connect -/

theorem blames_ok (env : ZmqEnv) (s : State) : Blames env (Outcome.ok (), s) := by
  intro t h
  cases h

theorem sockSet_blames (env : ZmqEnv) (o : SockOpt) (s : State) (k : Socket)
    (hk : s.m_socket = some k) : Blames env (sockSet env o s) := by
  unfold sockSet
  rw [hk]
  dsimp only
  cases he : env.setsockopt s.log.length o with
  | none => exact blames_ok env _
  | some w =>
      intro t h
      cases h
      exact ⟨w, rfl, Or.inr ⟨_, _, he⟩⟩

theorem andThen_blames {env : ZmqEnv} {r : Outcome Unit × State}
    {f : State → Outcome Unit × State} (hr : Blames env r)
    (hf : r.1 = Outcome.ok () → Blames env (f r.2)) : Blames env (andThen r f) := by
  obtain ⟨o, s⟩ := r
  cases o with
  | ok u => exact hf rfl
  | thrown e => exact hr
  | nullDeref =>
      intro t h
      cases h

theorem sockSet_socket_ok (env : ZmqEnv) (o : SockOpt) (s : State)
    (h : (sockSet env o s).1 = Outcome.ok ()) : (sockSet env o s).2.m_socket.isSome = true := by
  unfold sockSet at h ⊢
  cases hk : s.m_socket with
  | none => rw [hk] at h; cases h
  | some k =>
      rw [hk] at h
      dsimp only at h ⊢
      cases he : env.setsockopt s.log.length o with
      | none => rfl
      | some w => rw [he] at h; cases h

theorem sockSetAll_blames (env : ZmqEnv) (os : List SockOpt) (s : State)
    (hs : s.m_socket.isSome = true) : Blames env (sockSetAll env os s) := by
  induction os generalizing s with
  | nil => exact blames_ok env s
  | cons o os ih =>
      unfold sockSetAll
      obtain ⟨k, hk⟩ := Option.isSome_iff_exists.mp hs
      exact andThen_blames (sockSet_blames env o s k hk)
        (fun hok => ih _ (sockSet_socket_ok env o s hok))

theorem createSocket_blames (env : ZmqEnv) (kind : SocketType) (s : State) :
    Blames env (createSocket env kind s)
      ∧ ((createSocket env kind s).1 = Outcome.ok () →
          (createSocket env kind s).2.m_socket.isSome = true) := by
  unfold createSocket
  cases he : env.create s.log.length kind with
  | none => exact ⟨blames_ok env _, fun _ => rfl⟩
  | some w =>
      refine ⟨?_, fun h => by cases h⟩
      intro t h
      cases h
      exact ⟨w, rfl, Or.inl ⟨_, _, he⟩⟩

theorem setCommonSocketOptions_blames (env : ZmqEnv) (s : State) :
    Blames env (setCommonSocketOptions env s) := by
  unfold setCommonSocketOptions
  cases hk : s.m_socket with
  | none => exact blames_ok env s
  | some k =>
      dsimp only
      apply sockSetAll_blames
      rw [widenTimeout_m_socket, hk]
      rfl

theorem sockSetAll_socket_ok (env : ZmqEnv) (os : List SockOpt) (s : State)
    (hs : s.m_socket.isSome = true) (h : (sockSetAll env os s).1 = Outcome.ok ()) :
    (sockSetAll env os s).2.m_socket.isSome = true := by
  induction os generalizing s with
  | nil => exact hs
  | cons o os ih =>
      unfold sockSetAll at h ⊢
      have h1 := sockSet_socket_ok env o s
      generalize sockSet env o s = r at h h1 ⊢
      obtain ⟨o1, t⟩ := r
      cases o1 with
      | ok u => exact ih t (h1 rfl) h
      | thrown e => cases h
      | nullDeref => cases h

theorem setCommonSocketOptions_socket_ok (env : ZmqEnv) (s : State)
    (hs : s.m_socket.isSome = true) (h : (setCommonSocketOptions env s).1 = Outcome.ok ()) :
    (setCommonSocketOptions env s).2.m_socket.isSome = true := by
  unfold setCommonSocketOptions at h ⊢
  cases hk : s.m_socket with
  | none => rw [hk] at hs; cases hs
  | some k =>
      rw [hk] at h
      dsimp only at h ⊢
      apply sockSetAll_socket_ok _ _ _ _ h
      rw [widenTimeout_m_socket, hk]
      rfl

theorem configureSocket_blames (env : ZmqEnv) (p : Pattern) (r : Role) (s : State) :
    Blames env (configureSocket env p r s) := by
  have hc := fun kind t => (createSocket_blames env kind t).1
  have hs := fun kind t => (createSocket_blames env kind t).2
  cases p
  · simp only [configureSocket, setupREQREP]
    split
    · exact hc _ s
    · split
      · exact hc _ s
      · exact blames_ok env s
  · simp only [configureSocket, setupPUBSUB]
    split
    · refine andThen_blames (hc _ s) (fun h1 => ?_)
      refine andThen_blames (setCommonSocketOptions_blames env _) (fun h2 => ?_)
      have h3 := setCommonSocketOptions_socket_ok env _ (hs _ s h1) h2
      obtain ⟨k, hk⟩ := Option.isSome_iff_exists.mp h3
      exact sockSet_blames env _ _ k hk
    · split
      · refine andThen_blames (hc _ s) (fun h1 => ?_)
        refine andThen_blames (setCommonSocketOptions_blames env _) (fun h2 => ?_)
        have h3 := setCommonSocketOptions_socket_ok env _ (hs _ s h1) h2
        obtain ⟨k, hk⟩ := Option.isSome_iff_exists.mp h3
        refine andThen_blames (sockSet_blames env _ _ k hk) (fun h4 => ?_)
        have h5 := sockSet_socket_ok env _ _ h4
        obtain ⟨k2, hk2⟩ := Option.isSome_iff_exists.mp h5
        refine andThen_blames (sockSet_blames env _ _ k2 hk2) (fun _ => ?_)
        exact blames_ok env _
      · exact blames_ok env s
  · simp only [configureSocket]
    split
    · exact hc _ s
    · split
      · exact hc _ s
      · exact blames_ok env s
  · simp only [configureSocket, setupDEALERROUTER]
    split
    · refine andThen_blames (hc _ s) (fun h1 => ?_)
      apply sockSetAll_blames
      exact hs _ s h1
    · split
      · refine andThen_blames (hc _ s) (fun h1 => ?_)
        refine andThen_blames (sockSetAll_blames env _ _ (hs _ s h1)) (fun _ => ?_)
        exact blames_ok env _
      · exact blames_ok env s

theorem attach_adds_call {keep : ZmqOp → Bool} (q : Quiet keep) (env : ZmqEnv) (s : State)
    (k : Socket) (hk : s.m_socket = some k) :
    Adds keep s (attach env s).2 ([attachCall env s].filter keep) := by
  have hfin : ∀ t : State,
      Adds keep t (setConnectionStatus ConnectionStatus.CONNECTED (startPolling t)) [] := by
    intro t
    simpa using (startPolling_adds q t).chain (setConnectionStatus_adds q _ _)
  unfold attach attachCall
  cases hrole : isBindingRole s.m_role
  · simp only [Bool.false_eq_true, if_false, connectSocket, hk]
    cases env.connect s.log.length s.m_endpoint with
    | none =>
        have h1 := record_adds keep (ZmqOp.connect s.m_endpoint true)
          { s with m_socket := some { k with connected := some s.m_endpoint } }
        have h2 := h1.chain (hfin _)
        simpa [Adds, andThen] using h2
    | some w =>
        have h1 := record_adds keep (ZmqOp.connect s.m_endpoint false) s
        simpa [Adds, andThen] using h1
  · simp only [if_true, bindSocket, hk]
    cases env.bind s.log.length (bindEndpoint s.m_endpoint) with
    | none =>
        have h1 := record_adds keep (ZmqOp.bind (bindEndpoint s.m_endpoint) true)
          { s with m_socket := some { k with bound := some (bindEndpoint s.m_endpoint) } }
        have h2 := h1.chain (hfin _)
        simpa [Adds, andThen] using h2
    | some w =>
        have h1 := record_adds keep (ZmqOp.bind (bindEndpoint s.m_endpoint) false) s
        simpa [Adds, andThen] using h1

/-- The first half of `configure` for a valid pair: it logs no bind or connect;
it returns with a socket in place and the role and endpoint `configure` was
given, or it throws the `zmq::error_t` the library gave to a socket creation or
a `set`. -/
theorem configurePrepare_spec (env : ZmqEnv) (s : State) (p : Pattern) (r : Role)
    (ep : String) (hr : r ∈ getAvailableRoles p) :
    (configurePrepare env p r ep s).2.log.filter ZmqOp.isAttach = s.log.filter ZmqOp.isAttach
      ∧ (configurePrepare env p r ep s).2.m_role = r
      ∧ (configurePrepare env p r ep s).2.m_endpoint = ep
      ∧ (((configurePrepare env p r ep s).1 = Outcome.ok ()
            ∧ (configurePrepare env p r ep s).2.m_socket.isSome = true)
          ∨ ∃ w, (configurePrepare env p r ep s).1 = Outcome.thrown (Thrown.zmq w)
              ∧ LibraryFailed env w) := by
  unfold configurePrepare
  have h0 : Adds ZmqOp.isAttach s (assignConfig p r ep
      (setConnectionStatus ConnectionStatus.DISCONNECTED (close env s))) [] := by
    have h1 := (close_adds quiet_isAttach env s).chain (setConnectionStatus_adds quiet_isAttach
      ConnectionStatus.DISCONNECTED (close env s))
    have h2 : Adds ZmqOp.isAttach
        (setConnectionStatus ConnectionStatus.DISCONNECTED (close env s))
        (assignConfig p r ep (setConnectionStatus ConnectionStatus.DISCONNECTED (close env s)))
        [] := Adds.of_log_eq rfl
    simpa using h1.chain h2
  have f_socket : (assignConfig p r ep
      (setConnectionStatus ConnectionStatus.DISCONNECTED (close env s))).m_socket = none :=
    (setConnectionStatus_m_socket _ _).trans (close_m_socket env s)
  have f_role : (assignConfig p r ep
      (setConnectionStatus ConnectionStatus.DISCONNECTED (close env s))).m_role = r := rfl
  have f_ep : (assignConfig p r ep
      (setConnectionStatus ConnectionStatus.DISCONNECTED (close env s))).m_endpoint = ep := rfl
  generalize assignConfig p r ep
    (setConnectionStatus ConnectionStatus.DISCONNECTED (close env s)) = s2
    at h0 f_socket f_role f_ep
  have hphase : Setup s2 (andThen (configureSocket env p r s2) (setCommonSocketOptions env)) :=
    andThen_setup (configureSocket_setup env p r s2 hr f_role f_socket)
      (fun t _ hu hs => setCommonSocketOptions_setup env t hu hs)
  have hadds : Adds ZmqOp.isAttach s2
      (andThen (configureSocket env p r s2) (setCommonSocketOptions env)).2
      ([ZmqOp.create (kindFor r) (env.create s2.log.length (kindFor r)).isNone].filter
        ZmqOp.isAttach) :=
    andThen_adds_nil (configureSocket_adds quiet_isAttach env p r s2 hr f_role)
      (fun t => setCommonSocketOptions_adds quiet_isAttach env t)
  have hbl : Blames env (andThen (configureSocket env p r s2) (setCommonSocketOptions env)) :=
    andThen_blames (configureSocket_blames env p r s2)
      (fun _ => setCommonSocketOptions_blames env _)
  generalize andThen (configureSocket env p r s2) (setCommonSocketOptions env) = ph
    at hphase hadds hbl
  obtain ⟨hsame, _, hout⟩ := hphase
  refine ⟨?_, hsame.role.trans f_role, hsame.endpoint.trans f_ep, ?_⟩
  · have h3 := h0.chain hadds
    simpa [Adds, ZmqOp.isAttach] using h3
  · rcases hout with h | ⟨w, hw⟩
    · exact Or.inl h
    · obtain ⟨w2, e, hl⟩ := hbl _ hw
      cases e
      exact Or.inr ⟨w, hw, hl⟩

/-- Once the first half of `configure` has returned, `configure` makes exactly one
bind or connect: for a binding role a bind to the rewritten endpoint, for the
other roles a connect to the endpoint as given. -/
theorem configure_attach_call (env : ZmqEnv) (s : State) (p : Pattern) (r : Role)
    (ep : String) (hr : r ∈ getAvailableRoles p)
    (hok : (configurePrepare env p r ep s).1 = Outcome.ok ()) :
    (configure env p r ep s).2.log.filter ZmqOp.isAttach
      = s.log.filter ZmqOp.isAttach
        ++ [if isBindingRole r then
              ZmqOp.bind (bindEndpoint ep)
                (env.bind (configurePrepare env p r ep s).2.log.length (bindEndpoint ep)).isNone
            else
              ZmqOp.connect ep
                (env.connect (configurePrepare env p r ep s).2.log.length ep).isNone] := by
  obtain ⟨hlog, hrole, hep, hout⟩ := configurePrepare_spec env s p r ep hr
  have e : configure env p r ep s
      = catchZmq (andThen (configurePrepare env p r ep s) (attach env)) := rfl
  rw [e]
  generalize configurePrepare env p r ep s = ph at hok hlog hrole hep hout
  obtain ⟨o, t⟩ := ph
  simp only at hok hlog hrole hep
  subst hok
  have hsome : t.m_socket.isSome = true := by
    rcases hout with h | ⟨w, h, _⟩
    · exact h.2
    · cases h
  obtain ⟨k, hk⟩ := Option.isSome_iff_exists.mp hsome
  have ha := attach_adds_call quiet_isAttach env t k hk
  have hc := catchZmq_adds quiet_isAttach (attach env t)
  have h3 := ha.chain hc
  have hf : [attachCall env t].filter ZmqOp.isAttach = [attachCall env t] := by
    unfold attachCall
    split <;> rfl
  rw [hf] at h3
  have e2 : andThen (Outcome.ok (), t) (attach env) = attach env t := rfl
  rw [e2]
  unfold Adds at h3
  rw [List.append_nil] at h3
  rw [h3, hlog]
  unfold attachCall
  rw [hrole, hep]

/-- When the first half of `configure` throws, `configure` ends with
`Error(ZMQ_ERROR)` carrying the same text and has made no bind or connect. -/
theorem configure_no_attach (env : ZmqEnv) (s : State) (p : Pattern) (r : Role)
    (ep w : String) (hr : r ∈ getAvailableRoles p)
    (hw : (configurePrepare env p r ep s).1 = Outcome.thrown (Thrown.zmq w)) :
    (configure env p r ep s).1 = Outcome.thrown (Thrown.error ErrorCode.ZMQ_ERROR w)
      ∧ (configure env p r ep s).2.log.filter ZmqOp.isAttach = s.log.filter ZmqOp.isAttach := by
  obtain ⟨hlog, _, _, _⟩ := configurePrepare_spec env s p r ep hr
  have e : configure env p r ep s
      = catchZmq (andThen (configurePrepare env p r ep s) (attach env)) := rfl
  rw [e]
  generalize configurePrepare env p r ep s = ph at hw hlog
  obtain ⟨o, t⟩ := ph
  simp only at hw hlog
  subst hw
  refine ⟨rfl, ?_⟩
  have hc := setConnectionStatus_adds quiet_isAttach ConnectionStatus.ERROR t
  unfold Adds at hc
  rw [List.append_nil] at hc
  show (setConnectionStatus ConnectionStatus.ERROR t).log.filter ZmqOp.isAttach = _
  rw [hc, hlog]

/-- C15: for an endpoint `scheme://host:port` whose scheme holds no `/` and
whose host holds no `:`, and a valid pair, `configure` comes to its bind or
connect exactly when creating the socket and setting its options went through,
which they do unless the library fails one of these calls. It then makes
exactly one such call, with the answer of the library: for a binding role
(Publisher, Puller, Replier, Router) a bind to `scheme://*:port`, for the other
roles a connect to the endpoint unchanged. When the library failed a creation
or a `set`, `configure` ends with `ZMQ_ERROR` and neither binds nor connects.
For an endpoint with no `//`, and for one with no `:` after the `//`, a binding
role binds to the endpoint unchanged. -/
theorem configure_binds_wildcard_or_connects (env : ZmqEnv) (s : State) (p : Pattern)
    (r : Role) (scheme host port : String) (hr : r ∈ getAvailableRoles p)
    (hs : '/' ∉ scheme.data) (hh : ':' ∉ host.data) :
    bindEndpoint (scheme ++ "://" ++ host ++ ":" ++ port) = scheme ++ "://*:" ++ port
      ∧ configure env p r (scheme ++ "://" ++ host ++ ":" ++ port) s
          = catchZmq (andThen
              (configurePrepare env p r (scheme ++ "://" ++ host ++ ":" ++ port) s) (attach env))
      ∧ ((configurePrepare env p r (scheme ++ "://" ++ host ++ ":" ++ port) s).1 = Outcome.ok ()
          ∨ ∃ w, (configurePrepare env p r (scheme ++ "://" ++ host ++ ":" ++ port) s).1
                = Outcome.thrown (Thrown.zmq w)
              ∧ LibraryFailed env w)
      ∧ ((∀ n kind, env.create n kind = none) → (∀ n o, env.setsockopt n o = none) →
          (configurePrepare env p r (scheme ++ "://" ++ host ++ ":" ++ port) s).1
            = Outcome.ok ())
      ∧ ((configurePrepare env p r (scheme ++ "://" ++ host ++ ":" ++ port) s).1 = Outcome.ok () →
          (configure env p r (scheme ++ "://" ++ host ++ ":" ++ port) s).2.log.filter
              ZmqOp.isAttach
            = s.log.filter ZmqOp.isAttach
              ++ [if isBindingRole r then
                    ZmqOp.bind (scheme ++ "://*:" ++ port)
                      (env.bind
                        (configurePrepare env p r (scheme ++ "://" ++ host ++ ":" ++ port)
                          s).2.log.length
                        (scheme ++ "://*:" ++ port)).isNone
                  else
                    ZmqOp.connect (scheme ++ "://" ++ host ++ ":" ++ port)
                      (env.connect
                        (configurePrepare env p r (scheme ++ "://" ++ host ++ ":" ++ port)
                          s).2.log.length
                        (scheme ++ "://" ++ host ++ ":" ++ port)).isNone])
      ∧ (∀ w, (configurePrepare env p r (scheme ++ "://" ++ host ++ ":" ++ port) s).1
              = Outcome.thrown (Thrown.zmq w) →
          (configure env p r (scheme ++ "://" ++ host ++ ":" ++ port) s).1
              = Outcome.thrown (Thrown.error ErrorCode.ZMQ_ERROR w)
            ∧ (configure env p r (scheme ++ "://" ++ host ++ ":" ++ port) s).2.log.filter
                ZmqOp.isAttach = s.log.filter ZmqOp.isAttach)
      ∧ (isBindingRole r = true ↔
          r = Role.PUBLISHER ∨ r = Role.PULLER ∨ r = Role.REPLIER ∨ r = Role.ROUTER)
      ∧ (∀ ep : String,
          ((∀ a b : String, ep ≠ a ++ "//" ++ b)
            ∨ ∃ a b : String, ep = a ++ "//" ++ b ∧ '/' ∉ a.data ∧ ':' ∉ b.data) →
          bindEndpoint ep = ep
            ∧ (isBindingRole r = true → (configurePrepare env p r ep s).1 = Outcome.ok () →
                (configure env p r ep s).2.log.filter ZmqOp.isAttach
                  = s.log.filter ZmqOp.isAttach
                    ++ [ZmqOp.bind ep
                          (env.bind (configurePrepare env p r ep s).2.log.length ep).isNone])) := by
  have hw : bindEndpoint (scheme ++ "://" ++ host ++ ":" ++ port) = scheme ++ "://*:" ++ port := by
    have ha : '/' ∉ (scheme ++ ":").data := by
      simp [String.data_append, hs]
    have h := bindEndpoint_wildcard (scheme ++ ":") host port ha hh
    have e1 : scheme ++ ":" ++ "//" ++ (host ++ ":" ++ port)
        = scheme ++ "://" ++ host ++ ":" ++ port := by
      apply String.ext
      simp [String.data_append]
    have e2 : scheme ++ ":" ++ "//" ++ "*" ++ ":" ++ port = scheme ++ "://*:" ++ port := by
      apply String.ext
      simp [String.data_append]
    rw [e1, e2] at h
    exact h
  have hout := (configurePrepare_spec env s p r (scheme ++ "://" ++ host ++ ":" ++ port) hr).2.2.2
  refine ⟨hw, rfl, ?_, ?_, ?_, ?_, ?_, ?_⟩
  · rcases hout with h | h
    · exact Or.inl h.1
    · exact Or.inr h
  · intro hc hso
    rcases hout with h | ⟨w, _, hl⟩
    · exact h.1
    · exfalso
      rcases hl with ⟨n, kind, h1⟩ | ⟨n, o, h1⟩
      · rw [hc n kind] at h1
        cases h1
      · rw [hso n o] at h1
        cases h1
  · intro hok
    have h := configure_attach_call env s p r _ hr hok
    rw [hw] at h
    exact h
  · intro w h
    exact configure_no_attach env s p r _ w hr h
  · cases r <;> simp [isBindingRole]
  · intro ep hep
    have hb : bindEndpoint ep = ep := by
      rcases hep with h | ⟨a, b, rfl, ha, hb⟩
      · exact bindEndpoint_no_slashes ep h
      · exact bindEndpoint_no_colon a b ha hb
    refine ⟨hb, fun hbind hok => ?_⟩
    have h := configure_attach_call env s p r ep hr hok
    rw [hb, hbind] at h
    simpa using h

/-- C15 (witness): with every library call succeeding, a Replier given
`tcp://127.0.0.1:5555` binds once, to `tcp://*:5555`, and a Requester given it
connects once, to `tcp://127.0.0.1:5555`. -/
theorem configure_binds_wildcard_or_connects_witness :
    Role.REPLIER ∈ getAvailableRoles Pattern.REQ_REP
      ∧ '/' ∉ "tcp".data ∧ ':' ∉ "127.0.0.1".data
      ∧ (configurePrepare envAllOk Pattern.REQ_REP Role.REPLIER
          ("tcp" ++ "://" ++ "127.0.0.1" ++ ":" ++ "5555") State.init).1 = Outcome.ok ()
      ∧ (configure envAllOk Pattern.REQ_REP Role.REPLIER
            ("tcp" ++ "://" ++ "127.0.0.1" ++ ":" ++ "5555") State.init).2.log.filter
            ZmqOp.isAttach
          = [ZmqOp.bind "tcp://*:5555" true]
      ∧ (configure envAllOk Pattern.REQ_REP Role.REQUESTER
            ("tcp" ++ "://" ++ "127.0.0.1" ++ ":" ++ "5555") State.init).2.log.filter
            ZmqOp.isAttach
          = [ZmqOp.connect "tcp://127.0.0.1:5555" true] :=
  ⟨by decide, by decide, by decide, by decide,
    (configure_binds_wildcard_or_connects envAllOk State.init Pattern.REQ_REP Role.REPLIER
      "tcp" "127.0.0.1" "5555" (by decide) (by decide) (by decide)).2.2.2.2.1 (by decide),
    (configure_binds_wildcard_or_connects envAllOk State.init Pattern.REQ_REP Role.REQUESTER
      "tcp" "127.0.0.1" "5555" (by decide) (by decide) (by decide)).2.2.2.2.1 (by decide)⟩

/-! ### Request and reply -/

/-- The generic send path of `execute` when the role is Requester of `REQ_REP`
and the send went through. -/
theorem execute_requester_sent (env : ZmqEnv) (c : RequestConfig) (s : State) (k : Socket)
    (hk : s.m_socket = some k) (hrole : s.m_role = Role.REQUESTER)
    (hpat : s.m_pattern = Pattern.REQ_REP)
    (hsend : env.send s.log.length c.body false = SendResult.sent) :
    (execute env c s).1
        = (match env.recv (s.log.length + 2) false with
          | RecvResult.msg reply_str => Outcome.ok (createResult reply_str true)
          | RecvResult.again =>
              Outcome.thrown (Thrown.error ErrorCode.TIMEOUT "No reply received")
          | RecvResult.error what => Outcome.thrown (Thrown.error ErrorCode.ZMQ_ERROR what))
      ∧ (execute env c s).2.log
        = s.log ++ [ZmqOp.send c.body false SendResult.sent, ZmqOp.emitMessageReceived c.body,
            ZmqOp.recv false (env.recv (s.log.length + 2) false)] := by
  have e : s.log.length + [ZmqOp.send c.body false SendResult.sent,
      ZmqOp.emitMessageReceived c.body].length = s.log.length + 2 := rfl
  simp only [execute, hk, hrole, reduceCtorEq, if_false, sendFrame, hsend, andThen, record,
    hpat, and_self, if_true, List.length_append, List.length_singleton, List.append_assoc,
    List.singleton_append, e]
  cases env.recv (s.log.length + 2) false <;> exact ⟨rfl, rfl⟩

/-- The generic send path of `execute` when the send did not go through. -/
theorem execute_generic_not_sent (env : ZmqEnv) (c : RequestConfig) (s : State) (k : Socket)
    (hk : s.m_socket = some k) (h1 : s.m_role ≠ Role.SUBSCRIBER)
    (h2 : s.m_role ≠ Role.PUBLISHER) (h3 : s.m_role ≠ Role.DEALER)
    (h4 : s.m_role ≠ Role.ROUTER)
    (hsend : env.send s.log.length c.body false ≠ SendResult.sent) :
    (execute env c s).1.failsWith ErrorCode.ZMQ_ERROR
      ∧ (execute env c s).2.log
        = s.log ++ [ZmqOp.send c.body false (env.send s.log.length c.body false)] := by
  simp only [execute, hk, h1, h2, h3, h4, if_false, sendFrame, record]
  cases hs : env.send s.log.length c.body false with
  | sent => exact absurd hs hsend
  | again => exact ⟨⟨_, rfl⟩, rfl⟩
  | error w => exact ⟨⟨_, rfl⟩, rfl⟩

/-- The generic send path of `execute` for a role that does not wait for a
reply, when the send went through. -/
theorem execute_generic_sent (env : ZmqEnv) (c : RequestConfig) (s : State) (k : Socket)
    (hk : s.m_socket = some k) (h1 : s.m_role ≠ Role.SUBSCRIBER)
    (h2 : s.m_role ≠ Role.PUBLISHER) (h3 : s.m_role ≠ Role.DEALER)
    (h4 : s.m_role ≠ Role.ROUTER) (h5 : s.m_role ≠ Role.REQUESTER)
    (hsend : env.send s.log.length c.body false = SendResult.sent) :
    (execute env c s).1 = Outcome.ok (createResult c.body true)
      ∧ (execute env c s).2.log
        = s.log ++ [ZmqOp.send c.body false SendResult.sent,
            ZmqOp.emitMessageReceived c.body] := by
  simp only [execute, hk, h1, h2, h3, h4, h5, if_false, sendFrame, hsend, andThen, record,
    and_false, List.append_assoc, List.singleton_append]
  exact ⟨trivial, trivial⟩

theorem sendFrame_state (env : ZmqEnv) (frame : String) (more : Bool) (onEmpty : String)
    (s : State) :
    (sendFrame env frame more onEmpty s).2
      = record (ZmqOp.send frame more (env.send s.log.length frame more)) s := by
  unfold sendFrame
  cases env.send s.log.length frame more <;> rfl

theorem execute_timeout_role (env : ZmqEnv) (c : RequestConfig) (s : State) (msg : String)
    (h : (execute env c s).1 = Outcome.thrown (Thrown.error ErrorCode.TIMEOUT msg)) :
    s.m_role = Role.REQUESTER ∧ s.m_pattern = Pattern.REQ_REP := by
  unfold execute at h
  split at h
  · cases h
  · split at h
    · cases h
    · split at h
      · rcases andThen_thrown h with h1 | h1
        · cases sendFrame_kind h1
        · cases h1
      · split at h
        · rcases andThen_thrown h with h1 | h1
          · cases sendFrame_kind h1
          · dsimp only at h1
            split at h1 <;> cases h1
        · split at h
          · rcases andThen_thrown h with h1 | h1
            · cases sendFrame_kind h1
            · rcases andThen_thrown h1 with h2 | h2
              · cases sendFrame_kind h2
              · cases h2
          · rcases andThen_thrown h with h1 | h1
            · cases sendFrame_kind h1
            · dsimp only at h1
              split at h1
              · rename_i hcond
                rw [sendFrame_state] at hcond
                exact ⟨hcond.2, hcond.1⟩
              · cases h1

/-- C16: when the Replier's receive routine takes a request `p` off the socket it
forwards `p` and sends exactly one frame, `Reply to: ` followed by `p`, which
determines `p`; a Requester whose send went through and whose receive delivers a
reply `r` returns status code 200 with body `r`. So a Replier that receives
`ping` sends `Reply to: ping`, and a Requester that sent `ping` and is delivered
that reply returns it as body. -/
theorem replier_reply_reaches_requester :
    (∀ (env : ZmqEnv) (s : State) (k : Socket) (p : String),
        s.m_role = Role.REPLIER → s.m_socket = some k →
        env.recv s.log.length false = RecvResult.msg p →
          ∃ sr, (handleREQREPMessage env s).2.log
            = s.log ++ [ZmqOp.recv false (RecvResult.msg p), ZmqOp.emitMessageReceived p,
                ZmqOp.send ("Reply to: " ++ p) false sr])
      ∧ (∀ p q : String, "Reply to: " ++ p = "Reply to: " ++ q → p = q)
      ∧ (∀ (env : ZmqEnv) (c : RequestConfig) (s : State) (k : Socket) (r : String),
          s.m_socket = some k → s.m_role = Role.REQUESTER → s.m_pattern = Pattern.REQ_REP →
          env.send s.log.length c.body false = SendResult.sent →
          env.recv (s.log.length + 2) false = RecvResult.msg r →
            (execute env c s).1
              = Outcome.ok { status_code := 200, headers := [], body := r,
                             metrics := { bytes_received := strSize r }, error := "" })
      ∧ (handleREQREPMessage (envDelivering "ping")
            (configured Pattern.REQ_REP Role.REPLIER)).2.log
          = (configured Pattern.REQ_REP Role.REPLIER).log
            ++ [ZmqOp.recv false (RecvResult.msg "ping"), ZmqOp.emitMessageReceived "ping",
                ZmqOp.send "Reply to: ping" false SendResult.sent]
      ∧ (execute (envDelivering "Reply to: ping") { body := "ping" }
            (configured Pattern.REQ_REP Role.REQUESTER)).1
          = Outcome.ok (createResult "Reply to: ping" true)
      ∧ (createResult "Reply to: ping" true).body = "Reply to: ping"
      ∧ (configured Pattern.REQ_REP Role.REQUESTER).m_timeout = 30000 := by
  refine ⟨?_, ?_, ?_, by decide, by decide, rfl, by decide⟩
  · intro env s k p hrole hk hrecv
    refine ⟨env.send (s.log.length + 2) ("Reply to: " ++ p) false, ?_⟩
    have e : s.log.length + ([ZmqOp.recv false (RecvResult.msg p)].length
        + [ZmqOp.emitMessageReceived p].length) = s.log.length + 2 := rfl
    simp only [handleREQREPMessage, hrole, if_true, hk, hrecv, record, List.length_append,
      List.append_assoc, e]
    cases env.send (s.log.length + 2) ("Reply to: " ++ p) false <;> rfl
  · intro p q h
    apply String.ext
    have h2 := congrArg String.data h
    simpa [String.data_append] using h2
  · intro env c s k r hk hrole hpat hsend hrecv
    have h := (execute_requester_sent env c s k hk hrole hpat hsend).1
    rw [hrecv] at h
    exact h

/-- C17: a Requester of `REQ_REP` sends the body as one frame and, once that send
went through, makes exactly one receive: a message received gives status code
200 with the reply as body, and the call fails with kind `TIMEOUT` exactly when
the receive yields no message. A failure of kind `TIMEOUT` occurs for no other
role. Pusher, Puller and Replier send the body and make no receive; what they
return has status code 200 and the request body as body. -/
theorem requester_waits_for_one_reply :
    (∀ (env : ZmqEnv) (c : RequestConfig) (s : State) (k : Socket),
        s.m_socket = some k → s.m_role = Role.REQUESTER → s.m_pattern = Pattern.REQ_REP →
        env.send s.log.length c.body false = SendResult.sent →
          (execute env c s).2.log
              = s.log ++ [ZmqOp.send c.body false SendResult.sent,
                  ZmqOp.emitMessageReceived c.body,
                  ZmqOp.recv false (env.recv (s.log.length + 2) false)]
            ∧ (∀ reply, env.recv (s.log.length + 2) false = RecvResult.msg reply →
                (execute env c s).1 = Outcome.ok (createResult reply true))
            ∧ ((execute env c s).1.failsWith ErrorCode.TIMEOUT
                ↔ env.recv (s.log.length + 2) false = RecvResult.again))
      ∧ (∀ (env : ZmqEnv) (c : RequestConfig) (s : State),
          (execute env c s).1.failsWith ErrorCode.TIMEOUT → s.m_role = Role.REQUESTER)
      ∧ (∀ (env : ZmqEnv) (c : RequestConfig) (s : State) (k : Socket),
          s.m_socket = some k →
          s.m_role = Role.PUSHER ∨ s.m_role = Role.PULLER ∨ s.m_role = Role.REPLIER →
            ∃ sr, (execute env c s).2.log.filter ZmqOp.isRecv = s.log.filter ZmqOp.isRecv
              ∧ (execute env c s).2.log.filter ZmqOp.isSocketOp
                  = s.log.filter ZmqOp.isSocketOp ++ [ZmqOp.send c.body false sr]
              ∧ (∀ r, (execute env c s).1 = Outcome.ok r → r = createResult c.body true)
              ∧ (sr = SendResult.sent →
                  (execute env c s).1 = Outcome.ok (createResult c.body true)))
      ∧ (∀ body : String,
          (createResult body true).status_code = 200 ∧ (createResult body true).body = body)
      ∧ (execute envAllOk { body := "ping" } (configured Pattern.REQ_REP Role.REQUESTER)).1
          = Outcome.thrown (Thrown.error ErrorCode.TIMEOUT "No reply received")
      ∧ (execute (envDelivering "pong") { body := "ping" }
            (configured Pattern.REQ_REP Role.REQUESTER)).1
          = Outcome.ok (createResult "pong" true) := by
  refine ⟨?_, ?_, ?_, fun body => ⟨rfl, rfl⟩, by decide, by decide⟩
  · intro env c s k hk hrole hpat hsend
    obtain ⟨h1, h2⟩ := execute_requester_sent env c s k hk hrole hpat hsend
    refine ⟨h2, ?_, ?_⟩
    · intro reply hr
      rw [h1, hr]
    · rw [h1]
      cases env.recv (s.log.length + 2) false with
      | msg m =>
          constructor
          · rintro ⟨w, hw⟩
            cases hw
          · intro h
            cases h
      | again => exact ⟨fun _ => rfl, fun _ => ⟨_, rfl⟩⟩
      | error w =>
          constructor
          · rintro ⟨m, hm⟩
            cases hm
          · intro h
            cases h
  · rintro env c s ⟨msg, h⟩
    exact (execute_timeout_role env c s msg h).1
  · intro env c s k hk hrole
    have h1 : s.m_role ≠ Role.SUBSCRIBER := by
      rcases hrole with h | h | h <;> rw [h] <;> decide
    have h2 : s.m_role ≠ Role.PUBLISHER := by
      rcases hrole with h | h | h <;> rw [h] <;> decide
    have h3 : s.m_role ≠ Role.DEALER := by
      rcases hrole with h | h | h <;> rw [h] <;> decide
    have h4 : s.m_role ≠ Role.ROUTER := by
      rcases hrole with h | h | h <;> rw [h] <;> decide
    have h5 : s.m_role ≠ Role.REQUESTER := by
      rcases hrole with h | h | h <;> rw [h] <;> decide
    refine ⟨env.send s.log.length c.body false, ?_⟩
    by_cases hs : env.send s.log.length c.body false = SendResult.sent
    · obtain ⟨e1, e2⟩ := execute_generic_sent env c s k hk h1 h2 h3 h4 h5 hs
      rw [e1, e2, hs]
      refine ⟨?_, ?_, ?_, fun _ => rfl⟩
      · simp [List.filter_append, ZmqOp.isRecv]
      · simp [List.filter_append, ZmqOp.isSocketOp]
      · intro r hr
        cases hr
        rfl
    · obtain ⟨⟨m, e1⟩, e2⟩ := execute_generic_not_sent env c s k hk h1 h2 h3 h4 hs
      rw [e1, e2]
      refine ⟨?_, ?_, ?_, fun h => absurd h hs⟩
      · simp [List.filter_append, ZmqOp.isRecv]
      · simp [List.filter_append, ZmqOp.isSocketOp]
      · intro r hr
        cases hr

/-! ### Tear-down -/

theorem stopPolling_spec (s : State) :
    (stopPolling s).m_running = false ∧ (stopPolling s).m_pollThread = false
      ∧ (stopPolling s).m_socket = s.m_socket
      ∧ (stopPolling s).log = s.log ++ (if s.m_pollThread then [ZmqOp.threadJoin] else []) := by
  by_cases h : s.m_pollThread = true
  · simp [stopPolling, h, record]
  · simp [stopPolling, h]

theorem sockSet_thread (env : ZmqEnv) (o : SockOpt) (s : State) :
    (sockSet env o s).2.m_running = s.m_running
      ∧ (sockSet env o s).2.m_pollThread = s.m_pollThread := by
  unfold sockSet
  cases s.m_socket with
  | none => exact ⟨rfl, rfl⟩
  | some k => cases env.setsockopt s.log.length o <;> exact ⟨rfl, rfl⟩

theorem teardown_spec (env : ZmqEnv) (s : State) :
    (teardown env s).m_running = s.m_running
      ∧ (teardown env s).m_pollThread = s.m_pollThread
      ∧ ∃ ops, (teardown env s).log = s.log ++ ops
          ∧ (∀ op ∈ ops, op.isSocketOp = true) ∧ (s.m_socket = none → ops = []) := by
  unfold teardown
  cases hk : s.m_socket with
  | none => exact ⟨rfl, rfl, [], (List.append_nil _).symm, by simp, fun _ => rfl⟩
  | some k =>
      simp only [sockSet, hk]
      cases env.setsockopt s.log.length (SockOpt.linger 0) with
      | some w =>
          refine ⟨rfl, rfl, [ZmqOp.set (SockOpt.linger 0) false], rfl, ?_, fun h => by cases h⟩
          intro op hop
          simp only [List.mem_singleton] at hop
          subst hop
          rfl
      | none =>
          cases hb : isBindingRole s.m_role
          · refine ⟨by simp [record, hb], by simp [record, hb],
              [ZmqOp.set (SockOpt.linger 0) true,
                ZmqOp.disconnect s.m_endpoint
                  (env.disconnect (s.log.length + 1) s.m_endpoint).isNone,
                ZmqOp.closeSocket], by simp [record, hb], ?_, fun h => by cases h⟩
            intro op hop
            simp only [List.mem_cons, List.mem_singleton, List.not_mem_nil, or_false] at hop
            rcases hop with h | h | h <;> subst h <;> rfl
          · refine ⟨by simp [record, hb], by simp [record, hb],
              [ZmqOp.set (SockOpt.linger 0) true,
                ZmqOp.unbind s.m_endpoint (env.unbind (s.log.length + 1) s.m_endpoint).isNone,
                ZmqOp.closeSocket], by simp [record, hb], ?_, fun h => by cases h⟩
            intro op hop
            simp only [List.mem_cons, List.mem_singleton, List.not_mem_nil, or_false] at hop
            rcases hop with h | h | h <;> subst h <;> rfl

/-- C18: `close()`, which `cancel()` is and with which every `configure()`
starts, first stops the poll loop (the running flag is cleared and the thread,
if there is one, joined) and only then touches the socket: in what it logs, the
join comes first, then operations on the socket (set linger, unbind or
disconnect, close), none of them when there is no socket, then the pause. When
it returns the running flag is false and the handler holds no poll thread and
no socket. -/
theorem close_joins_before_socket_operations (env : ZmqEnv) (s : State) :
    (∃ ops, (close env s).log
          = s.log ++ (if s.m_pollThread then [ZmqOp.threadJoin] else []) ++ ops
              ++ [ZmqOp.sleep 500]
        ∧ (∀ op ∈ ops, op.isSocketOp = true) ∧ (s.m_socket = none → ops = []))
      ∧ (close env s).m_running = false
      ∧ (close env s).m_pollThread = false
      ∧ (close env s).m_socket = none
      ∧ close env s = record (ZmqOp.sleep 500) (teardown env (stopPolling s))
      ∧ (stopPolling s).m_running = false
      ∧ (stopPolling s).m_pollThread = false
      ∧ (stopPolling s).log = s.log ++ (if s.m_pollThread then [ZmqOp.threadJoin] else [])
      ∧ cancel env s = close env s
      ∧ (∀ (p : Pattern) (r : Role) (ep : String),
          configure env p r ep s = configureAfterClose env p r ep (close env s)) := by
  obtain ⟨h1, h2, h3, h4⟩ := stopPolling_spec s
  obtain ⟨t1, t2, ops, t3, t4, t5⟩ := teardown_spec env (stopPolling s)
  refine ⟨⟨ops, ?_, t4, fun hn => t5 (h3.trans hn)⟩, ?_, ?_, close_m_socket env s, rfl, h1, h2,
    h4, rfl, fun _ _ _ => rfl⟩
  · show (teardown env (stopPolling s)).log ++ [ZmqOp.sleep 500] = _
    rw [t3, h4]
  · show (teardown env (stopPolling s)).m_running = false
    rw [t1, h1]
  · show (teardown env (stopPolling s)).m_pollThread = false
    rw [t2, h2]

end ZeroMQHandler

/-! ## Theorems: ZeroMQ handler, poll thread, counters and socket options -/

namespace ZeroMQHandler

theorem andThen_ok {α : Type} {r : Outcome Unit × State} {f : State → Outcome α × State}
    {a : α} (h : (andThen r f).1 = Outcome.ok a) :
    r.1 = Outcome.ok () ∧ (f r.2).1 = Outcome.ok a := by
  obtain ⟨o, s⟩ := r
  cases o with
  | ok u => exact ⟨rfl, h⟩
  | thrown e => cases h
  | nullDeref => cases h

theorem Keeps.same (s : State) : Keeps s s :=
  ⟨rfl, rfl, rfl, fun h => h⟩

theorem Keeps.next {s t u : State} (h1 : Keeps s t) (h2 : Keeps t u) : Keeps s u :=
  ⟨h2.running.trans h1.running, h2.pollThread.trans h1.pollThread,
    h2.metrics.trans h1.metrics, fun h => h2.socket (h1.socket h)⟩

theorem record_keeps (op : ZmqOp) (s : State) : Keeps s (record op s) :=
  ⟨rfl, rfl, rfl, fun h => h⟩

theorem setConnectionStatus_keeps (c : ConnectionStatus) (s : State) :
    Keeps s (setConnectionStatus c s) := by
  unfold setConnectionStatus
  split
  · exact ⟨rfl, rfl, rfl, fun h => h⟩
  · exact Keeps.same s

theorem sockSet_keeps (env : ZmqEnv) (o : SockOpt) (s : State) : Keeps s (sockSet env o s).2 := by
  unfold sockSet
  cases s.m_socket with
  | none => exact Keeps.same s
  | some k =>
      cases env.setsockopt s.log.length o with
      | none => exact ⟨rfl, rfl, rfl, fun _ => rfl⟩
      | some w => exact ⟨rfl, rfl, rfl, fun h => h⟩

theorem andThen_keeps {α : Type} {s : State} {r : Outcome Unit × State}
    {f : State → Outcome α × State} (hr : Keeps s r.2) (hf : ∀ t, Keeps t (f t).2) :
    Keeps s (andThen r f).2 := by
  obtain ⟨o, t⟩ := r
  cases o with
  | ok u => exact hr.next (hf t)
  | thrown e => exact hr
  | nullDeref => exact hr

theorem sockSetAll_keeps (env : ZmqEnv) (os : List SockOpt) (s : State) :
    Keeps s (sockSetAll env os s).2 := by
  induction os generalizing s with
  | nil => exact Keeps.same s
  | cons o os ih =>
      unfold sockSetAll
      exact andThen_keeps (sockSet_keeps env o s) ih

theorem createSocket_keeps (env : ZmqEnv) (kind : SocketType) (s : State) :
    Keeps s (createSocket env kind s).2 := by
  unfold createSocket
  cases env.create s.log.length kind with
  | none => exact ⟨rfl, rfl, rfl, fun _ => rfl⟩
  | some w => exact ⟨rfl, rfl, rfl, fun h => h⟩

theorem widenTimeout_keeps (s : State) : Keeps s (widenTimeout s) := by
  unfold widenTimeout
  split
  · exact ⟨rfl, rfl, rfl, fun h => h⟩
  · exact Keeps.same s

theorem setCommonSocketOptions_keeps (env : ZmqEnv) (s : State) :
    Keeps s (setCommonSocketOptions env s).2 := by
  unfold setCommonSocketOptions
  split
  · exact Keeps.same s
  · exact (widenTimeout_keeps s).next (sockSetAll_keeps env _ _)

theorem configureSocket_keeps (env : ZmqEnv) (p : Pattern) (r : Role) (s : State) :
    Keeps s (configureSocket env p r s).2 := by
  have hid : ∀ (t : State) (a b : String), Keeps t { t with m_dealerId := a, m_identity := b } :=
    fun t a b => ⟨rfl, rfl, rfl, fun h => h⟩
  have hid2 : ∀ (t : State) (b : String), Keeps t { t with m_identity := b } :=
    fun t b => ⟨rfl, rfl, rfl, fun h => h⟩
  cases p
  · -- REQ_REP
    simp only [configureSocket, setupREQREP]
    split
    · exact createSocket_keeps env _ s
    · split
      · exact createSocket_keeps env _ s
      · exact Keeps.same s
  · -- PUB_SUB
    simp only [configureSocket, setupPUBSUB]
    split
    · exact andThen_keeps (createSocket_keeps env _ s) (fun t =>
        andThen_keeps (setCommonSocketOptions_keeps env t) (fun u => sockSet_keeps env _ u))
    · split
      · refine andThen_keeps (createSocket_keeps env _ s) (fun t => ?_)
        refine andThen_keeps (setCommonSocketOptions_keeps env t) (fun u => ?_)
        refine andThen_keeps (sockSet_keeps env _ u) (fun v => ?_)
        refine andThen_keeps (sockSet_keeps env _ v) (fun w => ?_)
        exact record_keeps _ w
      · exact Keeps.same s
  · -- PUSH_PULL
    simp only [configureSocket]
    split
    · exact createSocket_keeps env _ s
    · split
      · exact createSocket_keeps env _ s
      · exact Keeps.same s
  · -- DEALER_ROUTER
    simp only [configureSocket, setupDEALERROUTER]
    split
    · refine andThen_keeps (createSocket_keeps env _ s) (fun t => ?_)
      exact (hid t _ _).next (sockSetAll_keeps env _ _)
    · split
      · refine andThen_keeps (createSocket_keeps env _ s) (fun t => ?_)
        refine andThen_keeps (sockSetAll_keeps env _ t) (fun u => ?_)
        exact hid2 u _
      · exact Keeps.same s

theorem bindSocket_keeps (env : ZmqEnv) (ep : String) (s : State) :
    Keeps s (bindSocket env ep s).2 := by
  unfold bindSocket
  cases s.m_socket with
  | none => exact Keeps.same s
  | some k =>
      cases env.bind s.log.length ep with
      | none => exact ⟨rfl, rfl, rfl, fun _ => rfl⟩
      | some w => exact ⟨rfl, rfl, rfl, fun h => h⟩

theorem connectSocket_keeps (env : ZmqEnv) (ep : String) (s : State) :
    Keeps s (connectSocket env ep s).2 := by
  unfold connectSocket
  cases s.m_socket with
  | none => exact Keeps.same s
  | some k =>
      cases env.connect s.log.length ep with
      | none => exact ⟨rfl, rfl, rfl, fun _ => rfl⟩
      | some w => exact ⟨rfl, rfl, rfl, fun h => h⟩

theorem catchZmq_keeps (r : Outcome Unit × State) : Keeps r.2 (catchZmq r).2 := by
  obtain ⟨o, t⟩ := r
  cases o with
  | ok u => exact Keeps.same t
  | nullDeref => exact Keeps.same t
  | thrown e =>
      cases e with
      | zmq w => exact setConnectionStatus_keeps _ t
      | error c m => exact Keeps.same t
      | system w => exact Keeps.same t
      | other w => exact Keeps.same t

theorem sendFrame_keeps (env : ZmqEnv) (frame : String) (more : Bool) (onEmpty : String)
    (s : State) : Keeps s (sendFrame env frame more onEmpty s).2 := by
  unfold sendFrame
  cases env.send s.log.length frame more <;> exact ⟨rfl, rfl, rfl, fun h => h⟩

theorem sendUnchecked_keeps (env : ZmqEnv) (frame : String) (more : Bool) (s : State) :
    Keeps s (sendUnchecked env frame more s).2 := by
  unfold sendUnchecked
  cases env.send s.log.length frame more <;> exact ⟨rfl, rfl, rfl, fun h => h⟩

theorem execute_keeps (env : ZmqEnv) (c : RequestConfig) (s : State) :
    Keeps s (execute env c s).2 := by
  unfold execute
  split
  · exact Keeps.same s
  · split
    · exact Keeps.same s
    · split
      · exact andThen_keeps (sendFrame_keeps env _ _ _ s) (fun t => record_keeps _ t)
      · split
        · refine andThen_keeps (sendFrame_keeps env _ _ _ s) (fun t => ?_)
          dsimp only
          split <;> exact (record_keeps _ t).next (record_keeps _ _)
        · split
          · have h0 : Keeps s (if s.m_identity = "" then { s with m_identity := "Game" } else s) := by
              split
              · exact ⟨rfl, rfl, rfl, fun h => h⟩
              · exact Keeps.same s
            refine h0.next (andThen_keeps (sendFrame_keeps env _ _ _ _) (fun t => ?_))
            exact andThen_keeps (sendFrame_keeps env _ _ _ t) (fun u => record_keeps _ u)
          · refine andThen_keeps (sendFrame_keeps env _ _ _ s) (fun t => ?_)
            dsimp only
            split
            · split <;> exact (record_keeps _ t).next (record_keeps _ _)
            · exact record_keeps _ t

theorem setTimeout_keeps (env : ZmqEnv) (timeout : Int) (s : State) :
    Keeps s (setTimeout env timeout s).2 := by
  unfold setTimeout
  have h0 : Keeps s { s with m_timeout := timeout } := ⟨rfl, rfl, rfl, fun h => h⟩
  dsimp only
  split
  · exact h0
  · exact h0.next (sockSetAll_keeps env _ _)

theorem subscribe_keeps (env : ZmqEnv) (topics : List String) (s : State) :
    Keeps s (subscribe env topics s).2 := by
  unfold subscribe
  split
  · exact Keeps.same s
  · split
    · exact sockSet_keeps env _ s
    · exact sockSetAll_keeps env _ s

theorem handleREQREPMessage_keeps (env : ZmqEnv) (s : State) :
    Keeps s (handleREQREPMessage env s).2 := by
  unfold handleREQREPMessage
  split
  · split
    · exact Keeps.same s
    · dsimp only
      split
      · split <;> exact ⟨rfl, rfl, rfl, fun h => h⟩
      · exact record_keeps _ s
      · exact record_keeps _ s
  · exact Keeps.same s

theorem handlePUBSUBMessage_keeps (env : ZmqEnv) (s : State) :
    Keeps s (handlePUBSUBMessage env s).2 := by
  unfold handlePUBSUBMessage
  split
  · split
    · exact Keeps.same s
    · dsimp only
      split
      · exact ⟨rfl, rfl, rfl, fun h => h⟩
      · exact record_keeps _ s
      · exact record_keeps _ s
  · exact Keeps.same s

theorem catchReport_keeps (r : Outcome Unit × State) : Keeps r.2 (catchReport r).2 := by
  obtain ⟨o, t⟩ := r
  cases o with
  | ok u => exact Keeps.same t
  | nullDeref => exact Keeps.same t
  | thrown e =>
      cases e with
      | zmq w => exact record_keeps _ t
      | error c m => exact Keeps.same t
      | system w => exact Keeps.same t
      | other w => exact Keeps.same t

theorem handleFrames_keeps (env : ZmqEnv) (messages : List String) (s : State) :
    Keeps s (handleFrames env messages s).2 := by
  unfold handleFrames
  split
  · exact Keeps.same s
  · split
    · split
      · dsimp only
        split
        · refine Keeps.next ?_ (andThen_keeps (sendUnchecked_keeps env _ _ _)
            (fun t => sendUnchecked_keeps env _ _ t))
          exact ⟨rfl, rfl, rfl, fun h => h⟩
        · exact ⟨rfl, rfl, rfl, fun h => h⟩
      · exact Keeps.same s
    · split
      · split
        · exact record_keeps _ s
        · exact Keeps.same s
      · exact Keeps.same s

theorem drainFrames_keeps (env : ZmqEnv) (fuel : Nat) (messages : List String) (s : State)
    (r : Outcome (List String) × State) (h : drainFrames env fuel messages s = some r) :
    Keeps s r.2 := by
  induction fuel generalizing messages s with
  | zero => cases h
  | succ n ih =>
      unfold drainFrames at h
      dsimp only at h
      split at h
      · split at h
        · exact (record_keeps _ s).next (ih _ _ h)
        · cases h
          exact record_keeps _ s
      · cases h
        exact record_keeps _ s
      · cases h
        exact record_keeps _ s

theorem handleDEALERROUTERMessage_keeps (env : ZmqEnv) (fuel : Nat) (s : State)
    (r : Outcome Unit × State) (h : handleDEALERROUTERMessage env fuel s = some r) :
    Keeps s r.2 := by
  unfold handleDEALERROUTERMessage at h
  split at h
  · cases h
    exact Keeps.same s
  · cases hd : drainFrames env fuel [] s with
    | none => rw [hd] at h; cases h
    | some d =>
        have hk := drainFrames_keeps env fuel [] s d hd
        rw [hd] at h
        obtain ⟨o, t⟩ := d
        cases o with
        | ok messages =>
            cases h
            exact hk.next ((handleFrames_keeps env messages t).next (catchReport_keeps _))
        | thrown e =>
            cases h
            exact hk.next (catchReport_keeps (Outcome.thrown e, t))
        | nullDeref =>
            cases h
            exact hk

/-! ### The poll thread and the socket -/

theorem keeps_threadSound {s t : State} (h : Keeps s t) (hs : ThreadSound s) : ThreadSound t := by
  obtain ⟨h1, h2⟩ := hs
  refine ⟨fun ht => h.socket (h1 (h.pollThread ▸ ht)), ?_⟩
  rw [h.running, h.pollThread]
  exact h2

theorem keeps_nothingSent {s t : State} (h : Keeps s t) (hs : NothingSent s) : NothingSent t := by
  unfold NothingSent
  rw [h.metrics]
  exact hs

theorem stopPolling_metrics (s : State) : (stopPolling s).m_metrics = s.m_metrics := by
  by_cases h : s.m_pollThread = true
  · simp [stopPolling, h, record]
  · simp [stopPolling, h]

theorem teardown_metrics (env : ZmqEnv) (s : State) :
    (teardown env s).m_metrics = s.m_metrics := by
  unfold teardown
  cases hk : s.m_socket with
  | none => rfl
  | some k =>
      simp only [sockSet, hk]
      cases env.setsockopt s.log.length (SockOpt.linger 0) with
      | some w => rfl
      | none => cases hb : isBindingRole s.m_role <;> simp [record, hb]

theorem close_stopped (env : ZmqEnv) (s : State) :
    (close env s).m_running = false ∧ (close env s).m_pollThread = false
      ∧ (close env s).m_socket = none ∧ (close env s).m_metrics = s.m_metrics := by
  obtain ⟨h1, h2, _, _⟩ := stopPolling_spec s
  obtain ⟨t1, t2, _⟩ := teardown_spec env (stopPolling s)
  refine ⟨?_, ?_, close_m_socket env s, ?_⟩
  · show (teardown env (stopPolling s)).m_running = false
    rw [t1, h1]
  · show (teardown env (stopPolling s)).m_pollThread = false
    rw [t2, h2]
  · show (teardown env (stopPolling s)).m_metrics = s.m_metrics
    rw [teardown_metrics, stopPolling_metrics]

theorem stopped_threadSound {s : State} (h1 : s.m_running = false) (h2 : s.m_pollThread = false) :
    ThreadSound s := by
  unfold ThreadSound
  rw [h1, h2]
  simp

theorem startPolling_threadSound (s : State) :
    ThreadSound (startPolling s) ∧ (startPolling s).m_metrics = s.m_metrics := by
  obtain ⟨h1, h2, h3, _⟩ := stopPolling_spec s
  have hm := stopPolling_metrics s
  unfold startPolling
  generalize stopPolling s = t at h1 h2 h3 hm
  dsimp only
  cases hk : t.m_socket with
  | none => exact ⟨stopped_threadSound h1 h2, hm⟩
  | some k =>
      refine ⟨?_, hm⟩
      unfold ThreadSound
      simp [record, hk]

theorem attach_threadSound (env : ZmqEnv) (s : State) (h1 : s.m_running = false)
    (h2 : s.m_pollThread = false) :
    ThreadSound (attach env s).2 ∧ (attach env s).2.m_metrics = s.m_metrics := by
  unfold attach
  have hk : Keeps s (if isBindingRole s.m_role = true then
      bindSocket env (bindEndpoint s.m_endpoint) s else connectSocket env s.m_endpoint s).2 := by
    split
    · exact bindSocket_keeps env _ s
    · exact connectSocket_keeps env _ s
  generalize (if isBindingRole s.m_role = true then
      bindSocket env (bindEndpoint s.m_endpoint) s else connectSocket env s.m_endpoint s) = r
    at hk
  obtain ⟨o, t⟩ := r
  have hs : ThreadSound t := stopped_threadSound (hk.running.trans h1) (hk.pollThread.trans h2)
  cases o with
  | ok u =>
      obtain ⟨a, b⟩ := startPolling_threadSound t
      have hc := setConnectionStatus_keeps ConnectionStatus.CONNECTED (startPolling t)
      exact ⟨keeps_threadSound hc a, (hc.metrics.trans b).trans hk.metrics⟩
  | thrown e => exact ⟨hs, hk.metrics⟩
  | nullDeref => exact ⟨hs, hk.metrics⟩

theorem configure_threadSound (env : ZmqEnv) (p : Pattern) (r : Role) (ep : String)
    (s : State) :
    ThreadSound (configure env p r ep s).2
      ∧ (configure env p r ep s).2.m_metrics = s.m_metrics := by
  obtain ⟨c1, c2, _, c4⟩ := close_stopped env s
  unfold configure configureAfterClose configureTry
  have h0 : Keeps (close env s) (assignConfig p r ep
      (setConnectionStatus ConnectionStatus.DISCONNECTED (close env s))) :=
    (setConnectionStatus_keeps _ _).next ⟨rfl, rfl, rfl, fun h => h⟩
  generalize assignConfig p r ep
    (setConnectionStatus ConnectionStatus.DISCONNECTED (close env s)) = s2 at h0
  have hph : Keeps s2 (andThen (configureSocket env p r s2) (setCommonSocketOptions env)).2 :=
    andThen_keeps (configureSocket_keeps env p r s2) (fun t => setCommonSocketOptions_keeps env t)
  generalize andThen (configureSocket env p r s2) (setCommonSocketOptions env) = ph at hph
  obtain ⟨o, t⟩ := ph
  have hk := h0.next hph
  have hr : t.m_running = false := hk.running.trans c1
  have ht : t.m_pollThread = false := hk.pollThread.trans c2
  have hm : t.m_metrics = s.m_metrics := hk.metrics.trans c4
  cases o with
  | ok u =>
      obtain ⟨a, b⟩ := attach_threadSound env t hr ht
      have hc := catchZmq_keeps (attach env t)
      exact ⟨keeps_threadSound hc a, (hc.metrics.trans b).trans hm⟩
  | thrown e =>
      have hc := catchZmq_keeps (Outcome.thrown e, t)
      exact ⟨keeps_threadSound hc (stopped_threadSound hr ht), hc.metrics.trans hm⟩
  | nullDeref => exact ⟨stopped_threadSound hr ht, hm⟩

theorem processIncomingMessage_spec (identity message : String) (s : State) :
    (processIncomingMessage identity message s).m_running = s.m_running
      ∧ (processIncomingMessage identity message s).m_pollThread = s.m_pollThread
      ∧ (processIncomingMessage identity message s).m_socket = s.m_socket
      ∧ (processIncomingMessage identity message s).m_metrics
          = { s.m_metrics with
              messagesReceived := u64 (s.m_metrics.messagesReceived + 1),
              bytesReceived := u64 (s.m_metrics.bytesReceived + strSize message) } := by
  unfold processIncomingMessage
  dsimp only
  split <;> split <;> exact ⟨rfl, rfl, rfl, rfl⟩

theorem handlePUSHPULLMessage_sound (env : ZmqEnv) (s : State) (h1 : ThreadSound s)
    (h2 : NothingSent s) :
    ThreadSound (handlePUSHPULLMessage env s).2 ∧ NothingSent (handlePUSHPULLMessage env s).2 := by
  unfold handlePUSHPULLMessage
  split
  · split
    · exact ⟨h1, h2⟩
    · dsimp only
      have hk := record_keeps (ZmqOp.recv false (env.recv s.log.length false)) s
      have k1 := keeps_threadSound hk h1
      have k2 := keeps_nothingSent hk h2
      generalize record (ZmqOp.recv false (env.recv s.log.length false)) s = s1 at k1 k2
      split
      · rename_i message _
        obtain ⟨a, b, c, d⟩ := processIncomingMessage_spec "" message s1
        constructor
        · show ThreadSound (processIncomingMessage "" message s1)
          unfold ThreadSound
          rw [a, b, c]
          exact k1
        · show NothingSent (processIncomingMessage "" message s1)
          unfold NothingSent
          rw [d]
          exact k2
      · exact ⟨k1, k2⟩
      · exact ⟨k1, k2⟩
  · exact ⟨h1, h2⟩

theorem pollTurn_sound (env : ZmqEnv) (fuel : Nat) (s t : State)
    (h : pollTurn env fuel s = some t) (h1 : ThreadSound s) (h2 : NothingSent s) :
    ThreadSound t ∧ NothingSent t := by
  unfold pollTurn at h
  split at h
  · cases h; exact ⟨h1, h2⟩
  · split at h
    · cases h; exact ⟨h1, h2⟩
    · have key : ∀ r, dispatchReadable env fuel s = some r →
          ThreadSound r.2 ∧ NothingSent r.2 := by
        intro r hr
        unfold dispatchReadable at hr
        split at hr
        · cases hr
          have k := handleREQREPMessage_keeps env s
          exact ⟨keeps_threadSound k h1, keeps_nothingSent k h2⟩
        · cases hr
          have k := handlePUBSUBMessage_keeps env s
          exact ⟨keeps_threadSound k h1, keeps_nothingSent k h2⟩
        · cases hr
          exact handlePUSHPULLMessage_sound env s h1 h2
        · have k := handleDEALERROUTERMessage_keeps env fuel s r hr
          exact ⟨keeps_threadSound k h1, keeps_nothingSent k h2⟩
      cases hd : dispatchReadable env fuel s with
      | none => rw [hd] at h; cases h
      | some r =>
          obtain ⟨a, b⟩ := key r hd
          rw [hd] at h
          obtain ⟨o, u⟩ := r
          cases o with
          | ok x => cases h; exact ⟨a, b⟩
          | nullDeref => cases h; exact ⟨a, b⟩
          | thrown e =>
              cases e with
              | zmq w =>
                  cases h
                  have k : Keeps u (record (ZmqOp.sleep 100)
                      (record (ZmqOp.emitErrorOccurred w) u)) :=
                    (record_keeps _ u).next (record_keeps _ _)
                  exact ⟨keeps_threadSound k a, keeps_nothingSent k b⟩
              | error c m => cases h; exact ⟨a, b⟩
              | system w => cases h; exact ⟨a, b⟩
              | other w => cases h; exact ⟨a, b⟩

theorem perform_sound (env : ZmqEnv) (a : Action) (s t : State)
    (h : perform env a s = some t) (h1 : ThreadSound s) (h2 : NothingSent s) :
    ThreadSound t ∧ NothingSent t := by
  cases a with
  | configure p r ep =>
      cases h
      obtain ⟨x, y⟩ := configure_threadSound env p r ep s
      refine ⟨x, ?_⟩
      unfold NothingSent
      rw [y]
      exact h2
  | execute c =>
      cases h
      exact ⟨keeps_threadSound (execute_keeps env c s) h1,
        keeps_nothingSent (execute_keeps env c s) h2⟩
  | cancel =>
      cases h
      obtain ⟨c1, c2, _, c4⟩ := close_stopped env s
      refine ⟨stopped_threadSound c1 c2, ?_⟩
      unfold NothingSent
      rw [show (cancel env s).m_metrics = s.m_metrics from c4]
      exact h2
  | setTimeout n =>
      cases h
      exact ⟨keeps_threadSound (setTimeout_keeps env n s) h1,
        keeps_nothingSent (setTimeout_keeps env n s) h2⟩
  | subscribe ts =>
      cases h
      exact ⟨keeps_threadSound (subscribe_keeps env ts s) h1,
        keeps_nothingSent (subscribe_keeps env ts s) h2⟩
  | pollTurn fuel => exact pollTurn_sound env fuel s t h h1 h2

theorem runActions_sound (env : ZmqEnv) (actions : List Action) (s t : State)
    (h : runActions env actions s = some t) (h1 : ThreadSound s) (h2 : NothingSent s) :
    ThreadSound t ∧ NothingSent t := by
  induction actions generalizing s with
  | nil => cases h; exact ⟨h1, h2⟩
  | cons a rest ih =>
      unfold runActions at h
      cases hp : perform env a s with
      | none => rw [hp] at h; cases h
      | some u =>
          rw [hp] at h
          obtain ⟨x, y⟩ := perform_sound env a s u hp h1 h2
          exact ih u h x y

/-! ### The receive routine of `DEALER_ROUTER` -/

theorem handleFrames_router (env : ZmqEnv) (s : State) (f1 f2 : String) (rest : List String)
    (hr : s.m_role = Role.ROUTER) :
    handleFrames env (f1 :: f2 :: rest) s
      = if f1 ≠ "" then
          andThen (sendUnchecked env f1 true
              (record (ZmqOp.emitMessageReceived f2) { s with m_identity := f1 }))
            (fun s3 => sendUnchecked env ("Response to: " ++ f2) false s3)
        else (Outcome.ok (), record (ZmqOp.emitMessageReceived f2) { s with m_identity := f1 }) := by
  simp [handleFrames, hr, record]

theorem handleFrames_router_few (env : ZmqEnv) (s : State) (frames : List String)
    (hr : s.m_role = Role.ROUTER) (hl : frames.length < 2) :
    catchReport (handleFrames env frames s) = (Outcome.ok (), s) := by
  match frames, hl with
  | [], _ => simp [handleFrames, catchReport]
  | [f], _ => simp [handleFrames, hr, catchReport]

/-- What the Router's routine does with two or more frames, by how the two sends
end. -/
theorem handleFrames_router_spec (env : ZmqEnv) (s : State) (f1 f2 : String)
    (rest : List String) (hr : s.m_role = Role.ROUTER) :
    (catchReport (handleFrames env (f1 :: f2 :: rest) s)).1 = Outcome.ok ()
      ∧ (catchReport (handleFrames env (f1 :: f2 :: rest) s)).2.m_identity = f1
      ∧ (f1 = "" → (catchReport (handleFrames env (f1 :: f2 :: rest) s)).2.log
          = s.log ++ [ZmqOp.emitMessageReceived f2])
      ∧ (f1 ≠ "" → (∀ w, env.send (s.log.length + 1) f1 true ≠ SendResult.error w) →
          (∀ w, env.send (s.log.length + 2) ("Response to: " ++ f2) false ≠ SendResult.error w) →
          (catchReport (handleFrames env (f1 :: f2 :: rest) s)).2.log
            = s.log ++ [ZmqOp.emitMessageReceived f2,
                ZmqOp.send f1 true (env.send (s.log.length + 1) f1 true),
                ZmqOp.send ("Response to: " ++ f2) false
                  (env.send (s.log.length + 2) ("Response to: " ++ f2) false)])
      ∧ (f1 ≠ "" → (∀ w, env.send (s.log.length + 1) f1 true ≠ SendResult.error w) →
          ∀ w, env.send (s.log.length + 2) ("Response to: " ++ f2) false = SendResult.error w →
          (catchReport (handleFrames env (f1 :: f2 :: rest) s)).2.log
            = s.log ++ [ZmqOp.emitMessageReceived f2,
                ZmqOp.send f1 true (env.send (s.log.length + 1) f1 true),
                ZmqOp.send ("Response to: " ++ f2) false (SendResult.error w),
                ZmqOp.emitErrorOccurred w])
      ∧ (f1 ≠ "" → ∀ w, env.send (s.log.length + 1) f1 true = SendResult.error w →
          (catchReport (handleFrames env (f1 :: f2 :: rest) s)).2.log
            = s.log ++ [ZmqOp.emitMessageReceived f2, ZmqOp.send f1 true (SendResult.error w),
                ZmqOp.emitErrorOccurred w]) := by
  rw [handleFrames_router env s f1 f2 rest hr]
  by_cases h1 : f1 = ""
  · subst h1
    simp [catchReport, record]
  · have e1 : (s.log ++ [ZmqOp.emitMessageReceived f2]).length = s.log.length + 1 := by simp
    simp only [ne_eq, h1, not_false_eq_true, if_true, sendUnchecked, record, e1]
    cases hs1 : env.send (s.log.length + 1) f1 true with
    | error w => simp [andThen, catchReport, record]
    | sent =>
        have e2 : (s.log ++ [ZmqOp.emitMessageReceived f2]
            ++ [ZmqOp.send f1 true SendResult.sent]).length = s.log.length + 2 := by simp
        simp only [andThen, e2]
        cases hs2 : env.send (s.log.length + 2) ("Response to: " ++ f2) false <;>
          simp [catchReport, record]
    | again =>
        have e2 : (s.log ++ [ZmqOp.emitMessageReceived f2]
            ++ [ZmqOp.send f1 true SendResult.again]).length = s.log.length + 2 := by simp
        simp only [andThen, e2]
        cases hs2 : env.send (s.log.length + 2) ("Response to: " ++ f2) false <;>
          simp [catchReport, record]

/-- The loop only receives: it leaves the role and the recorded identity as they
are, and what it logs are receives. -/
theorem drainFrames_spec (env : ZmqEnv) (fuel : Nat) (messages : List String) (s : State)
    (r : Outcome (List String) × State) (h : drainFrames env fuel messages s = some r) :
    r.2.m_role = s.m_role ∧ r.2.m_identity = s.m_identity ∧ r.2.m_pattern = s.m_pattern
      ∧ r.2.m_socket = s.m_socket
      ∧ ∃ ops, r.2.log = s.log ++ ops ∧ ∀ op ∈ ops, op.isRecv = true := by
  induction fuel generalizing messages s with
  | zero => cases h
  | succ n ih =>
      unfold drainFrames at h
      dsimp only at h
      split at h
      · split at h
        · obtain ⟨a, b, c, d, ops, e, f⟩ := ih _ _ h
          refine ⟨a, b, c, d, ZmqOp.recv true (env.recv s.log.length true) :: ops, ?_, ?_⟩
          · rw [e]
            simp [record]
          · intro op hop
            rcases List.mem_cons.mp hop with rfl | hop
            · rfl
            · exact f op hop
        · cases h
          exact ⟨rfl, rfl, rfl, rfl, [ZmqOp.recv true (env.recv s.log.length true)], rfl,
            by simp [ZmqOp.isRecv]⟩
      · cases h
        exact ⟨rfl, rfl, rfl, rfl, [ZmqOp.recv true (env.recv s.log.length true)], rfl,
          by simp [ZmqOp.isRecv]⟩
      · cases h
        exact ⟨rfl, rfl, rfl, rfl, [ZmqOp.recv true (env.recv s.log.length true)], rfl,
          by simp [ZmqOp.isRecv]⟩

/-- A message that the socket hands over whole is collected whole, with as much
fuel as it has frames. -/
theorem drainFrames_delivers (env : ZmqEnv) (frames : List String) (messages : List String)
    (s : State) (h : Delivers env s.log.length frames) :
    drainFrames env frames.length messages s
      = some (Outcome.ok (messages ++ frames),
          { s with log := s.log ++ frames.map (fun f => ZmqOp.recv true (RecvResult.msg f)) }) := by
  induction frames generalizing messages s with
  | nil => cases h
  | cons f rest ih =>
      cases rest with
      | nil =>
          obtain ⟨h1, h2⟩ := h
          simp [drainFrames, h1, record, h2]
      | cons g rest =>
          obtain ⟨h1, h2, h3⟩ := h
          have hl : (record (ZmqOp.recv true (RecvResult.msg f)) s).log.length
              = s.log.length + 1 := by simp [record]
          have := ih (messages ++ [f]) (record (ZmqOp.recv true (RecvResult.msg f)) s)
            (by rw [hl]; exact h3)
          simp only [List.length_cons] at this ⊢
          unfold drainFrames
          simp only [h1, hl, h2, if_true]
          rw [this]
          simp [record]

theorem handleDEALERROUTERMessage_of_drained (env : ZmqEnv) (fuel : Nat) (s s1 : State)
    (k : Socket) (frames : List String) (hk : s.m_socket = some k)
    (hd : drainFrames env fuel [] s = some (Outcome.ok frames, s1)) :
    handleDEALERROUTERMessage env fuel s = some (catchReport (handleFrames env frames s1)) := by
  simp [handleDEALERROUTERMessage, hk, hd]

/-! ### The identity a Router addresses -/

theorem andThen_of_ok {α : Type} {r : Outcome Unit × State} {f : State → Outcome α × State}
    (h : r.1 = Outcome.ok ()) : andThen r f = f r.2 := by
  obtain ⟨o, s⟩ := r
  cases h
  rfl

theorem andThen_sameParty {α : Type} {r : Outcome Unit × State}
    {f : State → Outcome α × State} (hf : ∀ t, SameParty t (f t).2) :
    SameParty r.2 (andThen r f).2 := by
  obtain ⟨o, s⟩ := r
  cases o with
  | ok u => exact hf s
  | thrown e => exact ⟨rfl, rfl⟩
  | nullDeref => exact ⟨rfl, rfl⟩

theorem SameParty.after {s t u : State} (h1 : SameParty s t) (h2 : SameParty t u) :
    SameParty s u :=
  ⟨h2.identity.trans h1.identity, h2.role.trans h1.role⟩

theorem sockSet_sameParty (env : ZmqEnv) (o : SockOpt) (s : State) :
    SameParty s (sockSet env o s).2 := by
  unfold sockSet
  cases s.m_socket with
  | none => exact ⟨rfl, rfl⟩
  | some k => cases env.setsockopt s.log.length o <;> exact ⟨rfl, rfl⟩

theorem sockSetAll_sameParty (env : ZmqEnv) (os : List SockOpt) (s : State) :
    SameParty s (sockSetAll env os s).2 := by
  induction os generalizing s with
  | nil => exact ⟨rfl, rfl⟩
  | cons o os ih =>
      unfold sockSetAll
      exact (sockSet_sameParty env o s).after (andThen_sameParty ih)

theorem setCommonSocketOptions_sameParty (env : ZmqEnv) (s : State) :
    SameParty s (setCommonSocketOptions env s).2 := by
  unfold setCommonSocketOptions
  split
  · exact ⟨rfl, rfl⟩
  · refine SameParty.after ?_ (sockSetAll_sameParty env _ _)
    unfold widenTimeout
    split <;> exact ⟨rfl, rfl⟩

theorem setConnectionStatus_sameParty (c : ConnectionStatus) (s : State) :
    SameParty s (setConnectionStatus c s) := by
  unfold setConnectionStatus
  split <;> exact ⟨rfl, rfl⟩

theorem startPolling_sameParty (s : State) : SameParty s (startPolling s) := by
  unfold startPolling stopPolling
  by_cases h : s.m_pollThread = true
  · cases hk : s.m_socket <;> simp [h, record, hk] <;> exact ⟨rfl, rfl⟩
  · cases hk : s.m_socket <;> simp [h, record, hk] <;> exact ⟨rfl, rfl⟩

theorem attach_sameParty (env : ZmqEnv) (s : State) : SameParty s (attach env s).2 := by
  unfold attach
  refine SameParty.after ?_ (andThen_sameParty (fun t =>
    (startPolling_sameParty t).after (setConnectionStatus_sameParty _ _)))
  split
  · unfold bindSocket
    cases s.m_socket with
    | none => exact ⟨rfl, rfl⟩
    | some k => cases env.bind s.log.length (bindEndpoint s.m_endpoint) <;> exact ⟨rfl, rfl⟩
  · unfold connectSocket
    cases s.m_socket with
    | none => exact ⟨rfl, rfl⟩
    | some k => cases env.connect s.log.length s.m_endpoint <;> exact ⟨rfl, rfl⟩

/-- A `configure` as Router that returns leaves `Client` as the identity. -/
theorem configure_router_identity (env : ZmqEnv) (s : State) (ep : String)
    (h : (configure env Pattern.DEALER_ROUTER Role.ROUTER ep s).1 = Outcome.ok ()) :
    (configure env Pattern.DEALER_ROUTER Role.ROUTER ep s).2.m_identity = "Client"
      ∧ (configure env Pattern.DEALER_ROUTER Role.ROUTER ep s).2.m_role = Role.ROUTER := by
  unfold configure configureAfterClose configureTry at h ⊢
  have f_role : (assignConfig Pattern.DEALER_ROUTER Role.ROUTER ep
      (setConnectionStatus ConnectionStatus.DISCONNECTED (close env s))).m_role = Role.ROUTER := rfl
  have f_socket : (assignConfig Pattern.DEALER_ROUTER Role.ROUTER ep
      (setConnectionStatus ConnectionStatus.DISCONNECTED (close env s))).m_socket = none :=
    (setConnectionStatus_m_socket _ _).trans (close_m_socket env s)
  generalize assignConfig Pattern.DEALER_ROUTER Role.ROUTER ep
    (setConnectionStatus ConnectionStatus.DISCONNECTED (close env s)) = s2 at h f_role f_socket ⊢
  have hsetup := configureSocket_setup env Pattern.DEALER_ROUTER Role.ROUTER s2 (by decide)
    f_role f_socket
  have hid : (configureSocket env Pattern.DEALER_ROUTER Role.ROUTER s2).1 = Outcome.ok () →
      (configureSocket env Pattern.DEALER_ROUTER Role.ROUTER s2).2.m_identity = "Client" := by
    intro hok
    simp only [configureSocket, setupDEALERROUTER, f_role, reduceCtorEq, if_false, if_true]
      at hok ⊢
    obtain ⟨a, b⟩ := andThen_ok hok
    rw [andThen_of_ok a] at hok ⊢
    obtain ⟨c, _⟩ := andThen_ok hok
    rw [andThen_of_ok c]
  generalize configureSocket env Pattern.DEALER_ROUTER Role.ROUTER s2 = r1 at h hsetup hid
  obtain ⟨o1, t1⟩ := r1
  cases o1 with
  | thrown e => cases e <;> cases h
  | nullDeref => cases h
  | ok u1 =>
      have hid1 : t1.m_identity = "Client" := hid rfl
      have hrole1 : t1.m_role = Role.ROUTER := hsetup.same.role.trans f_role
      have hc := setCommonSocketOptions_sameParty env t1
      simp only [andThen] at h ⊢
      generalize setCommonSocketOptions env t1 = r2 at h hc
      obtain ⟨o2, t2⟩ := r2
      cases o2 with
      | thrown e => cases e <;> cases h
      | nullDeref => cases h
      | ok u2 =>
          simp only [andThen] at h ⊢
          have ha := attach_sameParty env t2
          generalize attach env t2 = r3 at h ha
          obtain ⟨o3, t3⟩ := r3
          cases o3 with
          | thrown e => cases e <;> cases h
          | nullDeref => cases h
          | ok u3 =>
              simp only [catchZmq]
              exact ⟨ha.identity.trans (hc.identity.trans hid1),
                ha.role.trans (hc.role.trans hrole1)⟩

/-- What `execute` does for a Router, by how the two sends end. -/
theorem execute_router_spec (env : ZmqEnv) (c : RequestConfig) (s : State) (k : Socket)
    (hk : s.m_socket = some k) (hr : s.m_role = Role.ROUTER) (id : String)
    (hid : id = if s.m_identity = "" then "Game" else s.m_identity) :
    (execute env c s).2.m_identity = id
      ∧ (env.send s.log.length id true = SendResult.sent →
          env.send (s.log.length + 1) c.body false = SendResult.sent →
          (execute env c s).1 = Outcome.ok (createResult c.body true)
            ∧ (execute env c s).2.log
                = s.log ++ [ZmqOp.send id true SendResult.sent,
                    ZmqOp.send c.body false SendResult.sent,
                    ZmqOp.emitMessageReceived c.body])
      ∧ (env.send s.log.length id true ≠ SendResult.sent →
          (execute env c s).1.failsWith ErrorCode.ZMQ_ERROR
            ∧ (execute env c s).2.log
                = s.log ++ [ZmqOp.send id true (env.send s.log.length id true)])
      ∧ (env.send s.log.length id true = SendResult.sent →
          env.send (s.log.length + 1) c.body false ≠ SendResult.sent →
          (execute env c s).1.failsWith ErrorCode.ZMQ_ERROR
            ∧ (execute env c s).2.log
                = s.log ++ [ZmqOp.send id true SendResult.sent,
                    ZmqOp.send c.body false (env.send (s.log.length + 1) c.body false)]) := by
  subst hid
  by_cases hi : s.m_identity = ""
  · simp only [hi, if_true]
    cases h1 : env.send s.log.length "Game" true <;>
      cases h2 : env.send (s.log.length + 1) c.body false <;>
      simp [execute, hk, hr, hi, sendFrame, andThen, record, h1, h2, Outcome.failsWith]
  · simp only [hi, if_false]
    cases h1 : env.send s.log.length s.m_identity true <;>
      cases h2 : env.send (s.log.length + 1) c.body false <;>
      simp [execute, hk, hr, hi, sendFrame, andThen, record, h1, h2, Outcome.failsWith]

/-! ### Socket options -/

theorem sockSet_ok (env : ZmqEnv) (o : SockOpt) (s : State) (k : Socket)
    (hk : s.m_socket = some k) (h : (sockSet env o s).1 = Outcome.ok ()) :
    (sockSet env o s).2.m_socket = some (k.set o)
      ∧ (sockSet env o s).2.m_timeout = s.m_timeout
      ∧ (sockSet env o s).2.m_pattern = s.m_pattern := by
  unfold sockSet at h ⊢
  rw [hk] at h ⊢
  dsimp only at h ⊢
  cases he : env.setsockopt s.log.length o with
  | none => exact ⟨rfl, rfl, rfl⟩
  | some w => rw [he] at h; cases h

theorem sockSetAll_ok (env : ZmqEnv) (os : List SockOpt) (s : State) (k : Socket)
    (hk : s.m_socket = some k) (h : (sockSetAll env os s).1 = Outcome.ok ()) :
    (sockSetAll env os s).2.m_socket = some (os.foldl Socket.set k)
      ∧ (sockSetAll env os s).2.m_timeout = s.m_timeout
      ∧ (sockSetAll env os s).2.m_pattern = s.m_pattern := by
  induction os generalizing s k with
  | nil => exact ⟨hk, rfl, rfl⟩
  | cons o os ih =>
      unfold sockSetAll at h ⊢
      obtain ⟨a, b⟩ := andThen_ok h
      rw [andThen_of_ok a]
      obtain ⟨x, y, z⟩ := sockSet_ok env o s k hk a
      obtain ⟨x2, y2, z2⟩ := ih (sockSet env o s).2 (k.set o) x b
      exact ⟨x2, y2.trans y, z2.trans z⟩

/-- The options a socket has once `setCommonSocketOptions` has returned. -/
theorem setCommonSocketOptions_ok (env : ZmqEnv) (s : State) (k : Socket)
    (hk : s.m_socket = some k) (h : (setCommonSocketOptions env s).1 = Outcome.ok ()) :
    ∃ k1, (setCommonSocketOptions env s).2.m_socket = some k1
      ∧ k1.rcvtimeo = (setCommonSocketOptions env s).2.m_timeout
      ∧ k1.sndtimeo = (setCommonSocketOptions env s).2.m_timeout
      ∧ k1.rcvhwm = 1000 ∧ k1.sndhwm = 1000 ∧ k1.linger = 0 ∧ k1.reconnect_ivl = 100
      ∧ k1.kind = k.kind
      ∧ (s.m_pattern = Pattern.REQ_REP → (setCommonSocketOptions env s).2.m_timeout = 30000)
      ∧ (s.m_pattern ≠ Pattern.REQ_REP →
          (setCommonSocketOptions env s).2.m_timeout = s.m_timeout) := by
  unfold setCommonSocketOptions at h ⊢
  rw [hk] at h ⊢
  dsimp only at h ⊢
  have hk1 : (widenTimeout s).m_socket = some k := by
    rw [widenTimeout_m_socket]
    exact hk
  obtain ⟨x, y, _⟩ := sockSetAll_ok env _ (widenTimeout s) k hk1 h
  refine ⟨_, x, ?_, ?_, rfl, rfl, rfl, rfl, rfl, ?_, ?_⟩
  · rw [y]; rfl
  · rw [y]; rfl
  · intro hp
    rw [y]
    simp [widenTimeout, hp]
  · intro hp
    rw [y]
    simp [widenTimeout, hp]

theorem attach_log (env : ZmqEnv) (s : State) (k : Socket) (hk : s.m_socket = some k) :
    ∃ ok rest, (attach env s).2.log = s.log ++ attachOp s.m_role s.m_endpoint ok :: rest := by
  have hfin : ∀ t : State, ∃ rest,
      (setConnectionStatus ConnectionStatus.CONNECTED (startPolling t)).log = t.log ++ rest := by
    intro t
    have h1 : ∃ r1, (startPolling t).log = t.log ++ r1 := by
      unfold startPolling stopPolling
      by_cases h : t.m_pollThread = true
      · cases hk : t.m_socket
        · exact ⟨[ZmqOp.threadJoin], by simp [h, record, hk]⟩
        · exact ⟨[ZmqOp.threadJoin, ZmqOp.threadStart], by simp [h, record, hk]⟩
      · cases hk : t.m_socket
        · exact ⟨[], by simp [h, hk]⟩
        · exact ⟨[ZmqOp.threadStart], by simp [h, record, hk]⟩
    obtain ⟨r1, h1⟩ := h1
    unfold setConnectionStatus
    split
    · exact ⟨r1 ++ [ZmqOp.emitConnectionStatusChanged], by simp [record, h1]⟩
    · exact ⟨r1, h1⟩
  unfold attach attachOp
  cases hrole : isBindingRole s.m_role
  · simp only [Bool.false_eq_true, if_false, connectSocket, hk]
    cases env.connect s.log.length s.m_endpoint with
    | none =>
        obtain ⟨rest, hr⟩ := hfin (record (ZmqOp.connect s.m_endpoint true)
          { s with m_socket := some { k with connected := some s.m_endpoint } })
        exact ⟨true, rest, by simpa [andThen, record] using hr⟩
    | some w => exact ⟨false, [], by simp [andThen, record]⟩
  · simp only [if_true, bindSocket, hk]
    cases env.bind s.log.length (bindEndpoint s.m_endpoint) with
    | none =>
        obtain ⟨rest, hr⟩ := hfin (record (ZmqOp.bind (bindEndpoint s.m_endpoint) true)
          { s with m_socket := some { k with bound := some (bindEndpoint s.m_endpoint) } })
        exact ⟨true, rest, by simpa [andThen, record] using hr⟩
    | some w => exact ⟨false, [], by simp [andThen, record]⟩

/-- C25: for a valid pair, `configure` calls `bind` or `connect` in the state
that `configureSocket` and `setCommonSocketOptions` leave. When these two have
returned, the socket is not attached yet and its options are: receive and send
timeout the handler's timeout value, both high-water marks 1000, linger 0,
reconnect interval 100, whatever the socket had been given at its creation; for
pattern `REQ_REP` the handler's timeout value is 30000 then, whatever it was
before. The very next call logged is the `bind` or `connect`. A Publisher's
linger 1000, a Subscriber's receive timeout 5000 and a Dealer's reconnect
interval 1000 are set at creation and overwritten before the socket is attached. -/
theorem configure_attaches_with_common_options :
    (∀ (env : ZmqEnv) (s : State) (p : Pattern) (r : Role) (ep : String),
        r ∈ getAvailableRoles p →
          configure env p r ep s
              = catchZmq (andThen (configurePrepare env p r ep s) (attach env))
            ∧ ((configurePrepare env p r ep s).1 = Outcome.ok () →
                ∃ k, (configurePrepare env p r ep s).2.m_socket = some k
                  ∧ k.rcvtimeo = (configurePrepare env p r ep s).2.m_timeout
                  ∧ k.sndtimeo = (configurePrepare env p r ep s).2.m_timeout
                  ∧ k.rcvhwm = 1000 ∧ k.sndhwm = 1000 ∧ k.linger = 0
                  ∧ k.reconnect_ivl = 100
                  ∧ k.bound = none ∧ k.connected = none
                  ∧ (p = Pattern.REQ_REP →
                      (configurePrepare env p r ep s).2.m_timeout = 30000)
                  ∧ ∃ ok rest,
                      (andThen (configurePrepare env p r ep s) (attach env)).2.log
                        = (configurePrepare env p r ep s).2.log ++ attachOp r ep ok :: rest))
      ∧ ((configureSocket envAllOk Pattern.PUB_SUB Role.PUBLISHER
              (assignConfig Pattern.PUB_SUB Role.PUBLISHER "tcp://127.0.0.1:5555"
                State.init)).2.m_socket.map Socket.linger = some 1000
          ∧ (configurePrepare envAllOk Pattern.PUB_SUB Role.PUBLISHER "tcp://127.0.0.1:5555"
              State.init).2.m_socket.map Socket.linger = some 0)
      ∧ ((configureSocket envAllOk Pattern.PUB_SUB Role.SUBSCRIBER
              (assignConfig Pattern.PUB_SUB Role.SUBSCRIBER "tcp://127.0.0.1:5555"
                State.init)).2.m_socket.map Socket.rcvtimeo = some 5000
          ∧ (configurePrepare envAllOk Pattern.PUB_SUB Role.SUBSCRIBER "tcp://127.0.0.1:5555"
              State.init).2.m_socket.map Socket.rcvtimeo = some 500)
      ∧ ((configureSocket envAllOk Pattern.DEALER_ROUTER Role.DEALER
              (assignConfig Pattern.DEALER_ROUTER Role.DEALER "tcp://127.0.0.1:5555"
                State.init)).2.m_socket.map Socket.reconnect_ivl = some 1000
          ∧ (configurePrepare envAllOk Pattern.DEALER_ROUTER Role.DEALER "tcp://127.0.0.1:5555"
              State.init).2.m_socket.map Socket.reconnect_ivl = some 100)
      ∧ ((setTimeout envAllOk 100 State.init).2.m_timeout = 100
          ∧ (configurePrepare envAllOk Pattern.REQ_REP Role.REQUESTER "tcp://127.0.0.1:5555"
              (setTimeout envAllOk 100 State.init).2).2.m_timeout = 30000
          ∧ (configurePrepare envAllOk Pattern.REQ_REP Role.REQUESTER "tcp://127.0.0.1:5555"
              (setTimeout envAllOk 100 State.init).2).2.m_socket.map Socket.rcvtimeo
              = some 30000) := by
  refine ⟨?_, ⟨by decide, by decide⟩, ⟨by decide, by decide⟩, ⟨by decide, by decide⟩,
    ⟨by decide, by decide, by decide⟩⟩
  intro env s p r ep hr
  refine ⟨rfl, ?_⟩
  unfold configurePrepare
  have f_role : (assignConfig p r ep
      (setConnectionStatus ConnectionStatus.DISCONNECTED (close env s))).m_role = r := rfl
  have f_ep : (assignConfig p r ep
      (setConnectionStatus ConnectionStatus.DISCONNECTED (close env s))).m_endpoint = ep := rfl
  have f_pat : (assignConfig p r ep
      (setConnectionStatus ConnectionStatus.DISCONNECTED (close env s))).m_pattern = p := rfl
  have f_socket : (assignConfig p r ep
      (setConnectionStatus ConnectionStatus.DISCONNECTED (close env s))).m_socket = none :=
    (setConnectionStatus_m_socket _ _).trans (close_m_socket env s)
  generalize assignConfig p r ep
    (setConnectionStatus ConnectionStatus.DISCONNECTED (close env s)) = s2
    at f_role f_ep f_pat f_socket
  have hsetup := configureSocket_setup env p r s2 hr f_role f_socket
  intro hok
  obtain ⟨a, b⟩ := andThen_ok hok
  rw [andThen_of_ok a] at hok ⊢
  generalize configureSocket env p r s2 = r1 at hsetup a b hok
  obtain ⟨o1, t1⟩ := r1
  obtain ⟨hsame, hunatt, hout⟩ := hsetup
  have hsome : t1.m_socket.isSome = true := by
    rcases hout with ⟨_, h⟩ | ⟨w, h⟩
    · exact h
    · simp only at a h
      rw [a] at h
      cases h
  obtain ⟨k, hk⟩ := Option.isSome_iff_exists.mp hsome
  simp only at hok b hsame ⊢
  obtain ⟨k1, x1, x2, x3, x4, x5, x6, x7, _, x9, _⟩ := setCommonSocketOptions_ok env t1 k hk hok
  have hs2 := setCommonSocketOptions_setup env t1 hunatt hsome
  obtain ⟨ub, uc⟩ := hs2.unattached k1 x1
  refine ⟨k1, x1, x2, x3, x4, x5, x6, x7, ub, uc, ?_, ?_⟩
  · intro hp
    exact x9 (hsame.pattern.trans (f_pat.trans hp))
  · obtain ⟨ok, rest, hl⟩ := attach_log env (setCommonSocketOptions env t1).2 k1 x1
    rw [hs2.same.role, hs2.same.endpoint, hsame.role, hsame.endpoint, f_role, f_ep] at hl
    refine ⟨ok, rest, ?_⟩
    rw [andThen_of_ok hok]
    exact hl

/-- C23: the Router's receive routine hands the frames its loop collected to the
part that follows, having only received so far (a message the socket hands
over whole is collected whole). With two or more frames `f1, f2, ...` that part
records `f1` as the identity, forwards `f2` and nothing else, once, and, when
`f1` is not empty, sends `f1` with the more-frames flag and then `Response to: `
followed by `f2` as the last frame, and nothing else; the second send is left
out only when the first throws, and a thrown send is reported through
`errorOccurred`. With `f1` empty nothing is sent. With fewer than two frames
nothing is recorded, forwarded or sent. -/
theorem router_routine_replies_to_sender :
    (∀ (env : ZmqEnv) (fuel : Nat) (s s1 : State) (k : Socket) (frames : List String),
        s.m_socket = some k → drainFrames env fuel [] s = some (Outcome.ok frames, s1) →
          handleDEALERROUTERMessage env fuel s = some (catchReport (handleFrames env frames s1))
            ∧ s1.m_role = s.m_role ∧ s1.m_identity = s.m_identity
            ∧ ∃ ops, s1.log = s.log ++ ops ∧ ∀ op ∈ ops, op.isRecv = true)
      ∧ (∀ (env : ZmqEnv) (s : State) (frames : List String),
          Delivers env s.log.length frames →
            drainFrames env frames.length [] s
              = some (Outcome.ok frames,
                  { s with log := s.log
                      ++ frames.map (fun f => ZmqOp.recv true (RecvResult.msg f)) }))
      ∧ (∀ (env : ZmqEnv) (s : State) (f1 f2 : String) (rest : List String),
          s.m_role = Role.ROUTER →
            (catchReport (handleFrames env (f1 :: f2 :: rest) s)).1 = Outcome.ok ()
              ∧ (catchReport (handleFrames env (f1 :: f2 :: rest) s)).2.m_identity = f1
              ∧ (f1 = "" → (catchReport (handleFrames env (f1 :: f2 :: rest) s)).2.log
                  = s.log ++ [ZmqOp.emitMessageReceived f2])
              ∧ (f1 ≠ "" →
                  (∀ w, env.send (s.log.length + 1) f1 true ≠ SendResult.error w) →
                  (∀ w, env.send (s.log.length + 2) ("Response to: " ++ f2) false
                    ≠ SendResult.error w) →
                  (catchReport (handleFrames env (f1 :: f2 :: rest) s)).2.log
                    = s.log ++ [ZmqOp.emitMessageReceived f2,
                        ZmqOp.send f1 true (env.send (s.log.length + 1) f1 true),
                        ZmqOp.send ("Response to: " ++ f2) false
                          (env.send (s.log.length + 2) ("Response to: " ++ f2) false)])
              ∧ (f1 ≠ "" →
                  (∀ w, env.send (s.log.length + 1) f1 true ≠ SendResult.error w) →
                  ∀ w, env.send (s.log.length + 2) ("Response to: " ++ f2) false
                    = SendResult.error w →
                  (catchReport (handleFrames env (f1 :: f2 :: rest) s)).2.log
                    = s.log ++ [ZmqOp.emitMessageReceived f2,
                        ZmqOp.send f1 true (env.send (s.log.length + 1) f1 true),
                        ZmqOp.send ("Response to: " ++ f2) false (SendResult.error w),
                        ZmqOp.emitErrorOccurred w])
              ∧ (f1 ≠ "" → ∀ w, env.send (s.log.length + 1) f1 true = SendResult.error w →
                  (catchReport (handleFrames env (f1 :: f2 :: rest) s)).2.log
                    = s.log ++ [ZmqOp.emitMessageReceived f2,
                        ZmqOp.send f1 true (SendResult.error w), ZmqOp.emitErrorOccurred w]))
      ∧ (∀ (env : ZmqEnv) (s : State) (frames : List String),
          s.m_role = Role.ROUTER → frames.length < 2 →
            catchReport (handleFrames env frames s) = (Outcome.ok (), s))
      ∧ handleDEALERROUTERMessage
            (envFrames (configured Pattern.DEALER_ROUTER Role.ROUTER).log.length
              ["id-1", "hello", "extra"])
            3 (configured Pattern.DEALER_ROUTER Role.ROUTER)
          = some (Outcome.ok (),
              { configured Pattern.DEALER_ROUTER Role.ROUTER with
                m_identity := "id-1",
                log := (configured Pattern.DEALER_ROUTER Role.ROUTER).log
                  ++ [ZmqOp.recv true (RecvResult.msg "id-1"),
                      ZmqOp.recv true (RecvResult.msg "hello"),
                      ZmqOp.recv true (RecvResult.msg "extra"),
                      ZmqOp.emitMessageReceived "hello",
                      ZmqOp.send "id-1" true SendResult.sent,
                      ZmqOp.send "Response to: hello" false SendResult.sent] })
      ∧ handleDEALERROUTERMessage
            (envFrames (configured Pattern.DEALER_ROUTER Role.ROUTER).log.length ["lonely"])
            1 (configured Pattern.DEALER_ROUTER Role.ROUTER)
          = some (Outcome.ok (),
              { configured Pattern.DEALER_ROUTER Role.ROUTER with
                log := (configured Pattern.DEALER_ROUTER Role.ROUTER).log
                  ++ [ZmqOp.recv true (RecvResult.msg "lonely")] }) := by
  refine ⟨?_, ?_, ?_, ?_, by decide, by decide⟩
  · intro env fuel s s1 k frames hk hd
    obtain ⟨a, b, _, _, ops, e, f⟩ := drainFrames_spec env fuel [] s _ hd
    exact ⟨handleDEALERROUTERMessage_of_drained env fuel s s1 k frames hk hd, a, b, ops, e, f⟩
  · intro env s frames h
    have := drainFrames_delivers env frames [] s h
    simpa using this
  · intro env s f1 f2 rest hr
    exact handleFrames_router_spec env s f1 f2 rest hr
  · intro env s frames hr hl
    exact handleFrames_router_few env s frames hr hl

/-- C24: `execute` of a Router sends the identity it holds, `Game` in place of an
empty one, with the more-frames flag, then the body as last frame, and nothing
else; with both sends gone through it returns status 200 with the body as body
(a send that does not go through ends the call with `ZMQ_ERROR`, the body frame
unsent when it is the first). The identity it holds is `Client` after a
`configure` as Router that returned, and the first frame of the last message of
two or more frames that the receive routine handled; a message of fewer frames
leaves it as it is. -/
theorem router_execute_addresses_last_identity :
    (∀ (env : ZmqEnv) (c : RequestConfig) (s : State) (k : Socket),
        s.m_socket = some k → s.m_role = Role.ROUTER →
          (execute env c s).2.m_identity = (if s.m_identity = "" then "Game" else s.m_identity)
            ∧ (env.send s.log.length (if s.m_identity = "" then "Game" else s.m_identity) true
                  = SendResult.sent →
                env.send (s.log.length + 1) c.body false = SendResult.sent →
                (execute env c s).1 = Outcome.ok (createResult c.body true)
                  ∧ (execute env c s).2.log
                      = s.log ++ [ZmqOp.send (if s.m_identity = "" then "Game" else s.m_identity)
                            true SendResult.sent,
                          ZmqOp.send c.body false SendResult.sent,
                          ZmqOp.emitMessageReceived c.body])
            ∧ (env.send s.log.length (if s.m_identity = "" then "Game" else s.m_identity) true
                  ≠ SendResult.sent →
                (execute env c s).1.failsWith ErrorCode.ZMQ_ERROR
                  ∧ (execute env c s).2.log
                      = s.log ++ [ZmqOp.send (if s.m_identity = "" then "Game" else s.m_identity)
                          true (env.send s.log.length
                            (if s.m_identity = "" then "Game" else s.m_identity) true)])
            ∧ (env.send s.log.length (if s.m_identity = "" then "Game" else s.m_identity) true
                  = SendResult.sent →
                env.send (s.log.length + 1) c.body false ≠ SendResult.sent →
                (execute env c s).1.failsWith ErrorCode.ZMQ_ERROR
                  ∧ (execute env c s).2.log
                      = s.log ++ [ZmqOp.send (if s.m_identity = "" then "Game" else s.m_identity)
                            true SendResult.sent,
                          ZmqOp.send c.body false
                            (env.send (s.log.length + 1) c.body false)]))
      ∧ (∀ body : String,
          (createResult body true).status_code = 200 ∧ (createResult body true).body = body)
      ∧ (∀ (env : ZmqEnv) (s : State) (ep : String),
          (configure env Pattern.DEALER_ROUTER Role.ROUTER ep s).1 = Outcome.ok () →
            (configure env Pattern.DEALER_ROUTER Role.ROUTER ep s).2.m_identity = "Client"
              ∧ (configure env Pattern.DEALER_ROUTER Role.ROUTER ep s).2.m_role = Role.ROUTER)
      ∧ (∀ (env : ZmqEnv) (fuel : Nat) (s s1 : State) (k : Socket) (frames : List String),
          s.m_socket = some k → drainFrames env fuel [] s = some (Outcome.ok frames, s1) →
            handleDEALERROUTERMessage env fuel s
                = some (catchReport (handleFrames env frames s1))
              ∧ s1.m_role = s.m_role ∧ s1.m_identity = s.m_identity)
      ∧ (∀ (env : ZmqEnv) (s : State) (f1 f2 : String) (rest : List String),
          s.m_role = Role.ROUTER →
            (catchReport (handleFrames env (f1 :: f2 :: rest) s)).2.m_identity = f1)
      ∧ (∀ (env : ZmqEnv) (s : State) (frames : List String),
          s.m_role = Role.ROUTER → frames.length < 2 →
            (catchReport (handleFrames env frames s)).2.m_identity = s.m_identity)
      ∧ ((execute envAllOk { body := "hi" } (configured Pattern.DEALER_ROUTER Role.ROUTER)).1
            = Outcome.ok (createResult "hi" true)
          ∧ (execute envAllOk { body := "hi" }
                (configured Pattern.DEALER_ROUTER Role.ROUTER)).2.log
            = (configured Pattern.DEALER_ROUTER Role.ROUTER).log
                ++ [ZmqOp.send "Client" true SendResult.sent,
                    ZmqOp.send "hi" false SendResult.sent, ZmqOp.emitMessageReceived "hi"])
      ∧ ((handleDEALERROUTERMessage
              (envFrames (configured Pattern.DEALER_ROUTER Role.ROUTER).log.length ["", "hello"])
              2 (configured Pattern.DEALER_ROUTER Role.ROUTER)).map
            (fun r => ((execute envAllOk { body := "hi" } r.2).2.log.drop r.2.log.length))
          = some [ZmqOp.send "Game" true SendResult.sent,
                  ZmqOp.send "hi" false SendResult.sent, ZmqOp.emitMessageReceived "hi"]) := by
  refine ⟨?_, fun _ => ⟨rfl, rfl⟩, ?_, ?_, ?_, ?_, ⟨by decide, by decide⟩, by decide⟩
  · intro env c s k hk hr
    exact execute_router_spec env c s k hk hr _ rfl
  · intro env s ep h
    exact configure_router_identity env s ep h
  · intro env fuel s s1 k frames hk hd
    obtain ⟨a, b, _⟩ := drainFrames_spec env fuel [] s _ hd
    exact ⟨handleDEALERROUTERMessage_of_drained env fuel s s1 k frames hk hd, a, b⟩
  · intro env s f1 f2 rest hr
    exact (handleFrames_router_spec env s f1 f2 rest hr).2.1
  · intro env s frames hr hl
    rw [handleFrames_router_few env s frames hr hl]

theorem reachable_sound (s : State) (h : Reachable s) : ThreadSound s ∧ NothingSent s := by
  obtain ⟨env, actions, hrun⟩ := h
  exact runActions_sound env actions State.init s hrun
    (stopped_threadSound rfl rfl) ⟨rfl, rfl⟩

/-- C26: in a Puller under `PUSH_PULL`, a turn of the poll thread runs the Puller's
routine, and a message it receives raises `messagesReceived` by one and
`bytesReceived` by the size of the message (the counters are 64-bit: the sums
are taken modulo 2^64, and are the plain sums below that), leaves the two
counters of sent traffic alone and is forwarded once. `execute`, the receive
routines of `REQ_REP`, `PUB_SUB` and `DEALER_ROUTER`, `configure`, `cancel`,
`setTimeout` and `subscribe` leave every counter as it is. So in every state
that can be reached nothing has been counted as sent. -/
theorem puller_routine_counts_received :
    (∀ (env : ZmqEnv) (s : State) (k : Socket) (message : String),
        s.m_role = Role.PULLER → s.m_pattern = Pattern.PUSH_PULL → s.m_socket = some k →
        env.recv s.log.length false = RecvResult.msg message →
          (∀ fuel, dispatchReadable env fuel s = some (handlePUSHPULLMessage env s))
            ∧ (handlePUSHPULLMessage env s).1 = Outcome.ok ()
            ∧ (handlePUSHPULLMessage env s).2.m_metrics.messagesReceived
                = u64 (s.m_metrics.messagesReceived + 1)
            ∧ (handlePUSHPULLMessage env s).2.m_metrics.bytesReceived
                = u64 (s.m_metrics.bytesReceived + strSize message)
            ∧ (s.m_metrics.messagesReceived + 1 < 2 ^ 64 →
                (handlePUSHPULLMessage env s).2.m_metrics.messagesReceived
                  = s.m_metrics.messagesReceived + 1)
            ∧ (s.m_metrics.bytesReceived + strSize message < 2 ^ 64 →
                (handlePUSHPULLMessage env s).2.m_metrics.bytesReceived
                  = s.m_metrics.bytesReceived + strSize message)
            ∧ (handlePUSHPULLMessage env s).2.m_metrics.messagesSent = s.m_metrics.messagesSent
            ∧ (handlePUSHPULLMessage env s).2.m_metrics.bytesSent = s.m_metrics.bytesSent
            ∧ (handlePUSHPULLMessage env s).2.log
                = s.log ++ [ZmqOp.recv false (RecvResult.msg message),
                    ZmqOp.emitMessageReceived message])
      ∧ (∀ (env : ZmqEnv) (c : RequestConfig) (s : State),
          (execute env c s).2.m_metrics = s.m_metrics)
      ∧ (∀ (env : ZmqEnv) (s : State), (handleREQREPMessage env s).2.m_metrics = s.m_metrics)
      ∧ (∀ (env : ZmqEnv) (s : State), (handlePUBSUBMessage env s).2.m_metrics = s.m_metrics)
      ∧ (∀ (env : ZmqEnv) (fuel : Nat) (s : State) (r : Outcome Unit × State),
          handleDEALERROUTERMessage env fuel s = some r → r.2.m_metrics = s.m_metrics)
      ∧ (∀ (env : ZmqEnv) (p : Pattern) (r : Role) (ep : String) (s : State),
          (configure env p r ep s).2.m_metrics = s.m_metrics)
      ∧ (∀ (env : ZmqEnv) (s : State), (cancel env s).m_metrics = s.m_metrics)
      ∧ (∀ (env : ZmqEnv) (n : Int) (s : State), (setTimeout env n s).2.m_metrics = s.m_metrics)
      ∧ (∀ (env : ZmqEnv) (topics : List String) (s : State),
          (subscribe env topics s).2.m_metrics = s.m_metrics)
      ∧ (∀ s : State, Reachable s → s.m_metrics.messagesSent = 0 ∧ s.m_metrics.bytesSent = 0)
      ∧ (handlePUSHPULLMessage (envDelivering "hello")
            (configured Pattern.PUSH_PULL Role.PULLER)).2.m_metrics
          = { messagesReceived := 1, messagesSent := 0, bytesReceived := 5, bytesSent := 0 }
      ∧ Reachable (handlePUSHPULLMessage (envDelivering "hello")
            (configured Pattern.PUSH_PULL Role.PULLER)).2 := by
  refine ⟨?_, fun env c s => (execute_keeps env c s).metrics,
    fun env s => (handleREQREPMessage_keeps env s).metrics,
    fun env s => (handlePUBSUBMessage_keeps env s).metrics,
    fun env fuel s r h => (handleDEALERROUTERMessage_keeps env fuel s r h).metrics,
    fun env p r ep s => (configure_threadSound env p r ep s).2,
    fun env s => (close_stopped env s).2.2.2,
    fun env n s => (setTimeout_keeps env n s).metrics,
    fun env topics s => (subscribe_keeps env topics s).metrics,
    fun s h => (reachable_sound s h).2, by decide, ?_⟩
  · intro env s k message hr hp hk hv
    have e : handlePUSHPULLMessage env s
        = (Outcome.ok (), processIncomingMessage "" message
            (record (ZmqOp.recv false (RecvResult.msg message)) s)) := by
      simp [handlePUSHPULLMessage, hr, hk, hv]
    obtain ⟨_, _, _, d⟩ := processIncomingMessage_spec "" message
      (record (ZmqOp.recv false (RecvResult.msg message)) s)
    refine ⟨fun fuel => by simp [dispatchReadable, hp], ?_⟩
    rw [e]
    refine ⟨rfl, ?_, ?_, ?_, ?_, ?_, ?_, ?_⟩
    · simp only [d]; rfl
    · simp only [d]; rfl
    · intro hlt
      simp only [d]
      exact Nat.mod_eq_of_lt hlt
    · intro hlt
      simp only [d]
      exact Nat.mod_eq_of_lt hlt
    · simp only [d]; rfl
    · simp only [d]; rfl
    · simp [processIncomingMessage, hp, hr, record]
  · refine ⟨envDelivering "hello",
      [Action.configure Pattern.PUSH_PULL Role.PULLER "tcp://127.0.0.1:5555", Action.pollTurn 0],
      ?_⟩
    decide

/-- C28: in every state that calls of `configure`, `execute`, `cancel`,
`setTimeout` and `subscribe`, returning or throwing, and turns of the poll
thread lead to from the constructed handler, a poll thread exists only if a
socket exists, and the running flag is set if and only if a poll thread exists. -/
theorem reachable_thread_only_with_socket (s : State) (h : Reachable s) :
    (s.m_pollThread = true → s.m_socket.isSome = true)
      ∧ (s.m_running = true ↔ s.m_pollThread = true) :=
  (reachable_sound s h).1

/-- C28 (witness): a handler configured as Requester, which holds a poll thread,
and the same handler after `cancel()`, which holds none. -/
theorem reachable_thread_only_with_socket_witness :
    Reachable (configured Pattern.REQ_REP Role.REQUESTER)
      ∧ (configured Pattern.REQ_REP Role.REQUESTER).m_pollThread = true
      ∧ ((configured Pattern.REQ_REP Role.REQUESTER).m_pollThread = true →
          (configured Pattern.REQ_REP Role.REQUESTER).m_socket.isSome = true)
      ∧ ((configured Pattern.REQ_REP Role.REQUESTER).m_running = true
          ↔ (configured Pattern.REQ_REP Role.REQUESTER).m_pollThread = true) :=
  ⟨⟨envAllOk, [Action.configure Pattern.REQ_REP Role.REQUESTER "tcp://127.0.0.1:5555"], rfl⟩,
    by decide,
    reachable_thread_only_with_socket (configured Pattern.REQ_REP Role.REQUESTER)
      ⟨envAllOk, [Action.configure Pattern.REQ_REP Role.REQUESTER "tcp://127.0.0.1:5555"], rfl⟩⟩

end ZeroMQHandler

/-! ## Theorems: central validation, results of `execute`, selection of a method -/

/-! ## Theorems: central validation -/

/-- C21: `validateConfig` throws exactly when the url or the method is empty;
what it throws is an `Error` of kind `INVALID_CONFIG`; the url is looked at
first, so an empty url gives `URL cannot be empty` whatever the method is, and
an empty method with a non-empty url gives `Method cannot be empty`; with both
non-empty it returns. The config is taken by constant reference and the routine
returns nothing, so nothing of the config is changed. -/
theorem ProtocolHandler.validateConfig_rejects_exactly_empty_fields (config : RequestConfig) :
    ((∃ t, ProtocolHandler.validateConfig config = Outcome.thrown t)
        ↔ (config.url = "" ∨ config.method = ""))
      ∧ (∀ t, ProtocolHandler.validateConfig config = Outcome.thrown t →
          ∃ m, t = Thrown.error ErrorCode.INVALID_CONFIG m)
      ∧ (config.url = "" → ProtocolHandler.validateConfig config
          = Outcome.thrown (Thrown.error ErrorCode.INVALID_CONFIG "URL cannot be empty"))
      ∧ (config.url ≠ "" → config.method = "" → ProtocolHandler.validateConfig config
          = Outcome.thrown (Thrown.error ErrorCode.INVALID_CONFIG "Method cannot be empty"))
      ∧ (config.url ≠ "" → config.method ≠ "" →
          ProtocolHandler.validateConfig config = Outcome.ok ())
      ∧ ProtocolHandler.validateConfig { url := "", method := "" }
          = Outcome.thrown (Thrown.error ErrorCode.INVALID_CONFIG "URL cannot be empty")
      ∧ ProtocolHandler.validateConfig { url := "http://example.com", method := "" }
          = Outcome.thrown (Thrown.error ErrorCode.INVALID_CONFIG "Method cannot be empty")
      ∧ ProtocolHandler.validateConfig { url := "http://example.com", method := "GET" }
          = Outcome.ok () := by
  refine ⟨?_, ?_, ?_, ?_, ?_, by decide, by decide, by decide⟩
  · unfold ProtocolHandler.validateConfig
    by_cases hu : config.url = ""
    · simp [hu]
    · by_cases hm : config.method = ""
      · simp [hu, hm]
      · simp [hu, hm]
  · intro t ht
    unfold ProtocolHandler.validateConfig at ht
    split at ht
    · cases ht; exact ⟨_, rfl⟩
    · split at ht
      · cases ht; exact ⟨_, rfl⟩
      · cases ht
  · intro hu
    simp [ProtocolHandler.validateConfig, hu]
  · intro hu hm
    simp [ProtocolHandler.validateConfig, hu, hm]
  · intro hu hm
    simp [ProtocolHandler.validateConfig, hu, hm]

namespace ZeroMQHandler

/-- Whatever `execute` returns was made by `createResult` with `success` left
at its default. -/
theorem execute_returns_createResult (env : ZmqEnv) (c : RequestConfig) (s : State)
    (r : RequestResult) (h : (execute env c s).1 = Outcome.ok r) :
    ∃ body, r = createResult body true := by
  unfold execute at h
  split at h
  · cases h
  · split at h
    · cases h
    · split at h
      · have h1 := (andThen_ok h).2
        cases h1
        exact ⟨_, rfl⟩
      · split at h
        · have h1 := (andThen_ok h).2
          dsimp only at h1
          split at h1
          · cases h1; exact ⟨_, rfl⟩
          · cases h1; exact ⟨_, rfl⟩
          · cases h1
        · split at h
          · have h1 := (andThen_ok h).2
            have h2 := (andThen_ok h1).2
            cases h2
            exact ⟨_, rfl⟩
          · have h1 := (andThen_ok h).2
            dsimp only at h1
            split at h1
            · split at h1
              · cases h1; exact ⟨_, rfl⟩
              · cases h1
              · cases h1
            · cases h1; exact ⟨_, rfl⟩

theorem execute_dealer_no_reply (env : ZmqEnv) (c : RequestConfig) (s : State) (k : Socket)
    (hk : s.m_socket = some k) (hr : s.m_role = Role.DEALER)
    (hs : env.send s.log.length c.body false = SendResult.sent)
    (hv : env.recv (s.log.length + 2) false = RecvResult.again) :
    (execute env c s).1 = Outcome.ok (createResult c.body true) := by
  have e : (s.log ++ [ZmqOp.send c.body false SendResult.sent,
      ZmqOp.emitMessageReceived c.body]).length = s.log.length + 2 := by simp
  simp [execute, hk, hr, sendFrame, andThen, hs, record, hv]

/-- C29: every result `execute` returns has status code 200, an empty error
text, no headers and `bytes_received` equal to the size of its body; a result
with the status 500 that `createResult` gives for `success = false` is never
returned; a Dealer whose send went through and whose receive yields no message
returns such a result, with its own request body as body. -/
theorem execute_returns_only_status_200 :
    (∀ (env : ZmqEnv) (c : RequestConfig) (s : State) (r : RequestResult),
        (execute env c s).1 = Outcome.ok r →
          r.status_code = 200 ∧ r.error = "" ∧ r.headers = []
            ∧ r.metrics.bytes_received = strSize r.body)
      ∧ (∀ (env : ZmqEnv) (c : RequestConfig) (s : State) (body : String),
          (execute env c s).1 ≠ Outcome.ok (createResult body false))
      ∧ (∀ body : String, (createResult body false).status_code = 500)
      ∧ (∀ (env : ZmqEnv) (c : RequestConfig) (s : State) (k : Socket),
          s.m_socket = some k → s.m_role = Role.DEALER →
          env.send s.log.length c.body false = SendResult.sent →
          env.recv (s.log.length + 2) false = RecvResult.again →
            (execute env c s).1 = Outcome.ok (createResult c.body true))
      ∧ (execute envAllOk { body := "ping" }
            (configured Pattern.DEALER_ROUTER Role.DEALER)).1
          = Outcome.ok { status_code := 200, headers := [], body := "ping",
                         metrics := { bytes_received := 4 }, error := "" } := by
  refine ⟨?_, ?_, fun _ => rfl, ?_, by decide⟩
  · intro env c s r h
    obtain ⟨body, hb⟩ := execute_returns_createResult env c s r h
    subst hb
    exact ⟨rfl, rfl, rfl, rfl⟩
  · intro env c s body h
    obtain ⟨b2, hb⟩ := execute_returns_createResult env c s _ h
    have := congrArg RequestResult.status_code hb
    simp [createResult] at this
  · intro env c s k hk hr hs hv
    exact execute_dealer_no_reply env c s k hk hr hs hv

end ZeroMQHandler

namespace GrpcHandler

/-- C30: after a method has been selected, a `setService` that finds nothing
leaves the method selected and no service selected: `m_current_service` has
been overwritten with the null result of the lookup before the call throws, and
`m_current_method` is not reset. `execute`, which only checks the method, then
builds its call path through the null `m_current_service`. A `setService` that
finds another service leaves the method of the former one selected, and
`execute` calls that method on a service that does not declare it. -/
theorem failed_setService_leaves_method_without_service :
    (ready "pkg").m_current_method.isSome = true
      ∧ (ready "pkg").m_current_service.isSome = true
      ∧ (setService "Missing" (ready "pkg")).1
          = Outcome.thrown (Thrown.error ErrorCode.INVALID_ARGUMENT "Service not found: Missing")
      ∧ (setService "Missing" (ready "pkg")).2.m_current_method.isSome = true
      ∧ (setService "Missing" (ready "pkg")).2.m_current_service = none
      ∧ (∀ (env : GrpcEnv) (c : RequestConfig),
          (execute env c (setService "Missing" (ready "pkg")).2).1 = Outcome.nullDeref)
      ∧ staleMethod.m_current_service.map ServiceDescriptor.name = some "Clock"
      ∧ staleMethod.m_current_method.map MethodDescriptor.name = some "SayHello"
      ∧ staleMethod.m_current_service.bind (fun d => d.FindMethodByName "SayHello") = none
      ∧ (execute (envStub twoServices { error_code := StatusCode.OK, error_message := "" } "{}")
            {} staleMethod).2.log.getLast?
          = some (GrpcOp.call { endpoint := "localhost:50051", useSsl := false,
                                method_name := "/pkg.Clock/SayHello", metadata := [],
                                request := "{}" }) := by
  refine ⟨by decide, by decide, by decide, by decide, by decide, ?_, by decide, by decide,
    by decide, by decide⟩
  intro env c
  have h1 : (setService "Missing" (ready "pkg")).2.m_current_service = none := by decide
  have h2 : (setService "Missing" (ready "pkg")).2.m_current_method.isSome = true := by decide
  obtain ⟨m, hm⟩ := Option.isSome_iff_exists.mp h2
  generalize (setService "Missing" (ready "pkg")).2 = t at h1 hm
  unfold execute
  rw [hm]
  dsimp only
  by_cases hc : t.m_channel = true
  · simp [hc, executeMethod, h1]
  · simp [hc, executeMethod, createChannel, h1]

end GrpcHandler

/-! ## Theorems: `parseUrl`, a url with a path -/

theorem strFind_split (s : String) (c : Char) (i : Nat) (h : strFind s c 0 = some i) :
    s.data = s.data.take i ++ c :: s.data.drop (i + 1) := by
  unfold strFind at h
  rw [List.drop_zero] at h
  obtain ⟨n, a, hj, hl, ha, _⟩ := findIdxFrom_some _ _ _ _ h
  have hn : i = n := by omega
  subst hn
  have ha2 : a = c := by simpa using ha
  subst ha2
  exact hl

theorem strFind_none_not_mem (s : String) (c : Char) (h : strFind s c 0 = none) :
    c ∉ s.data := by
  unfold strFind at h
  rw [List.drop_zero] at h
  intro hmem
  have := findIdxFrom_none _ _ _ h _ hmem
  simp at this

theorem strFind_some_mem (s : String) (c : Char) (i : Nat) (h : strFind s c 0 = some i) :
    c ∈ s.data := by
  rw [strFind_split s c i h]
  simp

/-- With a `/` found at `p`, the text from `start` on is the host, the port with
its colon when the part before the `/` holds one, and the target. -/
theorem parseUrlFrom_reassembles (url : String) (start : Nat) (dflt : String) (p : Nat)
    (h : strFind url '/' start = some p) :
    (':' ∈ (strSubstr url start (p - start)).data →
        url.data.drop start = (parseUrlFrom url start dflt).1.data ++ ':' ::
          (parseUrlFrom url start dflt).2.1.data ++ (parseUrlFrom url start dflt).2.2.data)
      ∧ (':' ∉ (strSubstr url start (p - start)).data →
        url.data.drop start = (parseUrlFrom url start dflt).1.data
          ++ (parseUrlFrom url start dflt).2.2.data) := by
  have hsplit : url.data.drop start
      = (strSubstr url start (p - start)).data ++ (strSubstrFrom url p).data := by
    unfold strFind at h
    obtain ⟨n, a, hj, _, _, _⟩ := findIdxFrom_some _ _ _ _ h
    have hn : p - start = n := by omega
    simp only [strSubstr, strSubstrFrom, hn]
    have hd : List.drop p url.data = List.drop n (List.drop start url.data) := by
      rw [List.drop_drop, hj]
    rw [hd, List.take_append_drop]
  constructor
  · intro hc
    cases hf : strFind (strSubstr url start (p - start)) ':' 0 with
    | none => exact absurd hc (strFind_none_not_mem _ _ hf)
    | some cp =>
        have hs := strFind_split _ _ _ hf
        simp only [parseUrlFrom, h, hf]
        rw [hsplit]
        conv_lhs => rw [hs]
        simp [strSubstr, strSubstrFrom]
  · intro hc
    cases hf : strFind (strSubstr url start (p - start)) ':' 0 with
    | some cp => exact absurd (strFind_some_mem _ _ _ hf) hc
    | none =>
        simp only [parseUrlFrom, h, hf]
        exact hsplit

theorem schemeText_cases (url : String) :
    (schemeText url = "http://" ∧ parseUrl url = parseUrlFrom url 7 "80"
        ∧ url.data = "http://".data ++ url.data.drop 7)
      ∨ (schemeText url = "https://" ∧ parseUrl url = parseUrlFrom url 8 "443"
        ∧ url.data = "https://".data ++ url.data.drop 8)
      ∨ (schemeText url = "" ∧ parseUrl url = parseUrlFrom url 0 "80") := by
  by_cases h7 : strSubstr url 0 7 = "http://"
  · refine Or.inl ⟨by simp [schemeText, h7], ?_, ?_⟩
    · unfold parseUrl parseUrlFrom
      simp only [h7, if_true]
    · have e : List.take 7 url.data = "http://".data := by
        have e := congrArg String.data h7
        simpa only [strSubstr, List.drop_zero] using e
      rw [← e, List.take_append_drop]
  · by_cases h8 : strSubstr url 0 8 = "https://"
    · refine Or.inr (Or.inl ⟨by simp [schemeText, h7, h8], ?_, ?_⟩)
      · unfold parseUrl parseUrlFrom
        simp only [h7, h8, if_true, if_false]
      · have e : List.take 8 url.data = "https://".data := by
          have e := congrArg String.data h8
          simpa only [strSubstr, List.drop_zero] using e
        rw [← e, List.take_append_drop]
    · refine Or.inr (Or.inr ⟨by simp [schemeText, h7, h8], ?_⟩)
      unfold parseUrl parseUrlFrom
      simp only [h7, h8, if_false]

/-- C27: for a url with a `/` after the scheme text that `parseUrl` recognises,
the pieces `parseUrl` returns put the url together again: scheme, host, `:` and
port, target when the part between the scheme and that `/` holds a `:`, and
scheme, host, target when it holds none. -/
theorem parseUrl_reassembles_url_with_path (url : String) (p : Nat)
    (h : strFind url '/' (schemeText url).length = some p) :
    (':' ∈ (strSubstr url (schemeText url).length (p - (schemeText url).length)).data →
        url = schemeText url ++ (parseUrl url).1 ++ ":" ++ (parseUrl url).2.1
          ++ (parseUrl url).2.2)
      ∧ (':' ∉ (strSubstr url (schemeText url).length (p - (schemeText url).length)).data →
        url = schemeText url ++ (parseUrl url).1 ++ (parseUrl url).2.2) := by
  rcases schemeText_cases url with ⟨hs, hp, hu⟩ | ⟨hs, hp, hu⟩ | ⟨hs, hp⟩
  · rw [hs] at h ⊢
    have h' : strFind url '/' 7 = some p := h
    obtain ⟨a, b⟩ := parseUrlFrom_reassembles url 7 "80" p h'
    rw [hp]
    constructor
    · intro hc
      apply String.ext
      simp only [String.data_append]
      rw [List.append_assoc, List.append_assoc, List.append_assoc]
      conv_lhs => rw [hu]
      congr 1
      have := a hc
      simpa using this
    · intro hc
      apply String.ext
      simp only [String.data_append]
      rw [List.append_assoc]
      conv_lhs => rw [hu]
      congr 1
      exact b hc
  · rw [hs] at h ⊢
    have h' : strFind url '/' 8 = some p := h
    obtain ⟨a, b⟩ := parseUrlFrom_reassembles url 8 "443" p h'
    rw [hp]
    constructor
    · intro hc
      apply String.ext
      simp only [String.data_append]
      rw [List.append_assoc, List.append_assoc, List.append_assoc]
      conv_lhs => rw [hu]
      congr 1
      have := a hc
      simpa using this
    · intro hc
      apply String.ext
      simp only [String.data_append]
      rw [List.append_assoc]
      conv_lhs => rw [hu]
      congr 1
      exact b hc
  · rw [hs] at h ⊢
    have h' : strFind url '/' 0 = some p := h
    obtain ⟨a, b⟩ := parseUrlFrom_reassembles url 0 "80" p h'
    rw [hp]
    constructor
    · intro hc
      apply String.ext
      have := a hc
      simpa [String.data_append] using this
    · intro hc
      apply String.ext
      have := b hc
      simpa [String.data_append] using this

/-- C27 (witness): a url with scheme, port and path, and one with neither scheme
nor port. -/
theorem parseUrl_reassembles_url_with_path_witness :
    strFind "https://example.com:8443/a/b?x=1" '/' (schemeText "https://example.com:8443/a/b?x=1").length
        = some 24
      ∧ parseUrl "https://example.com:8443/a/b?x=1" = ("example.com", "8443", "/a/b?x=1")
      ∧ ("https://example.com:8443/a/b?x=1"
          = schemeText "https://example.com:8443/a/b?x=1"
            ++ (parseUrl "https://example.com:8443/a/b?x=1").1 ++ ":"
            ++ (parseUrl "https://example.com:8443/a/b?x=1").2.1
            ++ (parseUrl "https://example.com:8443/a/b?x=1").2.2) :=
  ⟨by decide, by decide,
    (parseUrl_reassembles_url_with_path "https://example.com:8443/a/b?x=1" 24 (by decide)).1
      (by decide)⟩

/-! ## Theorems: WebSocket handler, `connect` -/

namespace WebSocketHandler

theorem liftLib_catch_kind (e : LibException) :
    ∃ c m, Impl.connectCatch (liftLib e) = Thrown.error c m ∧ c ≠ ErrorCode.INVALID_CONFIG := by
  cases e with
  | system w => exact ⟨_, _, rfl, by decide⟩
  | other w => exact ⟨_, _, rfl, by decide⟩

/-- Once the url has passed the checks, `Impl::connect` first resolves the host
and port, upgrades with the host and target it was given, and what it throws
does not have kind `INVALID_CONFIG`. -/
theorem openStream_spec (env : ConnectEnv) (config : RequestConfig) (is_secure : Bool)
    (host port target : String) (s : State) :
    (∃ rest, (Impl.openStream env config is_secure host port target s).2.log
          = s.log ++ WsOp.resolve host port :: rest
        ∧ ∀ h t hs, WsOp.handshake h t hs ∈ rest → h = host ∧ t = target ∧ hs = config.headers)
      ∧ ∀ t, (Impl.openStream env config is_secure host port target s).1 = Outcome.thrown t →
          ∃ c m, Impl.connectCatch t = Thrown.error c m ∧ c ≠ ErrorCode.INVALID_CONFIG := by
  unfold Impl.openStream
  cases env.resolve s.log.length host port with
  | inl e =>
      refine ⟨⟨[], by simp [logOp], by simp⟩, ?_⟩
      intro t ht
      cases ht
      exact liftLib_catch_kind e
  | inr b =>
      cases b with
      | false =>
          refine ⟨⟨[], by simp [logOp], by simp⟩, ?_⟩
          intro t ht
          cases ht
          exact ⟨_, _, rfl, by decide⟩
      | true =>
          cases is_secure with
          | true =>
              simp only [if_true]
              cases env.connectStream (logOp (WsOp.setSNI host)
                  (logOp (WsOp.resolve host port) s)).log.length with
              | some e =>
                  refine ⟨⟨[WsOp.setSNI host, WsOp.connectStream], by simp [logOp], by simp⟩, ?_⟩
                  intro t ht
                  cases ht
                  exact liftLib_catch_kind e
              | none =>
                  dsimp only
                  cases env.sslHandshake (logOp WsOp.connectStream (logOp (WsOp.setSNI host)
                      (logOp (WsOp.resolve host port) s))).log.length with
                  | some e =>
                      refine ⟨⟨[WsOp.setSNI host, WsOp.connectStream, WsOp.sslHandshake],
                        by simp [logOp], by simp⟩, ?_⟩
                      intro t ht
                      cases ht
                      exact liftLib_catch_kind e
                  | none =>
                      dsimp only
                      cases env.handshake (logOp WsOp.sslHandshake (logOp WsOp.connectStream
                          (logOp (WsOp.setSNI host)
                            (logOp (WsOp.resolve host port) s)))).log.length with
                      | some w =>
                          refine ⟨⟨[WsOp.setSNI host, WsOp.connectStream, WsOp.sslHandshake,
                            WsOp.handshake host target config.headers],
                            by simp [logOp], by simp⟩, ?_⟩
                          intro t ht
                          cases ht
                          exact ⟨_, _, rfl, by decide⟩
                      | none =>
                          refine ⟨⟨[WsOp.setSNI host, WsOp.connectStream, WsOp.sslHandshake,
                            WsOp.handshake host target config.headers, WsOp.asyncRead,
                            WsOp.connectedCallback],
                            by simp [logOp, Impl.connected], by simp⟩, ?_⟩
                          intro t ht
                          cases ht
          | false =>
              simp only [Bool.false_eq_true, if_false]
              cases env.connectStream (logOp (WsOp.resolve host port) s).log.length with
              | some e =>
                  refine ⟨⟨[WsOp.connectStream], by simp [logOp], by simp⟩, ?_⟩
                  intro t ht
                  cases ht
                  exact liftLib_catch_kind e
              | none =>
                  dsimp only
                  cases env.handshake (logOp WsOp.connectStream
                      (logOp (WsOp.resolve host port) s)).log.length with
                  | some w =>
                      refine ⟨⟨[WsOp.connectStream, WsOp.handshake host target config.headers],
                        by simp [logOp], by simp⟩, ?_⟩
                      intro t ht
                      cases ht
                      exact ⟨_, _, rfl, by decide⟩
                  | none =>
                      refine ⟨⟨[WsOp.connectStream, WsOp.handshake host target config.headers,
                        WsOp.asyncRead, WsOp.connectedCallback],
                        by simp [logOp, Impl.connected], by simp⟩, ?_⟩
                      intro t ht
                      cases ht

theorem connectTry_accepted (env : ConnectEnv) (config : RequestConfig) (s : State)
    (u : UrlView) (hu : env.parse_uri config.url = some u)
    (hs : u.scheme = "ws" ∨ u.scheme = "wss") (hh : u.host ≠ "") :
    Impl.connectTry env config s
      = Impl.openStream env config (decide (u.scheme = "wss")) u.host
          (match u.port with
            | some p => p
            | none => if u.scheme = "wss" then "443" else "80")
          (if u.path = "" then "/" else u.path) s := by
  unfold Impl.connectTry
  rw [hu]
  have h1 : ¬ (u.scheme ≠ "ws" ∧ u.scheme ≠ "wss") := by
    rintro ⟨a, b⟩
    rcases hs with h | h
    · exact a h
    · exact b h
  simp only [h1, if_false, hh]
  cases u.port <;> simp

theorem openStream_not_null (env : ConnectEnv) (config : RequestConfig) (is_secure : Bool)
    (host port target : String) (s : State) :
    (Impl.openStream env config is_secure host port target s).1 ≠ Outcome.nullDeref := by
  unfold Impl.openStream
  dsimp only
  repeat' split
  all_goals simp [Impl.connected]

theorem connectTry_not_null (env : ConnectEnv) (config : RequestConfig) (s : State) :
    (Impl.connectTry env config s).1 ≠ Outcome.nullDeref := by
  unfold Impl.connectTry
  split
  · simp
  · split
    · simp
    · dsimp only
      split
      · simp
      · exact openStream_not_null _ _ _ _ _ _ _

theorem Impl.connect_outcome (env : ConnectEnv) (config : RequestConfig) (s : State) :
    (Impl.connect env config s).1 = Outcome.ok ()
      ∨ ∃ c m, (Impl.connect env config s).1 = Outcome.thrown (Thrown.error c m) := by
  have hn := connectTry_not_null env config s
  unfold Impl.connect
  generalize Impl.connectTry env config s = r at hn
  obtain ⟨o, t⟩ := r
  cases o with
  | ok u => exact Or.inl rfl
  | nullDeref => exact absurd rfl hn
  | thrown e =>
      right
      cases e with
      | error c m => exact ⟨_, _, rfl⟩
      | zmq w => exact ⟨_, _, rfl⟩
      | system w => exact ⟨_, _, rfl⟩
      | other w => exact ⟨_, _, rfl⟩

/-- The member `WebSocketHandler::connect` returns whatever `Impl::connect`
did; an `Error` of `Impl::connect` becomes one emission of `errorOccurred`
with the text of the `Error`. -/
theorem connect_swallows (env : ConnectEnv) (config : RequestConfig) (s : State) :
    (connect env config s).1 = Outcome.ok ()
      ∧ ∀ c m, (Impl.connect env config s).1 = Outcome.thrown (Thrown.error c m) →
          connect env config s
            = (Outcome.ok (), logOp (WsOp.emitErrorOccurred m) (Impl.connect env config s).2) := by
  have h := Impl.connect_outcome env config s
  unfold connect
  generalize Impl.connect env config s = r at h
  obtain ⟨o, t⟩ := r
  rcases h with h | ⟨c, m, h⟩
  · simp only at h
    subst h
    exact ⟨rfl, fun c m hc => by cases hc⟩
  · simp only at h
    subst h
    refine ⟨rfl, fun c2 m2 hc => ?_⟩
    cases hc
    rfl

/-- C22: `Impl::connect` fails with kind `INVALID_CONFIG` exactly when the url
is no URI, or its scheme is neither `ws` nor `wss`, or its host is empty, and
then nothing has been resolved or opened (the state is untouched). For a url
that passes, the first thing it does is resolve the url's host with the url's
port when there is one, else `80` for `ws` and `443` for `wss`, and every
upgrade it makes is to that host with the url's path as target, `/` when the
path is empty. The member `WebSocketHandler::connect` that wraps it raises
nothing: it returns, and an `Error` of `Impl::connect` has become one emission
of `errorOccurred` carrying its text. -/
theorem connect_validates_url_and_reports_by_signal :
    (∀ (env : ConnectEnv) (config : RequestConfig) (s : State),
        ((Impl.connect env config s).1.failsWith ErrorCode.INVALID_CONFIG
          ↔ (env.parse_uri config.url = none
              ∨ ∃ u, env.parse_uri config.url = some u
                  ∧ ((u.scheme ≠ "ws" ∧ u.scheme ≠ "wss") ∨ u.host = "")))
        ∧ ((Impl.connect env config s).1.failsWith ErrorCode.INVALID_CONFIG →
            (Impl.connect env config s).2 = s))
      ∧ (∀ (env : ConnectEnv) (config : RequestConfig) (s : State) (u : UrlView),
          env.parse_uri config.url = some u → (u.scheme = "ws" ∨ u.scheme = "wss") →
          u.host ≠ "" →
            ∃ rest, (Impl.connect env config s).2.log
                = s.log ++ WsOp.resolve u.host
                    (match u.port with
                      | some p => p
                      | none => if u.scheme = "wss" then "443" else "80") :: rest
              ∧ ∀ h t hs, WsOp.handshake h t hs ∈ rest →
                  h = u.host ∧ t = (if u.path = "" then "/" else u.path))
      ∧ (∀ (env : ConnectEnv) (config : RequestConfig) (s : State),
          (connect env config s).1 = Outcome.ok ()
            ∧ ¬ (connect env config s).1.failsWith ErrorCode.INVALID_CONFIG
            ∧ ∀ c m, (Impl.connect env config s).1 = Outcome.thrown (Thrown.error c m) →
                connect env config s
                  = (Outcome.ok (),
                      logOp (WsOp.emitErrorOccurred m) (Impl.connect env config s).2))
      ∧ (Impl.connect
            (envConnecting (some { scheme := "wss", host := "example.com", port := none,
                                   path := "" }))
            { url := "wss://example.com" } State.init).2.log
          = [WsOp.resolve "example.com" "443", WsOp.setSNI "example.com", WsOp.connectStream,
              WsOp.sslHandshake, WsOp.handshake "example.com" "/" [], WsOp.asyncRead,
              WsOp.connectedCallback]
      ∧ (Impl.connect
            (envConnecting (some { scheme := "ws", host := "example.com", port := some "9000",
                                   path := "/chat" }))
            { url := "ws://example.com:9000/chat" } State.init).2.log
          = [WsOp.resolve "example.com" "9000", WsOp.connectStream,
              WsOp.handshake "example.com" "/chat" [], WsOp.asyncRead,
              WsOp.connectedCallback] := by
  refine ⟨?_, ?_, ?_, by decide, by decide⟩
  · intro env config s
    cases hu : env.parse_uri config.url with
    | none =>
        have e : Impl.connect env config s
            = (Outcome.thrown (Thrown.error ErrorCode.INVALID_CONFIG
                "Invalid WebSocket URL format"), s) := by
          simp [Impl.connect, Impl.connectTry, hu, Impl.connectCatch]
        rw [e]
        exact ⟨⟨fun _ => Or.inl rfl, fun _ => ⟨_, rfl⟩⟩, fun _ => rfl⟩
    | some u =>
        by_cases hs : u.scheme ≠ "ws" ∧ u.scheme ≠ "wss"
        · have e : Impl.connect env config s
              = (Outcome.thrown (Thrown.error ErrorCode.INVALID_CONFIG
                  "URL must start with ws:// or wss://"), s) := by
            simp [Impl.connect, Impl.connectTry, hu, Impl.connectCatch, hs]
          rw [e]
          exact ⟨⟨fun _ => Or.inr ⟨u, rfl, Or.inl hs⟩, fun _ => ⟨_, rfl⟩⟩, fun _ => rfl⟩
        · by_cases hh : u.host = ""
          · have e : Impl.connect env config s
                = (Outcome.thrown (Thrown.error ErrorCode.INVALID_CONFIG
                    "Invalid host in WebSocket URL"), s) := by
              simp only [Impl.connect, Impl.connectTry, hu, hs, if_false, hh, if_true,
                Impl.connectCatch]
            rw [e]
            exact ⟨⟨fun _ => Or.inr ⟨u, rfl, Or.inr hh⟩, fun _ => ⟨_, rfl⟩⟩, fun _ => rfl⟩
          · have hs2 : u.scheme = "ws" ∨ u.scheme = "wss" := by
              by_contra hc
              push_neg at hc
              exact hs hc
            have hnot : ¬ (Impl.connect env config s).1.failsWith ErrorCode.INVALID_CONFIG := by
              rintro ⟨m, hm⟩
              unfold Impl.connect at hm
              rw [connectTry_accepted env config s u hu hs2 hh] at hm
              have hk := (openStream_spec env config (decide (u.scheme = "wss")) u.host
                (match u.port with
                  | some p => p
                  | none => if u.scheme = "wss" then "443" else "80")
                (if u.path = "" then "/" else u.path) s).2
              generalize Impl.openStream env config (decide (u.scheme = "wss")) u.host
                (match u.port with
                  | some p => p
                  | none => if u.scheme = "wss" then "443" else "80")
                (if u.path = "" then "/" else u.path) s = r at hm hk
              obtain ⟨o, t⟩ := r
              cases o with
              | ok x => cases hm
              | nullDeref => cases hm
              | thrown e =>
                  obtain ⟨c, m2, h1, h2⟩ := hk e rfl
                  simp only at hm
                  rw [h1] at hm
                  cases hm
                  exact h2 rfl
            refine ⟨⟨fun h => absurd h hnot, ?_⟩, fun h => absurd h hnot⟩
            rintro (h | ⟨u2, h1, h2⟩)
            · cases h
            · cases h1
              rcases h2 with h2 | h2
              · exact absurd h2 hs
              · exact absurd h2 hh
  · intro env config s u hu hs hh
    have hl : (Impl.connect env config s).2.log = (Impl.connectTry env config s).2.log := by
      unfold Impl.connect
      split <;> simp_all
    rw [hl, connectTry_accepted env config s u hu hs hh]
    obtain ⟨rest, h1, h2⟩ := (openStream_spec env config (decide (u.scheme = "wss")) u.host
      (match u.port with
        | some p => p
        | none => if u.scheme = "wss" then "443" else "80")
      (if u.path = "" then "/" else u.path) s).1
    exact ⟨rest, h1, fun h t hs' hm => ⟨(h2 h t hs' hm).1, (h2 h t hs' hm).2.1⟩⟩
  · intro env config s
    obtain ⟨h1, h2⟩ := connect_swallows env config s
    refine ⟨h1, ?_, h2⟩
    rintro ⟨m, hm⟩
    rw [h1] at hm
    cases hm

/-- C22 (counterexample): given an `http` url, `WebSocketHandler::connect` does
not fail with kind `INVALID_CONFIG`, it returns; the rejection is reported
through `errorOccurred`. -/
theorem connect_returns_on_rejected_url :
    connect (envConnecting (some httpView)) { url := "http://example.com/" } State.init
      = (Outcome.ok (),
          { ws_ := none,
            log := [WsOp.emitErrorOccurred "URL must start with ws:// or wss://"] })
      ∧ ¬ (connect (envConnecting (some httpView)) { url := "http://example.com/" }
            State.init).1.failsWith ErrorCode.INVALID_CONFIG := by
  refine ⟨by decide, ?_⟩
  rintro ⟨m, hm⟩
  have h : (connect (envConnecting (some httpView)) { url := "http://example.com/" }
      State.init).1 = Outcome.ok () := by decide
  rw [h] at hm
  cases hm

end WebSocketHandler

end flowdriver
